import Mathlib

/-!
# Verification of the Lapis interpreter core

A shallow embedding, in Lean 4, of the parts of the Lapis tree-walking
interpreter (Python sources: `source_map.py`, `lexer.py`, `parser.py`,
`ast_nodes.py`, `environment.py`, `interpreter.py`) that the verified
claims are about, together with theorems settling those claims.

Modelling conventions, used throughout:

* Python `int` is `Int`; Python `float` is modelled by `Rat` (exact rational
  arithmetic stands in for IEEE doubles; every claim below concerns the
  integer/float *tag* of results, never a rounded payload, and the
  divergences this choice introduces are noted in doc comments at the
  definitions concerned).
* Fallible Python code returns `Except` / a result sum; exceptions used for
  control flow (`ReturnException`, `BreakException`, `ContinueException`)
  and error exceptions are the explicit `ERes` outcome type.
* Mutable interpreter state (the environment heap and instance heap) is
  passed explicitly; unbounded recursion is made structural with a `fuel`
  parameter, `none` meaning "fuel exhausted" (all theorems quantify over
  terminating runs, i.e. runs returning `some`).
-/

set_option maxHeartbeats 1000000

namespace Lapis

/-- Byte position pair produced by `SourceFile.offset_to_position`
(1-indexed line and column), from `source_map.py`. -/
structure Position where
  line : Nat
  column : Nat
deriving Repr, DecidableEq

/-- A source span `(file_id, start, end)`, `end` exclusive (`source_map.Span`).
The `stop` field is Python's `end` (a Lean keyword). -/
structure Span where
  file_id : Nat
  start : Nat
  stop : Nat
deriving Repr, DecidableEq

/-! ## Source map (`source_map.py`, class `SourceFile`) -/

/-- The `i + 1` entries contributed by each newline byte, scanning `content`
from byte index `i0`: body of the loop in `SourceFile._compute_line_starts`. -/
def newline_starts : List Char → Nat → List Nat
  | [], _ => []
  | c :: rest, i => if c = '\n' then (i + 1) :: newline_starts rest (i + 1)
                    else newline_starts rest (i + 1)

/-- `SourceFile._compute_line_starts`: `[0]` followed by the index of the byte
after every `'\n'`. -/
def compute_line_starts (content : List Char) : List Nat :=
  0 :: newline_starts content 0

/-- The loop of `SourceFile.offset_to_position` as a pure search: index of the
first element `> o`, if any (`enumerate` + `break`). -/
def first_gt_idx (ls : List Nat) (o : Nat) : Option Nat :=
  match ls with
  | [] => none
  | s :: rest => if s > o then some 0 else (first_gt_idx rest o).map (· + 1)

/-- `SourceFile.offset_to_position`: out-of-range offsets fail; otherwise the
line is the index of the largest line start `≤ offset` (1-indexed), and the
column is `offset − line_start + 1`.  `offset` is `Int` so that the Python
`offset < 0` branch is represented. -/
def offset_to_position (content : List Char) (offset : Int) : Except String Position :=
  if offset < 0 ∨ offset > (content.length : Int) then
    .error "Offset out of bounds"
  else
    let ls := compute_line_starts content
    let o := offset.toNat
    let line_num := match first_gt_idx ls o with
      | some i => i
      | none => ls.length
    let line_start := ls.getD (line_num - 1) 0
    .ok ⟨line_num, o - line_start + 1⟩

/-! ### Facts about the line-start table and the search loop -/

theorem newline_starts_mem_bounds (l : List Char) (i : Nat) :
    ∀ x ∈ newline_starts l i, i < x ∧ x ≤ i + l.length := by
  induction l generalizing i with
  | nil => intro x hx; simp [newline_starts] at hx
  | cons c rest ih =>
    intro x hx
    simp only [newline_starts] at hx
    by_cases hc : c = '\n'
    · rw [if_pos hc] at hx
      rcases List.mem_cons.mp hx with h | h
      · subst h
        exact ⟨Nat.lt_succ_self i, by simp only [List.length_cons]; omega⟩
      · have := ih (i + 1) x h
        exact ⟨by omega, by simp only [List.length_cons]; omega⟩
    · rw [if_neg hc] at hx
      have := ih (i + 1) x hx
      exact ⟨by omega, by simp only [List.length_cons]; omega⟩

theorem newline_starts_pairwise (l : List Char) (i : Nat) :
    List.Pairwise (· < ·) (newline_starts l i) := by
  induction l generalizing i with
  | nil => simp [newline_starts]
  | cons c rest ih =>
    simp only [newline_starts]
    by_cases hc : c = '\n'
    · rw [if_pos hc]
      refine List.Pairwise.cons ?_ (ih (i + 1))
      intro x hx
      exact (newline_starts_mem_bounds rest (i + 1) x hx).1
    · rw [if_neg hc]; exact ih (i + 1)

theorem compute_line_starts_pairwise (content : List Char) :
    List.Pairwise (· < ·) (compute_line_starts content) := by
  refine List.Pairwise.cons ?_ (newline_starts_pairwise content 0)
  intro x hx
  exact (newline_starts_mem_bounds content 0 x hx).1

theorem compute_line_starts_le_len (content : List Char) :
    ∀ x ∈ compute_line_starts content, x ≤ content.length := by
  intro x hx
  rcases List.mem_cons.mp hx with rfl | hx
  · exact Nat.zero_le _
  · have := newline_starts_mem_bounds content 0 x hx
    omega

theorem first_gt_idx_none (ls : List Nat) (o : Nat)
    (h : first_gt_idx ls o = none) : ∀ x ∈ ls, x ≤ o := by
  induction ls with
  | nil => intro x hx; simp at hx
  | cons s rest ih =>
    intro x hx
    simp only [first_gt_idx] at h
    by_cases hs : s > o
    · rw [if_pos hs] at h; exact absurd h (by simp)
    · rw [if_neg hs] at h
      rcases List.mem_cons.mp hx with rfl | hx
      · omega
      · exact ih (by cases hfg : first_gt_idx rest o <;> simp [hfg] at h ⊢) x hx

theorem first_gt_idx_some (ls : List Nat) (o : Nat) (k : Nat)
    (h : first_gt_idx ls o = some k) :
    k < ls.length ∧ o < ls.getD k 0 ∧ ∀ j < k, ls.getD j 0 ≤ o := by
  induction ls generalizing k with
  | nil => simp [first_gt_idx] at h
  | cons s rest ih =>
    simp only [first_gt_idx] at h
    by_cases hs : s > o
    · rw [if_pos hs] at h
      have hk : k = 0 := by simpa using (Option.some.inj h).symm
      subst hk
      refine ⟨by simp, by simpa using hs, fun j hj => absurd hj (by omega)⟩
    · rw [if_neg hs] at h
      cases hfg : first_gt_idx rest o with
      | none => rw [hfg] at h; simp at h
      | some k' =>
        rw [hfg] at h
        simp only [Option.map_some'] at h
        have hk : k = k' + 1 := (Option.some.inj h).symm
        subst hk
        obtain ⟨h1, h2, h3⟩ := ih k' hfg
        refine ⟨by simpa using h1, by simpa using h2, ?_⟩
        intro j hj
        cases j with
        | zero => simpa using le_of_not_lt hs
        | succ j' => simpa using h3 j' (by omega)

/-- For a strictly sorted list, `getD` is strictly monotone on valid indices. -/
theorem pairwise_getD_lt (ls : List Nat) (h : List.Pairwise (· < ·) ls)
    {j k : Nat} (hjk : j < k) (hk : k < ls.length) :
    ls.getD j 0 < ls.getD k 0 := by
  have hj : j < ls.length := lt_trans hjk hk
  rw [List.getD_eq_get ls 0 hj, List.getD_eq_get ls 0 hk]
  exact List.pairwise_iff_get.mp h ⟨j, hj⟩ ⟨k, hk⟩ hjk

/-- C7: for every source content and byte offset `o` with `0 ≤ o ≤ len`,
`offset_to_position` returns a position `(L, C)` satisfying
`line_starts[L-1] + C - 1 = o`, where `line_starts[L-1]` is the largest line
start `≤ o`; for any offset outside that range it fails. -/
theorem C7_offset_to_position_spec (content : List Char) (offset : Int) :
    (0 ≤ offset ∧ offset ≤ (content.length : Int) →
      ∃ L C, offset_to_position content offset = .ok ⟨L, C⟩ ∧
        1 ≤ L ∧ L ≤ (compute_line_starts content).length ∧
        (compute_line_starts content).getD (L - 1) 0 + C - 1 = offset.toNat ∧
        (compute_line_starts content).getD (L - 1) 0 ≤ offset.toNat ∧
        (∀ s ∈ compute_line_starts content, s ≤ offset.toNat →
          s ≤ (compute_line_starts content).getD (L - 1) 0)) ∧
    (offset < 0 ∨ (content.length : Int) < offset →
      ∃ msg, offset_to_position content offset = .error msg) := by
  constructor
  · rintro ⟨h0, h1⟩
    set ls := compute_line_starts content with hls
    have hpw : List.Pairwise (· < ·) ls := compute_line_starts_pairwise content
    have hlen : 0 < ls.length := by rw [hls]; simp [compute_line_starts]
    have hhead : ls.getD 0 0 = 0 := by rw [hls]; simp [compute_line_starts]
    set o := offset.toNat with ho
    have hrange : ¬(offset < 0 ∨ offset > (content.length : Int)) := by omega
    rw [offset_to_position, if_neg hrange]
    cases hfg : first_gt_idx ls o with
    | some i =>
      obtain ⟨hi_len, hi_gt, hi_le⟩ := first_gt_idx_some ls o i hfg
      have hi_pos : 1 ≤ i := by
        rcases Nat.eq_zero_or_pos i with rfl | h
        · rw [hhead] at hi_gt; omega
        · exact h
      refine ⟨i, o - ls.getD (i - 1) 0 + 1, ?_, hi_pos, le_of_lt hi_len, ?_, ?_, ?_⟩
      · simp only [← hls, ← ho, hfg]
      · have := hi_le (i - 1) (by omega); omega
      · exact hi_le (i - 1) (by omega)
      · intro s hs hso
        obtain ⟨⟨j, hj⟩, hget⟩ := List.mem_iff_get.mp hs
        have hsj : ls.getD j 0 = s := by rw [List.getD_eq_get ls 0 hj, hget]
        by_cases hji : j < i
        · rcases Nat.lt_or_ge j (i - 1) with h | h
          · have := pairwise_getD_lt ls hpw h (by omega)
            omega
          · have : j = i - 1 := by omega
            subst this; omega
        · exfalso
          rcases Nat.eq_or_lt_of_le (le_of_not_lt hji) with rfl | h
          · omega
          · have := pairwise_getD_lt ls hpw h hj
            omega
    | none =>
      have hall := first_gt_idx_none ls o hfg
      have hlast_le : ls.getD (ls.length - 1) 0 ≤ o := by
        apply hall
        rw [List.getD_eq_get ls 0 (by omega)]
        exact List.get_mem _ _ _
      refine ⟨ls.length, o - ls.getD (ls.length - 1) 0 + 1, ?_, hlen, le_refl _, ?_, hlast_le, ?_⟩
      · simp only [← hls, ← ho, hfg]
      · omega
      · intro s hs hso
        obtain ⟨⟨j, hj⟩, hget⟩ := List.mem_iff_get.mp hs
        have hsj : ls.getD j 0 = s := by rw [List.getD_eq_get ls 0 hj, hget]
        rcases Nat.lt_or_ge j (ls.length - 1) with h | h
        · have := pairwise_getD_lt ls hpw h (by omega)
          omega
        · have : j = ls.length - 1 := by omega
          subst this; omega
  · intro h
    refine ⟨"Offset out of bounds", ?_⟩
    rw [offset_to_position, if_pos (by omega)]

/-- Witness for C7 at the concrete file content `"ab\nc"` and offset `3`
(line 2, column 1). -/
theorem C7_offset_to_position_spec_witness :
    (0 ≤ (3 : Int) ∧ (3 : Int) ≤ ((['a', 'b', '\n', 'c'] : List Char).length : Int)) ∧
    (∃ L C, offset_to_position ['a', 'b', '\n', 'c'] 3 = .ok ⟨L, C⟩ ∧
      1 ≤ L ∧ L ≤ (compute_line_starts ['a', 'b', '\n', 'c']).length ∧
      (compute_line_starts ['a', 'b', '\n', 'c']).getD (L - 1) 0 + C - 1 = (3 : Int).toNat ∧
      (compute_line_starts ['a', 'b', '\n', 'c']).getD (L - 1) 0 ≤ (3 : Int).toNat ∧
      (∀ s ∈ compute_line_starts ['a', 'b', '\n', 'c'], s ≤ (3 : Int).toNat →
        s ≤ (compute_line_starts ['a', 'b', '\n', 'c']).getD (L - 1) 0)) :=
  ⟨⟨by decide, by decide⟩,
    (C7_offset_to_position_spec ['a', 'b', '\n', 'c'] 3).1 ⟨by decide, by decide⟩⟩

/-! ## Tokens (`tokens.py`) -/

/-- `tokens.TokenType` (the `COMMENT` member is never produced and is kept for
completeness). -/
inductive TokenType where
  | NUMBER | STRING | TEMPLATE_LITERAL | IDENTIFIER | BOOLEAN
  | PACKAGE | USE | VAR | FUNC | CLASS | IF | ELSE | ELIF | WHILE | FOR | IN
  | RETURN | END | THIS | INIT | PUBLIC | PRIVATE | TRUE | FALSE | NULL
  | BREAK | CONTINUE | TRY | CATCH | FINALLY | SWITCH | CASE | DEFAULT
  | PLUS | MINUS | MULTIPLY | DIVIDE | POWER | MODULO
  | ASSIGN | PLUS_PLUS | MINUS_MINUS
  | EQUAL | NOT_EQUAL | LESS | LESS_EQUAL | GREATER | GREATER_EQUAL
  | AND | OR | NOT
  | LEFT_PAREN | RIGHT_PAREN | LEFT_BRACE | RIGHT_BRACE
  | LEFT_BRACKET | RIGHT_BRACKET | COMMA | SEMICOLON | DOT | COLON
  | NEWLINE | TAB | EOF | COMMENT
deriving Repr, DecidableEq

/-- The Python `Any`-typed `Token.literal` field: `None`, an `int` or `float`
(number literals; floats modelled as exact rationals), a decoded string, a
template-literal part list (pairs `(text, expr_text)`, exactly one of which is
`None` in each part, as built by `Lexer.template_literal`), an identifier
name, a boolean, or the `null` literal value. -/
inductive TokenLiteral where
  | noneL
  | intL (n : Int)
  | floatL (q : Rat)
  | strL (s : String)
  | tmplL (parts : List (Option String × Option String))
  | identL (s : String)
  | boolL (b : Bool)
  | nullL
deriving Repr, DecidableEq

/-- `tokens.Token`. -/
structure Token where
  type : TokenType
  lexeme : String
  literal : TokenLiteral
  line : Nat
  column : Nat
  span : Option Span
deriving Repr, DecidableEq

/-- `tokens.KEYWORDS` lookup (`dict.get` with `IDENTIFIER` default). -/
def keywordLookup (text : String) : TokenType :=
  match text with
  | "package" => .PACKAGE | "use" => .USE | "var" => .VAR | "func" => .FUNC
  | "class" => .CLASS | "if" => .IF | "else" => .ELSE | "elif" => .ELIF
  | "while" => .WHILE | "for" => .FOR | "in" => .IN | "return" => .RETURN
  | "end" => .END | "this" => .THIS | "init" => .INIT | "public" => .PUBLIC
  | "private" => .PRIVATE | "true" => .TRUE | "false" => .FALSE
  | "null" => .NULL | "break" => .BREAK | "continue" => .CONTINUE
  | "try" => .TRY | "catch" => .CATCH | "finally" => .FINALLY
  | "switch" => .SWITCH | "case" => .CASE | "default" => .DEFAULT
  | _ => .IDENTIFIER

/-! ## Lexer (`lexer.py`) -/

/-- A structured lexer failure: `errors.LexError` (or the `LexError.from_simple`
calls in `lexer.py`), reduced to its diagnostic code, message and span. -/
structure LexFail where
  code : String
  message : String
  span : Span
deriving Repr, DecidableEq

/-- Python `str.strip()`, made kernel-reducible (Lean's `String.trim` does
not reduce definitionally): drop whitespace from both ends. -/
def py_strip (s : String) : String :=
  String.mk (((s.data.dropWhile Char.isWhitespace).reverse.dropWhile
    Char.isWhitespace).reverse)

/-- Mutable fields of the `Lexer` object. -/
structure LexState where
  source : List Char
  file_id : Nat
  tokens : List Token
  current : Nat
  line : Nat
  column : Nat
  start : Nat
deriving Repr, DecidableEq

namespace LexState

/-- Fresh lexer over `source` (`Lexer.__init__`; the global source-map
registration is abstracted into the `file_id` argument). -/
def init (source : List Char) (file_id : Nat) : LexState :=
  ⟨source, file_id, [], 0, 1, 1, 0⟩

/-- `Lexer.is_at_end`. -/
def is_at_end (st : LexState) : Bool := st.current ≥ st.source.length

/-- Indexing a Python string, with `'\0'` for out of range reads (the lexer
only reads out of range through `peek`/`advance`, which return `'\0'`). -/
def charAt (l : List Char) (i : Nat) : Char := l.getD i '\x00'

/-- `Lexer.advance`: consume and return the current character. -/
def advance (st : LexState) : Char × LexState :=
  if st.is_at_end then ('\x00', st)
  else (charAt st.source st.current,
        { st with current := st.current + 1, column := st.column + 1 })

/-- `Lexer.match`: conditionally consume the expected character. -/
def matchCh (st : LexState) (expected : Char) : Bool × LexState :=
  if st.is_at_end then (false, st)
  else if charAt st.source st.current ≠ expected then (false, st)
  else (true, { st with current := st.current + 1, column := st.column + 1 })

/-- `Lexer.peek`. -/
def peek (st : LexState) : Char :=
  if st.is_at_end then '\x00' else charAt st.source st.current

/-- `Lexer.peek_next`. -/
def peek_next (st : LexState) : Char :=
  if st.current + 1 ≥ st.source.length then '\x00'
  else charAt st.source (st.current + 1)

/-- Python slice `self.source[a:b]` as a string. -/
def slice (st : LexState) (a b : Nat) : String :=
  String.mk ((st.source.drop a).take (b - a))

/-- `Lexer.create_span`. -/
def create_span (st : LexState) : Span := ⟨st.file_id, st.start, st.current⟩

/-- `Lexer.add_token`. -/
def add_token (st : LexState) (tt : TokenType) (lit : TokenLiteral) : LexState :=
  let text := st.slice st.start st.current
  let span := st.create_span
  { st with tokens :=
      st.tokens ++ [⟨tt, text, lit, st.line, st.column - text.length, some span⟩] }

end LexState

namespace Lexer

open LexState

/-- `while self.peek().isdigit(): self.advance()` in `Lexer.number`.
Python's `str.isdigit` is modelled on ASCII digits (all claims use ASCII
sources). -/
def digits_loop (fuel : Nat) (st : LexState) : LexState :=
  match fuel with
  | 0 => st
  | fuel + 1 => if st.peek.isDigit then digits_loop fuel (st.advance).2 else st

/-- Value of a digit string. -/
def digitsToNat (cs : List Char) : Nat :=
  cs.foldl (fun a c => a * 10 + (c.toNat - 48)) 0

/-- `float(value_str)` on the scanned number text (digits, optionally `'.'`
and digits), as an exact rational.  Python parses to an IEEE double, which
rounds literals with more than ~17 significant digits; this model is exact,
which agrees with Python on whether the value is whole for all literals whose
value a double represents exactly. -/
def parse_number_value (cs : List Char) : Rat :=
  let ipart := cs.takeWhile (·.isDigit)
  let rest := cs.dropWhile (·.isDigit)
  match rest with
  | '.' :: frac => (digitsToNat ipart : Rat) + (digitsToNat frac : Rat) / ((10 : Rat) ^ frac.length)
  | _ => (digitsToNat ipart : Rat)

/-- `Lexer.number`: scan digits, an optional fractional part, and store the
value as an `int` when it is whole, else as a `float`
(`value.is_integer()` is `den = 1` on the exact rational). -/
def number (fuel : Nat) (st : LexState) : LexState :=
  let st1 := digits_loop fuel st
  let st2 := if st1.peek = '.' && st1.peek_next.isDigit
             then digits_loop fuel (st1.advance).2 else st1
  let cs := (st2.source.drop st2.start).take (st2.current - st2.start)
  let q := parse_number_value cs
  if q.den = 1 then st2.add_token .NUMBER (.intL q.num)
  else st2.add_token .NUMBER (.floatL q)

/-- `while (self.peek().isalnum() or self.peek() == '_'): self.advance()`
(ASCII model of `str.isalnum`). -/
def ident_loop (fuel : Nat) (st : LexState) : LexState :=
  match fuel with
  | 0 => st
  | fuel + 1 =>
    if st.peek.isAlphanum || st.peek == '_' then ident_loop fuel (st.advance).2 else st

/-- `Lexer.identifier`. -/
def identifier (fuel : Nat) (st : LexState) : LexState :=
  let st1 := ident_loop fuel st
  let text := st1.slice st1.start st1.current
  match keywordLookup text with
  | .TRUE => st1.add_token .TRUE (.boolL true)
  | .FALSE => st1.add_token .FALSE (.boolL false)
  | .NULL => st1.add_token .NULL .nullL
  | .IDENTIFIER => st1.add_token .IDENTIFIER (.identL text)
  | tt => st1.add_token tt .noneL

/-- The scanning loop of `Lexer.string` (body accumulated in `result`). -/
def string_loop (fuel : Nat) (st : LexState) (quote : Char) (result : String) :
    Option (Except LexFail (LexState × String)) :=
  match fuel with
  | 0 => none
  | fuel + 1 =>
    if st.peek != quote && !st.is_at_end then
      if st.peek == '\\' then
        let st1 := (st.advance).2
        if st1.is_at_end then
          some (.error ⟨"LAP1002", "unterminated string literal",
            ⟨st1.file_id, st1.start, st1.current⟩⟩)
        else
          let (escaped, st2) := st1.advance
          let piece :=
            if escaped = 'n' then "\n"
            else if escaped = 't' then "\t"
            else if escaped = '\\' then "\\"
            else if escaped = '"' then "\""
            else if escaped = '\'' then "'"
            else if escaped = quote then String.mk [quote]
            else String.mk ['\\', escaped]
          string_loop fuel st2 quote (result ++ piece)
      else
        let st1 := if st.peek = '\n' then { st with line := st.line + 1, column := 1 } else st
        let (c, st2) := st1.advance
        string_loop fuel st2 quote (result ++ String.mk [c])
    else some (.ok (st, result))

/-- `Lexer.string`. -/
def string_scan (fuel : Nat) (st : LexState) (quote : Char) :
    Option (Except LexFail LexState) :=
  match string_loop fuel st quote "" with
  | none => none
  | some (.error e) => some (.error e)
  | some (.ok (st1, result)) =>
    if st1.is_at_end then
      some (.error ⟨"LAP1002", "unterminated string literal",
        ⟨st1.file_id, st1.start, st1.current⟩⟩)
    else
      some (.ok (((st1.advance).2).add_token .STRING (.strL result)))

/-- The inner `while self.peek() != '}'` loop of `Lexer.template_literal`:
the expression region's characters are captured raw (no escape processing)
up to the first close brace. -/
def template_region_loop (fuel : Nat) (st : LexState) (var_name : String) :
    Option (LexState × String) :=
  match fuel with
  | 0 => none
  | fuel + 1 =>
    if st.peek != '}' && !st.is_at_end then
      let st1 := if st.peek = '\n' then { st with line := st.line + 1, column := 1 } else st
      let (c, st2) := st1.advance
      template_region_loop fuel st2 (var_name ++ String.mk [c])
    else some (st, var_name)

/-- The main scanning loop of `Lexer.template_literal`, accumulating the
`(text, expr)` part list. -/
def template_loop (fuel : Nat) (st : LexState)
    (parts : List (Option String × Option String)) (current_text : String) :
    Option (Except LexFail (LexState × List (Option String × Option String) × String)) :=
  match fuel with
  | 0 => none
  | fuel + 1 =>
    if st.peek != '`' && !st.is_at_end then
      if st.peek == '\\' then
        let st1 := (st.advance).2
        if st1.is_at_end then
          some (.error ⟨"LAP1002", "unterminated string literal",
            ⟨st1.file_id, st1.start, st1.current⟩⟩)
        else
          let (escaped, st2) := st1.advance
          let piece :=
            if escaped = 'n' then "\n"
            else if escaped = 't' then "\t"
            else if escaped = '\\' then "\\"
            else if escaped = '`' then "`"
            else if escaped = '{' then "\x7b"
            else if escaped = '}' then "\x7d"
            else String.mk ['\\', escaped]
          template_loop fuel st2 parts (current_text ++ piece)
      else if st.peek == '{' then
        let st1 := (st.advance).2
        let parts1 := if current_text ≠ "" then parts ++ [(some current_text, none)] else parts
        match template_region_loop fuel st1 "" with
        | none => none
        | some (st2, var_name) =>
          if st2.is_at_end then
            some (.error ⟨"LAP2006", "Unterminated template literal variable",
              ⟨st2.file_id, st2.start, st2.current⟩⟩)
          else
            template_loop fuel ((st2.advance).2)
              (parts1 ++ [(none, some (py_strip var_name))]) ""
      else
        let st1 := if st.peek = '\n' then { st with line := st.line + 1, column := 1 } else st
        let (c, st2) := st1.advance
        template_loop fuel st2 parts (current_text ++ String.mk [c])
    else some (.ok (st, parts, current_text))

/-- `Lexer.template_literal`. -/
def template_literal (fuel : Nat) (st : LexState) : Option (Except LexFail LexState) :=
  match template_loop fuel st [] "" with
  | none => none
  | some (.error e) => some (.error e)
  | some (.ok (st1, parts, current_text)) =>
    if st1.is_at_end then
      some (.error ⟨"LAP2006", "Unterminated template literal",
        ⟨st1.file_id, st1.start, st1.current⟩⟩)
    else
      let parts1 := if current_text ≠ "" then parts ++ [(some current_text, none)] else parts
      some (.ok (((st1.advance).2).add_token .TEMPLATE_LITERAL (.tmplL parts1)))

/-- The `// …` single-line comment loop in `Lexer.scan_token`. -/
def line_comment_loop (fuel : Nat) (st : LexState) : LexState :=
  match fuel with
  | 0 => st
  | fuel + 1 =>
    if st.peek != '\n' && !st.is_at_end then line_comment_loop fuel (st.advance).2 else st

/-- The nesting loop of `Lexer.multi_line_comment`; returns the state and the
final nesting level. -/
def multi_comment_loop (fuel : Nat) (st : LexState) (nesting : Nat) : Option (LexState × Nat) :=
  match fuel with
  | 0 => none
  | fuel + 1 =>
    if nesting > 0 && !st.is_at_end then
      if st.peek == '/' && st.peek_next == '*' then
        multi_comment_loop fuel (((st.advance).2).advance).2 (nesting + 1)
      else if st.peek == '*' && st.peek_next == '/' then
        multi_comment_loop fuel (((st.advance).2).advance).2 (nesting - 1)
      else if st.peek == '\n' then
        multi_comment_loop fuel
          (({ st with line := st.line + 1, column := 1 }).advance).2 nesting
      else
        multi_comment_loop fuel (st.advance).2 nesting
    else some (st, nesting)

/-- `Lexer.multi_line_comment`. -/
def multi_line_comment (fuel : Nat) (st : LexState) : Option (Except LexFail LexState) :=
  match multi_comment_loop fuel st 1 with
  | none => none
  | some (st1, nesting) =>
    if nesting > 0 then
      some (.error ⟨"LAP2005", "Unterminated multi-line comment", st1.create_span⟩)
    else some (.ok st1)

/-- `Lexer.scan_token`: scan one token (or skip whitespace / a comment)
starting at `st.start = st.current`. -/
def scan_token (fuel : Nat) (st : LexState) : Option (Except LexFail LexState) :=
  let (c, st) := st.advance
  if c = '(' then some (.ok (st.add_token .LEFT_PAREN .noneL))
  else if c = ')' then some (.ok (st.add_token .RIGHT_PAREN .noneL))
  else if c = '{' then some (.ok (st.add_token .LEFT_BRACE .noneL))
  else if c = '}' then some (.ok (st.add_token .RIGHT_BRACE .noneL))
  else if c = '[' then some (.ok (st.add_token .LEFT_BRACKET .noneL))
  else if c = ']' then some (.ok (st.add_token .RIGHT_BRACKET .noneL))
  else if c = ',' then some (.ok (st.add_token .COMMA .noneL))
  else if c = '.' then some (.ok (st.add_token .DOT .noneL))
  else if c = ';' then some (.ok (st.add_token .SEMICOLON .noneL))
  else if c = ':' then some (.ok (st.add_token .COLON .noneL))
  else if c = '%' then some (.ok (st.add_token .MODULO .noneL))
  else if c = '+' then
    let (m, st1) := st.matchCh '+'
    some (.ok (st1.add_token (if m then .PLUS_PLUS else .PLUS) .noneL))
  else if c = '-' then
    let (m, st1) := st.matchCh '-'
    some (.ok (st1.add_token (if m then .MINUS_MINUS else .MINUS) .noneL))
  else if c = '*' then
    let (m, st1) := st.matchCh '*'
    some (.ok (st1.add_token (if m then .POWER else .MULTIPLY) .noneL))
  else if c = '/' then
    let (m1, st1) := st.matchCh '/'
    if m1 then some (.ok (Lexer.line_comment_loop fuel st1))
    else
      let (m2, st2) := st1.matchCh '*'
      if m2 then Lexer.multi_line_comment fuel st2
      else some (.ok (st2.add_token .DIVIDE .noneL))
  else if c = '=' then
    let (m, st1) := st.matchCh '='
    some (.ok (st1.add_token (if m then .EQUAL else .ASSIGN) .noneL))
  else if c = '!' then
    let (m, st1) := st.matchCh '='
    some (.ok (st1.add_token (if m then .NOT_EQUAL else .NOT) .noneL))
  else if c = '<' then
    let (m, st1) := st.matchCh '='
    some (.ok (st1.add_token (if m then .LESS_EQUAL else .LESS) .noneL))
  else if c = '>' then
    let (m, st1) := st.matchCh '='
    some (.ok (st1.add_token (if m then .GREATER_EQUAL else .GREATER) .noneL))
  else if c = '&' then
    let (m, st1) := st.matchCh '&'
    if m then some (.ok (st1.add_token .AND .noneL))
    else some (.error ⟨"LAP1001", "unexpected character", st1.create_span⟩)
  else if c = '|' then
    let (m, st1) := st.matchCh '|'
    if m then some (.ok (st1.add_token .OR .noneL))
    else some (.error ⟨"LAP1001", "unexpected character", st1.create_span⟩)
  else if c = ' ' || c = '\r' then some (.ok st)
  else if c = '\t' then some (.ok (st.add_token .TAB .noneL))
  else if c = '\n' then
    some (.ok { st.add_token .NEWLINE .noneL with line := st.line + 1, column := 1 })
  else if c = '"' then Lexer.string_scan fuel st '"'
  else if c = '\'' then Lexer.string_scan fuel st '\''
  else if c = '`' then Lexer.template_literal fuel st
  else if c.isDigit then some (.ok (Lexer.number fuel st))
  else if c.isAlpha || c = '_' then some (.ok (Lexer.identifier fuel st))
  else some (.error ⟨"LAP1001", "unexpected character", st.create_span⟩)

/-- The `while not self.is_at_end()` loop of `Lexer.tokenize`. -/
def tokenize_loop (fuel : Nat) (st : LexState) : Option (Except LexFail LexState) :=
  match fuel with
  | 0 => none
  | fuel + 1 =>
    if !st.is_at_end then
      match scan_token fuel { st with start := st.current } with
      | none => none
      | some (.error e) => some (.error e)
      | some (.ok st1) => tokenize_loop fuel st1
    else some (.ok st)

/-- `Lexer.tokenize` over source text: scan to the end and append the `EOF`
token (which carries no span, as in the source). -/
def tokenize (fuel : Nat) (source : List Char) (file_id : Nat) :
    Option (Except LexFail (List Token)) :=
  match tokenize_loop fuel (LexState.init source file_id) with
  | none => none
  | some (.error e) => some (.error e)
  | some (.ok st) =>
    some (.ok (st.tokens ++ [⟨.EOF, "", .noneL, st.line, st.column, none⟩]))

end Lexer

/-! ## AST (`ast_nodes.py`) -/

/-- `ast_nodes.AccessModifier`. -/
inductive AccessModifier where
  | PUBLIC
  | PRIVATE
deriving Repr, DecidableEq

/-- The values a `LiteralExpression` can hold: `None`, booleans, numbers
(ints and floats), strings. -/
inductive Lit where
  | nullV
  | boolV (b : Bool)
  | intV (n : Int)
  | floatV (q : Rat)
  | strV (s : String)
deriving Repr, DecidableEq

/-- Expression nodes (`ast_nodes.py`).  All nodes carry the `span` the Python
constructor stores; node classes whose `__init__` does not call
`super().__init__` (and hence lack the attribute) always get `none` here —
the only code reading those spans does so behind `getattr(..., None)` or is
an error-reporting branch none of the claims exercise. -/
inductive Expr where
  | literal (value : Lit) (span : Option Span)
  | identifier (name : String) (span : Option Span)
  | binary (left : Expr) (operator : String) (right : Expr) (span : Option Span)
  | unary (operator : String) (operand : Expr)
  | call (callee : Expr) (arguments : List Expr) (span : Option Span)
  | get (object : Expr) (name : String)
  | setE (object : Expr) (name : String) (value : Expr)
  | index (object : Expr) (idx : Expr)
  | indexSet (object : Expr) (idx : Expr) (value : Expr)
  | array (elements : List Expr)
  | dictionary (pairs : List (Expr × Expr))
  | assignment (name : String) (value : Expr)
  | logical (left : Expr) (operator : String) (right : Expr)
  | thisE
  | postfixE (operand : Expr) (operator : String)
  | templateLiteral (parts : List (Option String × Option String)) (span : Option Span)
deriving Repr

/-- `getattr(expr, 'span', None)`: the nodes that store a span report it, the
rest report `None`. -/
def Expr.spanOf : Expr → Option Span
  | .literal _ s => s
  | .identifier _ s => s
  | .binary _ _ _ s => s
  | .call _ _ s => s
  | .templateLiteral _ s => s
  | _ => none

/-- Statement nodes (`ast_nodes.py`).  Class methods are `(name, params,
variadic_param, body)` tuples (the parser always builds them with `PUBLIC`
access, `ast_nodes.FunctionStatement`); switch cases are
`(values, body, is_default)` and catch clauses `(variable?, body)`. -/
inductive Stmt where
  | exprStmt (expression : Expr)
  | varStmt (name : String) (initializer : Option Expr) (access : AccessModifier)
  | block (statements : List Stmt)
  | ifStmt (condition : Expr) (then_branch : Stmt) (elif_branches : List (Expr × Stmt))
      (else_branch : Option Stmt)
  | whileStmt (condition : Expr) (body : Stmt)
  | forStmt (var_name : String) (iterable : Expr) (body : Stmt)
  | returnStmt (value : Option Expr)
  | funcStmt (name : String) (params : List String) (body : List Stmt)
      (access : AccessModifier) (variadic_param : Option String)
  | classStmt (name : String) (methods : List (String × List String × Option String × List Stmt))
      (constructor : Option (List String × Option String × List Stmt)) (access : AccessModifier)
  | packageStmt (path : String) (imports : Option (List String))
  | breakStmt
  | continueStmt
  | tryStmt (try_body : List Stmt) (catch_clauses : List (Option String × List Stmt))
      (finally_body : Option (List Stmt))
  | switchStmt (expression : Expr) (cases : List (List Expr × List Stmt × Bool))
deriving Repr

/-! ## Parser (`parser.py`), expression grammar

Only the expression entry point (`Parser.expression` and everything below it)
is embedded: it is the part of the parser the verified claims exercise (the
re-lexing/re-parsing of template-literal interpolations).  Statement-level
programs in the claims are written as `Stmt` values directly.  Diagnostic
message *text* is abbreviated ("expected token" / "expected expression");
codes and spans follow `errors.ParseError`. -/

/-- A structured parse failure (`errors.ParseError`). -/
structure ParseFail where
  code : String
  message : String
  span : Span
deriving Repr, DecidableEq

/-- Parser position (`Parser.tokens`, `Parser.current`). -/
structure PState where
  tokens : List Token
  current : Nat
deriving Repr

namespace Parser

/-- Default token for out-of-range reads; the Python parser never reads past
the `EOF` sentinel. -/
def eofToken : Token := ⟨.EOF, "", .noneL, 1, 1, none⟩

/-- `Parser.peek`. -/
def peek (p : PState) : Token := p.tokens.getD p.current eofToken

/-- `Parser.previous`. -/
def previous (p : PState) : Token := p.tokens.getD (p.current - 1) eofToken

/-- `Parser.is_at_end`. -/
def is_at_end (p : PState) : Bool := (peek p).type == .EOF

/-- `Parser.check`. -/
def check (p : PState) (tt : TokenType) : Bool :=
  if is_at_end p then false else (peek p).type == tt

/-- `Parser.advance`. -/
def advance (p : PState) : Token × PState :=
  if !is_at_end p then
    let p' : PState := { p with current := p.current + 1 }
    (previous p', p')
  else (previous p, p)

/-- `Parser.match(*types)`. -/
def matchT (p : PState) (tts : List TokenType) : Bool × PState :=
  if tts.any (check p) then
    let (_, p') := advance p
    (true, p')
  else (false, p)

/-- `Parser.consume`. -/
def consume (p : PState) (tt : TokenType) : Except ParseFail (Token × PState) :=
  if check p tt then .ok (advance p)
  else
    match (peek p).span with
    | some sp => .error ⟨"LAP2002", "expected token", sp⟩
    | none => .error ⟨"LAP2002", "expected token", ⟨0, 0, 1⟩⟩

/-- Python's `a or b` on two optional spans. -/
def orOpt (a b : Option Span) : Option Span :=
  match a with
  | some x => some x
  | none => b

/-- Literal extraction for `LiteralExpression(token.literal, token.span)`. -/
def litOfToken : TokenLiteral → Lit
  | .intL n => .intV n
  | .floatL q => .floatV q
  | .strL s => .strV s
  | .boolL b => .boolV b
  | .identL s => .strV s
  | _ => .nullV

/-- Identifier name stored in a token's `literal` field. -/
def identNameOf : TokenLiteral → String
  | .identL s => s
  | _ => ""

/-- Template parts stored in a token's `literal` field. -/
def partsOf : TokenLiteral → List (Option String × Option String)
  | .tmplL ps => ps
  | _ => []

/-- The `while self.match(NEWLINE) or self.match(TAB)` skip loops. -/
def skip_ws (fuel : Nat) (p : PState) : PState :=
  match fuel with
  | 0 => p
  | fuel + 1 =>
    let (m, p1) := matchT p [.NEWLINE, .TAB]
    if m then skip_ws fuel p1 else p

mutual

/-- `Parser.expression`. -/
def expression (fuel : Nat) (p : PState) : Option (Except ParseFail (Expr × PState)) :=
  match fuel with
  | 0 => none
  | fuel + 1 => assignment fuel p
termination_by structural fuel


/-- `Parser.assignment`. -/
def assignment (fuel : Nat) (p : PState) : Option (Except ParseFail (Expr × PState)) :=
  match fuel with
  | 0 => none
  | fuel + 1 =>
    match logical_or fuel p with
    | none => none
    | some (.error e) => some (.error e)
    | some (.ok (expr, p1)) =>
      let (m, p2) := matchT p1 [.ASSIGN]
      if m then
        match assignment fuel p2 with
        | none => none
        | some (.error e) => some (.error e)
        | some (.ok (value, p3)) =>
          match expr with
          | .identifier name _ => some (.ok (.assignment name value, p3))
          | .get obj name => some (.ok (.setE obj name value, p3))
          | .index obj idx => some (.ok (.indexSet obj idx value, p3))
          | _ =>
            match (previous p3).span with
            | some sp => some (.error ⟨"LAP2005", "invalid assignment target", sp⟩)
            | none => some (.error ⟨"LAP2005", "invalid assignment target", ⟨0, 0, 1⟩⟩)
      else some (.ok (expr, p1))
termination_by structural fuel


/-- `Parser.logical_or`. -/
def logical_or (fuel : Nat) (p : PState) : Option (Except ParseFail (Expr × PState)) :=
  match fuel with
  | 0 => none
  | fuel + 1 =>
    match logical_and fuel p with
    | none => none
    | some (.error e) => some (.error e)
    | some (.ok (expr, p1)) => logical_or_loop fuel p1 expr
termination_by structural fuel


def logical_or_loop (fuel : Nat) (p : PState) (expr : Expr) :
    Option (Except ParseFail (Expr × PState)) :=
  match fuel with
  | 0 => none
  | fuel + 1 =>
    let (m, p1) := matchT p [.OR]
    if m then
      let op := (previous p1).lexeme
      match logical_and fuel p1 with
      | none => none
      | some (.error e) => some (.error e)
      | some (.ok (right, p2)) => logical_or_loop fuel p2 (.logical expr op right)
    else some (.ok (expr, p))
termination_by structural fuel


/-- `Parser.logical_and`. -/
def logical_and (fuel : Nat) (p : PState) : Option (Except ParseFail (Expr × PState)) :=
  match fuel with
  | 0 => none
  | fuel + 1 =>
    match equality fuel p with
    | none => none
    | some (.error e) => some (.error e)
    | some (.ok (expr, p1)) => logical_and_loop fuel p1 expr
termination_by structural fuel


def logical_and_loop (fuel : Nat) (p : PState) (expr : Expr) :
    Option (Except ParseFail (Expr × PState)) :=
  match fuel with
  | 0 => none
  | fuel + 1 =>
    let (m, p1) := matchT p [.AND]
    if m then
      let op := (previous p1).lexeme
      match equality fuel p1 with
      | none => none
      | some (.error e) => some (.error e)
      | some (.ok (right, p2)) => logical_and_loop fuel p2 (.logical expr op right)
    else some (.ok (expr, p))
termination_by structural fuel


/-- `Parser.equality`. -/
def equality (fuel : Nat) (p : PState) : Option (Except ParseFail (Expr × PState)) :=
  match fuel with
  | 0 => none
  | fuel + 1 =>
    match comparison fuel p with
    | none => none
    | some (.error e) => some (.error e)
    | some (.ok (expr, p1)) => equality_loop fuel p1 expr
termination_by structural fuel


def equality_loop (fuel : Nat) (p : PState) (expr : Expr) :
    Option (Except ParseFail (Expr × PState)) :=
  match fuel with
  | 0 => none
  | fuel + 1 =>
    let (m, p1) := matchT p [.NOT_EQUAL, .EQUAL]
    if m then
      let op := (previous p1).lexeme
      match comparison fuel p1 with
      | none => none
      | some (.error e) => some (.error e)
      | some (.ok (right, p2)) => equality_loop fuel p2 (.binary expr op right none)
    else some (.ok (expr, p))
termination_by structural fuel


/-- `Parser.comparison`. -/
def comparison (fuel : Nat) (p : PState) : Option (Except ParseFail (Expr × PState)) :=
  match fuel with
  | 0 => none
  | fuel + 1 =>
    match term fuel p with
    | none => none
    | some (.error e) => some (.error e)
    | some (.ok (expr, p1)) => comparison_loop fuel p1 expr
termination_by structural fuel


def comparison_loop (fuel : Nat) (p : PState) (expr : Expr) :
    Option (Except ParseFail (Expr × PState)) :=
  match fuel with
  | 0 => none
  | fuel + 1 =>
    let (m, p1) := matchT p [.GREATER, .GREATER_EQUAL, .LESS, .LESS_EQUAL]
    if m then
      let op := (previous p1).lexeme
      match term fuel p1 with
      | none => none
      | some (.error e) => some (.error e)
      | some (.ok (right, p2)) => comparison_loop fuel p2 (.binary expr op right none)
    else some (.ok (expr, p))
termination_by structural fuel


/-- `Parser.term` (with the combined-span computation of the source). -/
def term (fuel : Nat) (p : PState) : Option (Except ParseFail (Expr × PState)) :=
  match fuel with
  | 0 => none
  | fuel + 1 =>
    match factor fuel p with
    | none => none
    | some (.error e) => some (.error e)
    | some (.ok (expr, p1)) => term_loop fuel p1 expr
termination_by structural fuel


def term_loop (fuel : Nat) (p : PState) (expr : Expr) :
    Option (Except ParseFail (Expr × PState)) :=
  match fuel with
  | 0 => none
  | fuel + 1 =>
    let (m, p1) := matchT p [.MINUS, .PLUS]
    if m then
      let op := (previous p1).lexeme
      match factor fuel p1 with
      | none => none
      | some (.error e) => some (.error e)
      | some (.ok (right, p2)) =>
        let start_span := orOpt expr.spanOf (previous p2).span
        let end_span := orOpt right.spanOf (previous p2).span
        let combined := match start_span, end_span with
          | some s, some e => some (Span.mk s.file_id s.start e.stop)
          | _, _ => orOpt start_span end_span
        term_loop fuel p2 (.binary expr op right combined)
    else some (.ok (expr, p))
termination_by structural fuel


/-- `Parser.factor` (with the combined-span computation of the source). -/
def factor (fuel : Nat) (p : PState) : Option (Except ParseFail (Expr × PState)) :=
  match fuel with
  | 0 => none
  | fuel + 1 =>
    match power (fuel) p with
    | none => none
    | some (.error e) => some (.error e)
    | some (.ok (expr, p1)) => factor_loop fuel p1 expr
termination_by structural fuel


def factor_loop (fuel : Nat) (p : PState) (expr : Expr) :
    Option (Except ParseFail (Expr × PState)) :=
  match fuel with
  | 0 => none
  | fuel + 1 =>
    let (m, p1) := matchT p [.DIVIDE, .MULTIPLY, .MODULO]
    if m then
      let op := (previous p1).lexeme
      match power fuel p1 with
      | none => none
      | some (.error e) => some (.error e)
      | some (.ok (right, p2)) =>
        let start_span := orOpt expr.spanOf (previous p2).span
        let end_span := orOpt right.spanOf (previous p2).span
        let combined := match start_span, end_span with
          | some s, some e => some (Span.mk s.file_id s.start e.stop)
          | _, _ => orOpt start_span end_span
        factor_loop fuel p2 (.binary expr op right combined)
    else some (.ok (expr, p))
termination_by structural fuel


/-- `Parser.power` (right-associative, no span). -/
def power (fuel : Nat) (p : PState) : Option (Except ParseFail (Expr × PState)) :=
  match fuel with
  | 0 => none
  | fuel + 1 =>
    match unary fuel p with
    | none => none
    | some (.error e) => some (.error e)
    | some (.ok (expr, p1)) =>
      let (m, p2) := matchT p1 [.POWER]
      if m then
        let op := (previous p2).lexeme
        match power fuel p2 with
        | none => none
        | some (.error e) => some (.error e)
        | some (.ok (right, p3)) => some (.ok (.binary expr op right none, p3))
      else some (.ok (expr, p1))
termination_by structural fuel


/-- `Parser.unary`. -/
def unary (fuel : Nat) (p : PState) : Option (Except ParseFail (Expr × PState)) :=
  match fuel with
  | 0 => none
  | fuel + 1 =>
    let (m, p1) := matchT p [.NOT, .MINUS]
    if m then
      let op := (previous p1).lexeme
      match unary fuel p1 with
      | none => none
      | some (.error e) => some (.error e)
      | some (.ok (right, p2)) => some (.ok (.unary op right, p2))
    else postfix_expr fuel p
termination_by structural fuel


/-- `Parser.postfix`. -/
def postfix_expr (fuel : Nat) (p : PState) : Option (Except ParseFail (Expr × PState)) :=
  match fuel with
  | 0 => none
  | fuel + 1 =>
    match call fuel p with
    | none => none
    | some (.error e) => some (.error e)
    | some (.ok (expr, p1)) =>
      let (m, p2) := matchT p1 [.PLUS_PLUS, .MINUS_MINUS]
      if m then
        let op := (previous p2).lexeme
        some (.ok (.postfixE expr op, p2))
      else some (.ok (expr, p1))
termination_by structural fuel


/-- `Parser.call`. -/
def call (fuel : Nat) (p : PState) : Option (Except ParseFail (Expr × PState)) :=
  match fuel with
  | 0 => none
  | fuel + 1 =>
    match primary fuel p with
    | none => none
    | some (.error e) => some (.error e)
    | some (.ok (expr, p1)) => call_loop fuel p1 expr
termination_by structural fuel


def call_loop (fuel : Nat) (p : PState) (expr : Expr) :
    Option (Except ParseFail (Expr × PState)) :=
  match fuel with
  | 0 => none
  | fuel + 1 =>
    let (m1, p1) := matchT p [.LEFT_PAREN]
    if m1 then
      match finish_call fuel p1 expr with
      | none => none
      | some (.error e) => some (.error e)
      | some (.ok (expr', p2)) => call_loop fuel p2 expr'
    else
      let (m2, p2) := matchT p [.DOT]
      if m2 then
        match consume p2 .IDENTIFIER with
        | .error e => some (.error e)
        | .ok (tok, p3) => call_loop fuel p3 (.get expr (identNameOf tok.literal))
      else
        let (m3, p3) := matchT p [.LEFT_BRACKET]
        if m3 then
          match expression fuel p3 with
          | none => none
          | some (.error e) => some (.error e)
          | some (.ok (idx, p4)) =>
            match consume p4 .RIGHT_BRACKET with
            | .error e => some (.error e)
            | .ok (_, p5) => call_loop fuel p5 (.index expr idx)
        else some (.ok (expr, p))
termination_by structural fuel


/-- `Parser.finish_call` (with the call-span computation of the source). -/
def finish_call (fuel : Nat) (p : PState) (callee : Expr) :
    Option (Except ParseFail (Expr × PState)) :=
  match fuel with
  | 0 => none
  | fuel + 1 =>
    let cont := fun (args : List Expr) (p1 : PState) =>
      match consume p1 .RIGHT_PAREN with
      | .error e => some (.error e)
      | .ok (paren_token, p2) =>
        let start_span := callee.spanOf
        let end_span := paren_token.span
        let call_span := match start_span, end_span with
          | some s, some e => some (Span.mk s.file_id s.start e.stop)
          | _, _ => orOpt start_span end_span
        some (.ok (Expr.call callee args call_span, p2))
    if !check p .RIGHT_PAREN then
      match expression fuel p with
      | none => none
      | some (.error e) => some (.error e)
      | some (.ok (arg, p1)) =>
        match call_args_loop fuel p1 [arg] with
        | none => none
        | some (.error e) => some (.error e)
        | some (.ok (args, p2)) => cont args p2
    else cont [] p
termination_by structural fuel


def call_args_loop (fuel : Nat) (p : PState) (args : List Expr) :
    Option (Except ParseFail (List Expr × PState)) :=
  match fuel with
  | 0 => none
  | fuel + 1 =>
    let (m, p1) := matchT p [.COMMA]
    if m then
      match expression fuel p1 with
      | none => none
      | some (.error e) => some (.error e)
      | some (.ok (arg, p2)) => call_args_loop fuel p2 (args ++ [arg])
    else some (.ok (args, p))
termination_by structural fuel


/-- `Parser.primary`. -/
def primary (fuel : Nat) (p : PState) : Option (Except ParseFail (Expr × PState)) :=
  match fuel with
  | 0 => none
  | fuel + 1 =>
    let (mT, pT) := matchT p [.TRUE]
    if mT then some (.ok (.literal (.boolV true) (previous pT).span, pT))
    else
    let (mF, pF) := matchT p [.FALSE]
    if mF then some (.ok (.literal (.boolV false) (previous pF).span, pF))
    else
    let (mN, pN) := matchT p [.NULL]
    if mN then some (.ok (.literal .nullV (previous pN).span, pN))
    else
    let (mNum, pNum) := matchT p [.NUMBER]
    if mNum then
      let tok := previous pNum
      some (.ok (.literal (litOfToken tok.literal) tok.span, pNum))
    else
    let (mS, pS) := matchT p [.STRING]
    if mS then
      let tok := previous pS
      some (.ok (.literal (litOfToken tok.literal) tok.span, pS))
    else
    let (mTL, pTL) := matchT p [.TEMPLATE_LITERAL]
    if mTL then
      let tok := previous pTL
      some (.ok (.templateLiteral (partsOf tok.literal) tok.span, pTL))
    else
    let (mTh, pTh) := matchT p [.THIS]
    if mTh then some (.ok (.thisE, pTh))
    else
    let (mI, pI) := matchT p [.IDENTIFIER]
    if mI then
      let tok := previous pI
      some (.ok (.identifier (identNameOf tok.literal) tok.span, pI))
    else
    let (mLP, pLP) := matchT p [.LEFT_PAREN]
    if mLP then
      match expression fuel pLP with
      | none => none
      | some (.error e) => some (.error e)
      | some (.ok (expr, p1)) =>
        match consume p1 .RIGHT_PAREN with
        | .error e => some (.error e)
        | .ok (_, p2) => some (.ok (expr, p2))
    else
    let (mLB, pLB) := matchT p [.LEFT_BRACKET]
    if mLB then array_literal fuel pLB
    else
    let (mBr, pBr) := matchT p [.LEFT_BRACE]
    if mBr then dictionary_literal fuel pBr
    else
      match (peek p).span with
      | some sp => some (.error ⟨"LAP2003", "expected expression", sp⟩)
      | none => some (.error ⟨"LAP2003", "expected expression", ⟨0, 0, 1⟩⟩)
termination_by structural fuel


/-- `Parser.array_literal`. -/
def array_literal (fuel : Nat) (p : PState) : Option (Except ParseFail (Expr × PState)) :=
  match fuel with
  | 0 => none
  | fuel + 1 =>
    if !check p .RIGHT_BRACKET then
      match expression fuel p with
      | none => none
      | some (.error e) => some (.error e)
      | some (.ok (el, p1)) =>
        match call_args_loop fuel p1 [el] with
        | none => none
        | some (.error e) => some (.error e)
        | some (.ok (elems, p2)) =>
          match consume p2 .RIGHT_BRACKET with
          | .error e => some (.error e)
          | .ok (_, p3) => some (.ok (.array elems, p3))
    else
      match consume p .RIGHT_BRACKET with
      | .error e => some (.error e)
      | .ok (_, p1) => some (.ok (.array [], p1))
termination_by structural fuel


/-- `Parser.dictionary_literal`. -/
def dictionary_literal (fuel : Nat) (p : PState) : Option (Except ParseFail (Expr × PState)) :=
  match fuel with
  | 0 => none
  | fuel + 1 =>
    let p0 := skip_ws fuel p
    if !check p0 .RIGHT_BRACE then
      match dict_pair fuel p0 with
      | none => none
      | some (.error e) => some (.error e)
      | some (.ok (pair, p1)) =>
        let p2 := skip_ws fuel p1
        match dict_pairs_loop fuel p2 [pair] with
        | none => none
        | some (.error e) => some (.error e)
        | some (.ok (pairs, p3)) =>
          let p4 := skip_ws fuel p3
          match consume p4 .RIGHT_BRACE with
          | .error e => some (.error e)
          | .ok (_, p5) => some (.ok (.dictionary pairs, p5))
    else
      let p4 := skip_ws fuel p0
      match consume p4 .RIGHT_BRACE with
      | .error e => some (.error e)
      | .ok (_, p5) => some (.ok (.dictionary [], p5))
termination_by structural fuel


def dict_pair (fuel : Nat) (p : PState) : Option (Except ParseFail ((Expr × Expr) × PState)) :=
  match fuel with
  | 0 => none
  | fuel + 1 =>
    match dictionary_key fuel p with
    | none => none
    | some (.error e) => some (.error e)
    | some (.ok (key, p1)) =>
      match consume p1 .COLON with
      | .error e => some (.error e)
      | .ok (_, p2) =>
        match expression fuel p2 with
        | none => none
        | some (.error e) => some (.error e)
        | some (.ok (value, p3)) => some (.ok ((key, value), p3))
termination_by structural fuel


def dict_pairs_loop (fuel : Nat) (p : PState) (pairs : List (Expr × Expr)) :
    Option (Except ParseFail (List (Expr × Expr) × PState)) :=
  match fuel with
  | 0 => none
  | fuel + 1 =>
    let (m, p1) := matchT p [.COMMA]
    if m then
      let p2 := skip_ws fuel p1
      if check p2 .RIGHT_BRACE then some (.ok (pairs, p2))
      else
        match dict_pair fuel p2 with
        | none => none
        | some (.error e) => some (.error e)
        | some (.ok (pair, p3)) =>
          let p4 := skip_ws fuel p3
          dict_pairs_loop fuel p4 (pairs ++ [pair])
    else some (.ok (pairs, p))
termination_by structural fuel


/-- `Parser.dictionary_key`: bare identifiers become string literals. -/
def dictionary_key (fuel : Nat) (p : PState) : Option (Except ParseFail (Expr × PState)) :=
  match fuel with
  | 0 => none
  | fuel + 1 =>
    if check p .IDENTIFIER then
      let (tok, p1) := advance p
      some (.ok (.literal (.strV (identNameOf tok.literal)) none, p1))
    else expression fuel p

termination_by structural fuel

end

end Parser

/-! ## Runtime values (`environment.py`, `interpreter.py`)

Python objects are modelled as follows.  `None`/`bool`/`int`/`str` map
directly; `float` is an exact rational (tag-faithful; see the header note).
Arrays and dictionaries are modelled as immutable values: Python's aliasing
(mutation through one reference visible through all) is out of the model's
scope, and the in-place mutators (`arr[i] = v`, `d.k = v`, `d[k] = v` and the
built-in array methods) are mapped to a distinguished `unmodelled` outcome —
no claim below exercises them.  Instances *are* mutable and live on an
explicit heap (`vinst` holds a heap index), because claim C2 is about
instance-field side effects.  User callables are `vfunc`/`vclass`/`vbound`;
host built-ins (Console/Math/File) are not modelled and the initial global
environment is empty. -/

/-- `environment.LapisFunction` (also the `method` payload of a
`BoundMethod`): declaration fields plus the captured environment. -/
structure FuncData where
  params : List String
  variadic_param : Option String
  body : List Stmt
  closure : Nat
  is_initializer : Bool
  access : AccessModifier
deriving Repr

/-- `environment.LapisClass`. -/
structure ClassData where
  name : String
  methods : List (String × FuncData)
  access : AccessModifier
deriving Repr

/-- Runtime values.  `vexc` is the `interpreter.LapisRuntimeException` wrapper
object bound to a `catch` variable (its message). -/
inductive Value where
  | vnull
  | vbool (b : Bool)
  | vint (n : Int)
  | vfloat (q : Rat)
  | vstr (s : String)
  | varr (elements : List Value)
  | vdict (pairs : List (Value × Value))
  | vfunc (f : FuncData)
  | vclass (c : ClassData)
  | vbound (instRef : Nat) (method : FuncData)
  | vinst (ref : Nat)
  | vexc (message : String)
deriving Repr

/-- One environment record (`environment.Environment`): enclosing pointer and
the name → `(value, access_modifier)` mapping in insertion order. -/
structure EnvData where
  enclosing : Option Nat
  values : List (String × Value × AccessModifier)
deriving Repr

/-- One instance record (`environment.LapisInstance`). -/
structure InstData where
  klass : ClassData
  fields : List (String × Value)
deriving Repr

/-- Interpreter heap: environments and instances, indexed by position. -/
structure State where
  envs : List EnvData
  insts : List InstData
deriving Repr

/-- Python exceptions reaching the interpreter, by kind:
`lapisError` is any `errors.LapisError` subclass built with a proper
diagnostic (we keep its code and message); `lapisRuntimeExc` is
`interpreter.LapisRuntimeException`; `hostError` is any other Python
exception (`TypeError`, `AttributeError`, `ZeroDivisionError`, …; message
kept for readability only); `unmodelled` marks source behaviour outside this
embedding's scope (see the doc comments at the sites producing it — no claim
depends on those paths). -/
inductive Exn where
  | lapisError (code : String) (message : String)
  | lapisRuntimeExc (message : String)
  | hostError (message : String)
  | unmodelled (what : String)
deriving Repr, DecidableEq

/-- `errors.RuntimeError(msg)` called with a plain string (pervasive in
`interpreter.py`): `LapisError.__init__` stores the string as `diagnostic`
and immediately calls `diagnostic.primary_span()`, which raises
`AttributeError`.  The exception actually propagating is therefore a host
`AttributeError`, not a Lapis diagnostic; we keep the intended message for
readability. -/
def plain_runtime_error (msg : String) : Exn := .hostError msg

/-- Evaluation outcome: normal result, a raised (error) exception, or one of
the control-flow exceptions `ReturnException` / `BreakException` /
`ContinueException`. -/
inductive ERes (α : Type) where
  | ok (v : α)
  | exn (e : Exn)
  | ret (v : Value)
  | brk
  | cont
deriving Repr

/-! ## Environments (`environment.py`) -/

/-- `Variable.can_access`. -/
def can_access (access : AccessModifier) (from_external_file : Bool) : Bool :=
  access == .PUBLIC || !from_external_file

/-- Python `dict` insertion `self.values[name] = ...`: replace in place if the
key exists, else append. -/
def setVarAssoc (l : List (String × Value × AccessModifier)) (name : String)
    (v : Value) (a : AccessModifier) : List (String × Value × AccessModifier) :=
  if l.any (fun e => e.1 == name) then
    l.map (fun e => if e.1 == name then (name, v, a) else e)
  else l ++ [(name, v, a)]

/-- Name lookup in one environment record. -/
def lookupVar (l : List (String × Value × AccessModifier)) (name : String) :
    Option (Value × AccessModifier) :=
  (l.find? (fun e => e.1 == name)).map (·.2)

/-- Environment `envId` in the heap (always valid for states the interpreter
builds). -/
def getEnv (st : State) (envId : Nat) : EnvData := st.envs.getD envId ⟨none, []⟩

/-- Replace environment `envId`. -/
def setEnv (st : State) (envId : Nat) (e : EnvData) : State :=
  { st with envs := st.envs.set envId e }

/-- `Environment.define`. -/
def envDefine (st : State) (envId : Nat) (name : String) (v : Value)
    (a : AccessModifier) : State :=
  let env := getEnv st envId
  setEnv st envId { env with values := setVarAssoc env.values name v a }

/-- Allocate `Environment(enclosing)`; environments always enclose
previously-allocated ones, so enclosing indices are smaller than their own. -/
def newEnv (st : State) (enclosing : Option Nat) : State × Nat :=
  ({ st with envs := st.envs ++ [⟨enclosing, []⟩] }, st.envs.length)

/-- Chain walk of `Environment.get`, made structural on a hop budget: for
every state the interpreter builds, `enclosing` indices are strictly smaller
than the environment's own (see `newEnv`), so a budget of `envId + 1` hops
(as passed by `envGet`) never runs out and the guard branches never fire. -/
def envGetAux : Nat → State → Nat → String → Bool → Except Exn Value
  | 0, _, _, name, _ => .error (.lapisError "LAP4001" ("Undefined variable " ++ name))
  | fuel + 1, st, envId, name, from_external_file =>
    let env := getEnv st envId
    match lookupVar env.values name with
    | some (v, a) =>
      if can_access a from_external_file then .ok v
      else .error (.lapisError "LAP4002"
        ("Cannot access private variable " ++ name ++ " from external file"))
    | none =>
      match env.enclosing with
      | some parent =>
        if parent < envId then envGetAux fuel st parent name from_external_file
        else .error (.lapisError "LAP4001" ("Undefined variable " ++ name))
      | none => .error (.lapisError "LAP4001" ("Undefined variable " ++ name))

/-- `Environment.get`: walk the chain, checking access control. -/
def envGet (st : State) (envId : Nat) (name : String) (from_external_file : Bool) :
    Except Exn Value :=
  envGetAux (envId + 1) st envId name from_external_file

/-- Chain walk of `Environment.assign` (hop budget as in `envGetAux`). -/
def envAssignAux : Nat → State → Nat → String → Value → Bool → Except Exn State
  | 0, _, _, name, _, _ => .error (.lapisError "LAP4001" ("Undefined variable " ++ name))
  | fuel + 1, st, envId, name, v, from_external_file =>
    let env := getEnv st envId
    match lookupVar env.values name with
    | some (_, a) =>
      if can_access a from_external_file then
        let vals := env.values.map (fun e => if e.1 == name then (name, v, e.2.2) else e)
        .ok (setEnv st envId { env with values := vals })
      else .error (.lapisError "LAP4002"
        ("Cannot assign to private variable " ++ name ++ " from external file"))
    | none =>
      match env.enclosing with
      | some parent =>
        if parent < envId then envAssignAux fuel st parent name v from_external_file
        else .error (.lapisError "LAP4001" ("Undefined variable " ++ name))
      | none => .error (.lapisError "LAP4001" ("Undefined variable " ++ name))

/-- `Environment.assign`: walk the chain, assigning to the innermost binding,
checking access control. -/
def envAssign (st : State) (envId : Nat) (name : String) (v : Value)
    (from_external_file : Bool) : Except Exn State :=
  envAssignAux (envId + 1) st envId name v from_external_file

/-- `Environment.get_all_public`. -/
def get_all_public (env : EnvData) : List (String × Value) :=
  env.values.filterMap (fun e => if e.2.2 == .PUBLIC then some (e.1, e.2.1) else none)

/-! ## Python equality (`Interpreter.is_equal` is `a == b`) and
`Interpreter._values_equal` -/

/-- A Python number: an int (booleans included, as 0/1) or a float (exact
rational in this model).  The int/float distinction drives result tags. -/
inductive PyNum where
  | pint (n : Int)
  | pfloat (q : Rat)
deriving Repr, DecidableEq

/-- Numeric value of a `PyNum`. -/
def PyNum.toRat : PyNum → Rat
  | .pint n => (n : Rat)
  | .pfloat q => q

/-- `x == 0` on a number. -/
def PyNum.isZero : PyNum → Bool
  | .pint n => n == 0
  | .pfloat q => q.num == 0

/-- The numeric view Python's `isinstance(x, (int, float))` induces:
booleans **are** Python ints (`True == 1`), so they count as numeric with
values 1/0. -/
def pyNum? : Value → Option PyNum
  | .vbool b => some (.pint (if b then 1 else 0))
  | .vint n => some (.pint n)
  | .vfloat q => some (.pfloat q)
  | _ => none

/-- Among numeric values, whether the Python object is a `float` (drives
int/float result tags). -/
def isFloatV : Value → Bool
  | .vfloat _ => true
  | _ => false

mutual

/-- Python `==` on the modelled value domain (`Interpreter.is_equal` body).
`None` equals only `None`; booleans/ints/floats compare numerically
cross-kind; strings by content; lists elementwise; dicts by length and
per-key lookup; instances by heap reference (object identity).  Model
limitation: distinct function/class/bound-method/exception *objects* with
identical structure compare equal here but are `is`-distinct in Python —
both `is_equal` and `_values_equal` delegate these to the same Python `==`,
so the claims comparing the two functions are insensitive to this. -/
def pyEq : Value → Value → Bool
  | .vnull, .vnull => true
  | .vnull, _ => false
  | _, .vnull => false
  | .vbool a, .vbool b => a == b
  | .vbool a, .vint b => (if a then 1 else 0 : Int) == b
  | .vbool a, .vfloat b => ((if a then 1 else 0 : Int) : Rat) == b
  | .vint a, .vbool b => a == (if b then 1 else 0 : Int)
  | .vint a, .vint b => a == b
  | .vint a, .vfloat b => (a : Rat) == b
  | .vfloat a, .vbool b => a == ((if b then 1 else 0 : Int) : Rat)
  | .vfloat a, .vint b => a == (b : Rat)
  | .vfloat a, .vfloat b => a == b
  | .vstr a, .vstr b => a == b
  | .varr a, .varr b => pyEqList a b
  | .vdict a, .vdict b => a.length == b.length && pyEqPairs a b
  | .vinst a, .vinst b => a == b
  | .vfunc a, .vfunc b => a.closure == b.closure && a.params == b.params
      && a.variadic_param == b.variadic_param && a.is_initializer == b.is_initializer
  | .vclass a, .vclass b => a.name == b.name
  | .vbound a ma, .vbound b mb => a == b && ma.closure == mb.closure
  | .vexc a, .vexc b => a == b
  | _, _ => false

def pyEqList : List Value → List Value → Bool
  | [], [] => true
  | x :: xs, y :: ys => pyEq x y && pyEqList xs ys
  | _, _ => false

def pyEqPairs : List (Value × Value) → List (Value × Value) → Bool
  | [], _ => true
  | (k, v) :: rest, ys => pyEqFind ys k v && pyEqPairs rest ys

/-- `k in d2 and d2[k] == v` for one key of the left dict: find the first
matching key in `ys` and compare the values. -/
def pyEqFind : List (Value × Value) → Value → Value → Bool
  | [], _, _ => false
  | (k', v') :: rest, k, v => if pyEq k k' then pyEq v v' else pyEqFind rest k v

end

/-- `Interpreter.is_equal`: `return a == b`. -/
def is_equal (a b : Value) : Bool := pyEq a b

/-- `isinstance(x, bool)`. -/
def isBoolV : Value → Bool
  | .vbool _ => true
  | _ => false

/-- `isinstance(x, (int, float))` — booleans pass. -/
def isNumV : Value → Bool
  | .vbool _ => true
  | .vint _ => true
  | .vfloat _ => true
  | _ => false

/-- `isinstance(x, str)`. -/
def isStrV : Value → Bool
  | .vstr _ => true
  | _ => false

/-- `x is None`. -/
def isNullV : Value → Bool
  | .vnull => true
  | _ => false

/-- `set(left.keys()) == set(right.keys())`, one inclusion: every key of `xs`
equals (`==`) some key of `ys`. -/
def keysSubset (xs ys : List (Value × Value)) : Bool :=
  xs.all (fun x => ys.any (fun y => pyEq x.1 y.1))

mutual

/-- `Interpreter._values_equal`, branch for branch: `None` handling, then
booleans, then numerics (note Python's `isinstance(True, int)`), then
strings, then element-wise lists, then dicts via key-set equality plus
per-key comparison, then the Python `==` fallback. -/
def values_equal (a b : Value) : Bool :=
  if isNullV a && isNullV b then true
  else if isNullV a || isNullV b then false
  else if isBoolV a && isBoolV b then pyEq a b
  else if isNumV a && isNumV b then pyEq a b
  else if isStrV a && isStrV b then pyEq a b
  else
    match a, b with
    | .varr xs, .varr ys =>
      if xs.length ≠ ys.length then false else values_equal_zip xs ys
    | .vdict xs, .vdict ys =>
      if !(keysSubset xs ys && keysSubset ys xs) then false
      else values_equal_dict xs ys
    | a, b => pyEq a b

/-- `all(self._values_equal(a, b) for a, b in zip(left, right))`. -/
def values_equal_zip : List Value → List Value → Bool
  | x :: xs, y :: ys => values_equal x y && values_equal_zip xs ys
  | _, _ => true

/-- `all(self._values_equal(left[k], right[k]) for k in left.keys())`. -/
def values_equal_dict : List (Value × Value) → List (Value × Value) → Bool
  | [], _ => true
  | (k, v) :: rest, ys => values_equal_find ys k v && values_equal_dict rest ys

/-- Look up key `k` in `ys` and compare values with `_values_equal`; a
missing key cannot happen under the key-set guard (in Python it would be a
`KeyError`) and yields `false`. -/
def values_equal_find : List (Value × Value) → Value → Value → Bool
  | [], _, _ => false
  | (k', v') :: rest, k, v => if pyEq k k' then values_equal v v' else values_equal_find rest k v

end

/-! ## Truthiness, stringification, type names (`interpreter.py`) -/

/-- `Interpreter.is_truthy`: `None`, `False`, zero, empty string/array/dict
are falsy; everything else is truthy. -/
def is_truthy : Value → Bool
  | .vnull => false
  | .vbool b => b
  | .vint n => n != 0
  | .vfloat q => q != 0
  | .vstr s => s.length > 0
  | .varr l => l.length > 0
  | .vdict l => l.length > 0
  | _ => true

/-- `str(float)` on the model's rational: integral floats print as Python
does (`"2.0"`); the rendering of non-integral floats is a model placeholder
(CPython prints the shortest round-tripping decimal, which has no exact
counterpart for a general rational).  No claim observes a non-integral float
rendering. -/
def floatRepr (q : Rat) : String :=
  if q.den = 1 then toString q.num ++ ".0"
  else toString q.num ++ "/" ++ toString q.den

mutual

/-- `Interpreter._to_lapis_string` (same table as `ConsolePrintFunction.stringify`).
The `str(obj)` fallback for callables/classes/instances prints a CPython
object address; modelled as `"<object>"` (no claim observes it). -/
def to_lapis_string : Value → String
  | .vnull => "null"
  | .vbool b => if b then "true" else "false"
  | .vstr s => s
  | .vint n => toString n
  | .vfloat q => floatRepr q
  | .varr l => "[" ++ tls_list l ++ "]"
  | .vdict l => "\x7b" ++ tls_pairs l ++ "\x7d"
  | .vexc m => m
  | _ => "<object>"
termination_by structural v => v

def tls_list : List Value → String
  | [] => ""
  | [x] => to_lapis_string x
  | x :: xs => to_lapis_string x ++ ", " ++ tls_list xs
termination_by structural l => l

def tls_pairs : List (Value × Value) → String
  | [] => ""
  | [(k, v)] => to_lapis_string k ++ ": " ++ to_lapis_string v
  | (k, v) :: xs => to_lapis_string k ++ ": " ++ to_lapis_string v ++ ", " ++ tls_pairs xs
termination_by structural l => l

end

/-- `Interpreter._get_type_name` (the final `type(value).__name__.lower()`
fallback is modelled as `"object"`; no claim observes it). -/
def get_type_name : Value → String
  | .vnull => "null"
  | .vbool _ => "boolean"
  | .vint _ => "number"
  | .vfloat _ => "number"
  | .vstr _ => "string"
  | .varr _ => "array"
  | .vdict _ => "dictionary"
  | _ => "object"

/-! ## Binary and unary operators (`Interpreter.evaluate_binary_expression`,
`Interpreter.evaluate_unary_expression`) -/

/-- Whether the Python AST object has a `span` *attribute* at all: only node
classes whose `__init__` stores one (directly or via `super().__init__`).
Reading `.span` on the others raises `AttributeError`. -/
def Expr.hasSpanAttr : Expr → Bool
  | .literal .. => true
  | .identifier .. => true
  | .binary .. => true
  | .call .. => true
  | .templateLiteral .. => true
  | .thisE => true
  | _ => false

/-- The guard `expr.span and expr.left.span and expr.right.span` used by the
error branches of `* / ** % > >= < <=`: short-circuits on a `None` span, but
raises `AttributeError` when an operand node class lacks the attribute. -/
def span_cond_strict (span : Option Span) (leftE rightE : Expr) : Except Exn Bool :=
  match span with
  | none => .ok false
  | some _ =>
    if leftE.hasSpanAttr then
      match leftE.spanOf with
      | none => .ok false
      | some _ =>
        if rightE.hasSpanAttr then .ok rightE.spanOf.isSome
        else .error (.hostError "AttributeError: no attribute span")
    else .error (.hostError "AttributeError: no attribute span")

/-- Python's promotion for `+` on numerics: `float` if either operand is
a `float`, else `int` (booleans count as ints). -/
def numAdd : PyNum → PyNum → Value
  | .pint a, .pint b => .vint (a + b)
  | x, y => .vfloat (x.toRat + y.toRat)

def numSub : PyNum → PyNum → Value
  | .pint a, .pint b => .vint (a - b)
  | x, y => .vfloat (x.toRat - y.toRat)

def numMul : PyNum → PyNum → Value
  | .pint a, .pint b => .vint (a * b)
  | x, y => .vfloat (x.toRat * y.toRat)

/-- Python `<` on numerics. -/
def numLt : PyNum → PyNum → Bool
  | .pint a, .pint b => a < b
  | x, y => x.toRat < y.toRat

/-- Python `<=` on numerics. -/
def numLe : PyNum → PyNum → Bool
  | .pint a, .pint b => a ≤ b
  | x, y => x.toRat ≤ y.toRat

/-- Python `%` (floor-style remainder; `ZeroDivisionError` on zero divisor;
`int` result only when both operands are int-like). -/
def numMod (x y : PyNum) : Except Exn Value :=
  if y.isZero then .error (.hostError "ZeroDivisionError: modulo by zero")
  else
    match x, y with
    | .pint a, .pint b => .ok (.vint (Int.fmod a b))
    | x, y =>
      let l := x.toRat
      let r := y.toRat
      .ok (.vfloat (l - r * ((⌊l / r⌋ : Int) : Rat)))

/-- Python `**` on numerics.  `int ** int` is an `int` for a nonnegative
exponent and a `float` (exact here) for a negative one; `0 ** negative`
raises `ZeroDivisionError`.  With a float involved and an integer-valued
exponent the result is a float.  A non-integral exponent produces an
irrational float, or a *complex* number when the base is negative — both
outside this rational model, marked `unmodelled` (no claim reaches them). -/
def numPow (x y : PyNum) : Except Exn Value :=
  match x, y with
  | .pint a, .pint b =>
    if 0 ≤ b then .ok (.vint (a ^ b.toNat))
    else if a = 0 then .error (.hostError "ZeroDivisionError: zero to a negative power")
    else .ok (.vfloat ((a : Rat) ^ b))
  | x, y =>
    let lq := x.toRat
    let rq := y.toRat
    if rq.den = 1 then
      if lq.num = 0 ∧ rq.num < 0 then
        .error (.hostError "ZeroDivisionError: zero to a negative power")
      else .ok (.vfloat (lq ^ rq.num))
    else if lq < 0 then .error (.unmodelled "complex result of float power")
    else .error (.unmodelled "irrational result of float power")

/-- The raw Python binary operator applied to ill-typed operands when the
span guard prevented the Lapis diagnostic: Python would do string/list
repetition for `*`, printf-formatting for `%` on strings, lexicographic
comparison for `< <= > >=` on strings, or raise `TypeError`.  No claim
depends on any of these; the model marks them all. -/
def py_fallback (op : String) (_l _r : Value) : Except Exn Value :=
  .error (.unmodelled ("raw Python operator " ++ op ++ " on non-numeric operands"))

/-- `cannot use operator '{op}' with {lt} and {rt}` (`TypeError.invalid_binary_operation`). -/
def invalidBinMsg (op : String) (l r : Value) : String :=
  "cannot use operator " ++ op ++ " with " ++ get_type_name l ++ " and " ++ get_type_name r

/-- The operator dispatch of `Interpreter.evaluate_binary_expression`, after
both operands have been evaluated to `l` and `r`.  `span` is the
`BinaryExpression`'s own span and `leftE`/`rightE` its operand nodes (their
spans drive which error path the source takes). -/
def binary_dispatch (op : String) (l r : Value) (span : Option Span)
    (leftE rightE : Expr) : Except Exn Value :=
  if op == "+" then
    match pyNum? l, pyNum? r with
    | some lq, some rq => .ok (numAdd lq rq)
    | _, _ =>
      if isStrV l || isStrV r then .ok (.vstr (to_lapis_string l ++ to_lapis_string r))
      else .error (.lapisError "LAP3001"
        ("cannot add " ++ get_type_name l ++ " and " ++ get_type_name r))
  else if op == "-" then
    match pyNum? l, pyNum? r with
    | some lq, some rq => .ok (numSub lq rq)
    | _, _ =>
      match span, leftE.spanOf, rightE.spanOf with
      | some _, some _, some _ => .error (.lapisError "LAP3001" (invalidBinMsg op l r))
      | _, _, _ => py_fallback op l r
  else if op == "*" then
    match pyNum? l, pyNum? r with
    | some lq, some rq => .ok (numMul lq rq)
    | _, _ =>
      match span_cond_strict span leftE rightE with
      | .error e => .error e
      | .ok true => .error (.lapisError "LAP3001" (invalidBinMsg op l r))
      | .ok false => py_fallback op l r
  else if op == "/" then
    match pyNum? l, pyNum? r with
    | some lq, some rq =>
      if rq.isZero then .error (.lapisError "LAP3008" "division by zero")
      else .ok (.vfloat (lq.toRat / rq.toRat))
    | _, _ =>
      match span_cond_strict span leftE rightE with
      | .error e => .error e
      | .ok true => .error (.lapisError "LAP3001" (invalidBinMsg op l r))
      | .ok false =>
        if pyEq r (.vint 0) then .error (.lapisError "LAP3008" "division by zero")
        else py_fallback op l r
  else if op == "**" then
    match pyNum? l, pyNum? r with
    | some lq, some rq => numPow lq rq
    | _, _ =>
      match span_cond_strict span leftE rightE with
      | .error e => .error e
      | .ok true => .error (.lapisError "LAP3001" (invalidBinMsg op l r))
      | .ok false => py_fallback op l r
  else if op == "%" then
    match pyNum? l, pyNum? r with
    | some lq, some rq => numMod lq rq
    | _, _ =>
      match span_cond_strict span leftE rightE with
      | .error e => .error e
      | .ok true => .error (.lapisError "LAP3001" (invalidBinMsg op l r))
      | .ok false => py_fallback op l r
  else if op == ">" then
    match pyNum? l, pyNum? r with
    | some lq, some rq => .ok (.vbool (numLt rq lq))
    | _, _ =>
      match span_cond_strict span leftE rightE with
      | .error e => .error e
      | .ok true => .error (.lapisError "LAP3001" (invalidBinMsg op l r))
      | .ok false => py_fallback op l r
  else if op == ">=" then
    match pyNum? l, pyNum? r with
    | some lq, some rq => .ok (.vbool (numLe rq lq))
    | _, _ =>
      match span_cond_strict span leftE rightE with
      | .error e => .error e
      | .ok true => .error (.lapisError "LAP3001" (invalidBinMsg op l r))
      | .ok false => py_fallback op l r
  else if op == "<" then
    match pyNum? l, pyNum? r with
    | some lq, some rq => .ok (.vbool (numLt lq rq))
    | _, _ =>
      match span_cond_strict span leftE rightE with
      | .error e => .error e
      | .ok true => .error (.lapisError "LAP3001" (invalidBinMsg op l r))
      | .ok false => py_fallback op l r
  else if op == "<=" then
    match pyNum? l, pyNum? r with
    | some lq, some rq => .ok (.vbool (numLe lq rq))
    | _, _ =>
      match span_cond_strict span leftE rightE with
      | .error e => .error e
      | .ok true => .error (.lapisError "LAP3001" (invalidBinMsg op l r))
      | .ok false => py_fallback op l r
  else if op == "!=" then .ok (.vbool (!is_equal l r))
  else if op == "==" then .ok (.vbool (is_equal l r))
  else .error (.lapisError "LAP4999" ("Unknown binary operator: " ++ op))

/-- `Interpreter.evaluate_unary_expression`, after operand evaluation.
`check_number_operand` and the unknown-operator branch raise plain
`RuntimeError(msg)` (see `plain_runtime_error`). -/
def unary_dispatch (op : String) (v : Value) : Except Exn Value :=
  if op == "-" then
    match pyNum? v with
    | some (.pint a) => .ok (.vint (-a))
    | some (.pfloat q) => .ok (.vfloat (-q))
    | none => .error (plain_runtime_error "Operand must be a number")
  else if op == "!" then .ok (.vbool (!is_truthy v))
  else .error (plain_runtime_error "Unknown unary operator")

/-! ## Instances, callables, dictionaries: small helpers -/

/-- Allocate a `LapisInstance(klass)`. -/
def newInst (st : State) (c : ClassData) : State × Nat :=
  ({ st with insts := st.insts ++ [⟨c, []⟩] }, st.insts.length)

/-- Instance `ref` in the heap (always valid for states the interpreter builds). -/
def getInst (st : State) (ref : Nat) : InstData :=
  st.insts.getD ref ⟨⟨"", [], .PRIVATE⟩, []⟩

/-- Python `dict` insertion for string-keyed maps. -/
def setStrAssoc (l : List (String × Value)) (name : String) (v : Value) :
    List (String × Value) :=
  if l.any (fun e => e.1 == name) then
    l.map (fun e => if e.1 == name then (name, v) else e)
  else l ++ [(name, v)]

/-- `LapisInstance.set`. -/
def setInstField (st : State) (ref : Nat) (name : String) (v : Value) : State :=
  let inst := getInst st ref
  { st with insts := st.insts.set ref { inst with fields := setStrAssoc inst.fields name v } }

/-- `LapisClass.find_method`. -/
def find_method (c : ClassData) (name : String) : Option FuncData :=
  (c.methods.find? (fun m => m.1 == name)).map (·.2)

/-- `LapisInstance.get`: field, else bound method, else `LAP3005`. -/
def instance_get (st : State) (ref : Nat) (name : String) : Except Exn Value :=
  let inst := getInst st ref
  match (inst.fields.find? (fun f => f.1 == name)).map (·.2) with
  | some v => .ok v
  | none =>
    match find_method inst.klass name with
    | some m => .ok (.vbound ref m)
    | none => .error (.lapisError "LAP3005" ("Undefined property " ++ name))

/-- `hasattr(callee, 'call')` on the modelled value domain. -/
def isCallable : Value → Bool
  | .vfunc _ => true
  | .vclass _ => true
  | .vbound _ _ => true
  | _ => false

/-- `CallableFunction.arity`: `-1` when variadic, else the parameter count. -/
def funcArity (f : FuncData) : Int :=
  if f.variadic_param.isSome then -1 else f.params.length

/-- `callee.arity()` per callable kind (`LapisClass.arity` delegates to
`init`, defaulting to 0). -/
def arityOf : Value → Int
  | .vfunc f => funcArity f
  | .vclass c =>
    match find_method c "init" with
    | none => 0
    | some i => funcArity i
  | .vbound _ m => funcArity m
  | _ => 0

/-- `isinstance(index, int)` — booleans pass (`arr[true]` is `arr[1]`). -/
def pyIndex? : Value → Option Int
  | .vint n => some n
  | .vbool b => some (if b then 1 else 0)
  | _ => none

/-- Python `dict` lookup by key equality (first match; keys are unique in
dicts Python can build). -/
def pyDictGet (pairs : List (Value × Value)) (k : Value) : Option Value :=
  (pairs.find? (fun p => pyEq k p.1)).map (·.2)

/-- Python `d[k] = v`: replace the value at an existing equal key (keeping
its position), else append. -/
def pyDictInsert (pairs : List (Value × Value)) (k v : Value) : List (Value × Value) :=
  if pairs.any (fun p => pyEq k p.1) then
    pairs.map (fun p => if pyEq k p.1 then (p.1, v) else p)
  else pairs ++ [(k, v)]

/-- Keys Python cannot hash (`list`, `dict`): using one as a dictionary key
raises `TypeError`. -/
def isUnhashable : Value → Bool
  | .varr _ => true
  | .vdict _ => true
  | _ => false

/-- `str(e)` on a caught exception (`LapisError` formats
`"Error [code]: message at file:line:col"`; the location suffix is spans-only
and dropped here). -/
def exnToString : Exn → String
  | .lapisError c m => "Error [" ++ c ++ "]: " ++ m
  | .lapisRuntimeExc m => m
  | .hostError m => m
  | .unmodelled m => m

/-- Literal values to runtime values. -/
def litToValue : Lit → Value
  | .nullV => .vnull
  | .boolV b => .vbool b
  | .intV n => .vint n
  | .floatV q => .vfloat q
  | .strV s => .vstr s

/-- Lift an `Except` result into an outcome. -/
def ofExcept : Except Exn Value → ERes Value
  | .ok v => .ok v
  | .error e => .exn e

/-- Parameter binding loop of `LapisFunction.call` / `BoundMethod.call`:
`arguments[i] if i < len(arguments) else None`. -/
def bindParams (st : State) (envId : Nat) (params : List String) (args : List Value) : State :=
  (params.enum.foldl (fun s pi =>
    envDefine s envId pi.2 (args.getD pi.1 .vnull) .PRIVATE) st)

/-! ## The evaluator (`interpreter.py`)

A fueled, state-passing rendition of `Interpreter`: `fuel` makes the
recursion structural (`none` = fuel exhausted, standing for a run that has
not terminated yet); the current environment is the `envId` parameter (the
source's `self.environment` save/restore discipline in `execute_block` and
friends corresponds exactly to passing the environment as an argument).
Outcomes carry Python's control-flow exceptions explicitly. -/

mutual

/-- `Interpreter.visit_expression`. -/
def evalExpr (fuel : Nat) (st : State) (envId : Nat) (e : Expr) :
    Option (State × ERes Value) :=
  match fuel with
  | 0 => none
  | fuel + 1 =>
    match e with
    | .literal v _ => some (st, .ok (litToValue v))
    | .identifier name _ =>
      -- a failed lookup is re-wrapped as `RuntimeError.undefined_variable`
      match envGet st envId name false with
      | .ok v => some (st, .ok v)
      | .error _ => some (st, .exn (.lapisError "LAP4001" ("undefined variable " ++ name)))
    | .binary l op r sp =>
      match evalExpr fuel st envId l with
      | none => none
      | some (st1, .ok vl) =>
        match evalExpr fuel st1 envId r with
        | none => none
        | some (st2, .ok vr) => some (st2, ofExcept (binary_dispatch op vl vr sp l r))
        | some (st2, .exn e') => some (st2, .exn e')
        | some (st2, .ret v) => some (st2, .ret v)
        | some (st2, .brk) => some (st2, .brk)
        | some (st2, .cont) => some (st2, .cont)
      | some (st1, .exn e') => some (st1, .exn e')
      | some (st1, .ret v) => some (st1, .ret v)
      | some (st1, .brk) => some (st1, .brk)
      | some (st1, .cont) => some (st1, .cont)
    | .unary op operand =>
      match evalExpr fuel st envId operand with
      | none => none
      | some (st1, .ok v) => some (st1, ofExcept (unary_dispatch op v))
      | some (st1, o) => some (st1, o)
    | .call callee args _ =>
      match evalExpr fuel st envId callee with
      | none => none
      | some (st1, .ok c) =>
        match evalExprList fuel st1 envId args with
        | none => none
        | some (st2, .ok vs) =>
          if !isCallable c then
            some (st2, .exn (plain_runtime_error "Can only call functions and classes"))
          else if arityOf c != -1 && (vs.length : Int) != arityOf c then
            some (st2, .exn (plain_runtime_error
              ("Expected " ++ toString (arityOf c) ++ " arguments but got " ++ toString vs.length)))
          else call_value fuel st2 c vs
        | some (st2, .exn e') => some (st2, .exn e')
        | some (st2, .ret v) => some (st2, .ret v)
        | some (st2, .brk) => some (st2, .brk)
        | some (st2, .cont) => some (st2, .cont)
      | some (st1, .exn e') => some (st1, .exn e')
      | some (st1, .ret v) => some (st1, .ret v)
      | some (st1, .brk) => some (st1, .brk)
      | some (st1, .cont) => some (st1, .cont)
    | .get obj name =>
      -- `evaluate_get_expression`.  The `hasattr(obj, 'get')` branch catches
      -- dicts (before the dead `isinstance(obj, dict)` branch): `dict.get`
      -- returns the value or `None`.  The host-method tables for
      -- strings/arrays/booleans/numbers are outside the model's scope.
      match evalExpr fuel st envId obj with
      | none => none
      | some (st1, .ok v) =>
        match v with
        | .vinst ref => some (st1, ofExcept (instance_get st1 ref name))
        | .vdict pairs =>
          some (st1, .ok ((pyDictGet pairs (.vstr name)).getD .vnull))
        | .vstr _ => some (st1, .exn (.unmodelled "string host methods"))
        | .varr _ => some (st1, .exn (.unmodelled "array host methods"))
        | .vbool _ => some (st1, .exn (.unmodelled "boolean host methods"))
        | .vint _ => some (st1, .exn (.unmodelled "number host methods"))
        | .vfloat _ => some (st1, .exn (.unmodelled "number host methods"))
        | _ => some (st1, .exn (plain_runtime_error ("object has no property " ++ name)))
      | some (st1, o) => some (st1, o)
    | .setE obj name value =>
      -- `evaluate_set_expression`: the object is evaluated first; the value
      -- only in the instance/dict branches.
      match evalExpr fuel st envId obj with
      | none => none
      | some (st1, .ok v) =>
        match v with
        | .vinst ref =>
          match evalExpr fuel st1 envId value with
          | none => none
          | some (st2, .ok vv) => some (setInstField st2 ref name vv, .ok vv)
          | some (st2, o) => some (st2, o)
        | .vdict _ =>
          match evalExpr fuel st1 envId value with
          | none => none
          | some (st2, .ok _) => some (st2, .exn (.unmodelled "dictionary mutation"))
          | some (st2, o) => some (st2, o)
        | _ => some (st1, .exn (plain_runtime_error
            "Only instances and dictionaries have assignable fields"))
      | some (st1, o) => some (st1, o)
    | .index obj idx =>
      match evalExpr fuel st envId obj with
      | none => none
      | some (st1, .ok vo) =>
        match evalExpr fuel st1 envId idx with
        | none => none
        | some (st2, .ok vi) =>
          match vo with
          | .varr elems =>
            match pyIndex? vi with
            | none => some (st2, .exn (plain_runtime_error "Array index must be an integer"))
            | some n =>
              if n < 0 || n ≥ (elems.length : Int) then
                some (st2, .exn (plain_runtime_error "Array index out of bounds"))
              else some (st2, .ok (elems.getD n.toNat .vnull))
          | .vdict pairs =>
            if isUnhashable vi then
              some (st2, .exn (.hostError "TypeError: unhashable type"))
            else some (st2, .ok ((pyDictGet pairs vi).getD .vnull))
          | _ => some (st2, .exn (plain_runtime_error "Can only index arrays and dictionaries"))
        | some (st2, o) => some (st2, o)
      | some (st1, o) => some (st1, o)
    | .indexSet obj idx value =>
      -- all three subexpressions are evaluated before any check
      match evalExpr fuel st envId obj with
      | none => none
      | some (st1, .ok vo) =>
        match evalExpr fuel st1 envId idx with
        | none => none
        | some (st2, .ok vi) =>
          match evalExpr fuel st2 envId value with
          | none => none
          | some (st3, .ok _) =>
            match vo with
            | .varr elems =>
              match pyIndex? vi with
              | none => some (st3, .exn (plain_runtime_error "Array index must be an integer"))
              | some n =>
                if n < 0 || n ≥ (elems.length : Int) then
                  some (st3, .exn (plain_runtime_error "Array index out of bounds"))
                else some (st3, .exn (.unmodelled "array mutation"))
            | .vdict _ =>
              if isUnhashable vi then
                some (st3, .exn (.hostError "TypeError: unhashable type"))
              else some (st3, .exn (.unmodelled "dictionary mutation"))
            | _ => some (st3, .exn (plain_runtime_error "Can only index arrays and dictionaries"))
          | some (st3, o) => some (st3, o)
        | some (st2, o) => some (st2, o)
      | some (st1, o) => some (st1, o)
    | .array elems =>
      match evalExprList fuel st envId elems with
      | none => none
      | some (st1, .ok vs) => some (st1, .ok (.varr vs))
      | some (st1, .exn e') => some (st1, .exn e')
      | some (st1, .ret v) => some (st1, .ret v)
      | some (st1, .brk) => some (st1, .brk)
      | some (st1, .cont) => some (st1, .cont)
    | .dictionary pairs => evalDictPairs fuel st envId pairs []
    | .assignment name value =>
      match evalExpr fuel st envId value with
      | none => none
      | some (st1, .ok v) =>
        match envAssign st1 envId name v false with
        | .ok st2 => some (st2, .ok v)
        | .error e' => some (st1, .exn e')
      | some (st1, o) => some (st1, o)
    | .logical l op r =>
      match evalExpr fuel st envId l with
      | none => none
      | some (st1, .ok vl) =>
        if op == "||" then
          if is_truthy vl then some (st1, .ok vl) else evalExpr fuel st1 envId r
        else if op == "&&" then
          if !is_truthy vl then some (st1, .ok vl) else evalExpr fuel st1 envId r
        else some (st1, .exn (plain_runtime_error ("Unknown logical operator: " ++ op)))
      | some (st1, o) => some (st1, o)
    | .thisE => some (st, ofExcept (envGet st envId "this" false))
    | .postfixE operand op =>
      match operand with
      | .identifier name _ =>
        match envGet st envId name false with
        | .error e' => some (st, .exn e')
        | .ok cur =>
          match pyNum? cur with
          | none => some (st, .exn (plain_runtime_error
              "Postfix operators can only be applied to numbers"))
          | some q =>
            if op == "++" then
              let newv : Value := match q with
                | .pint a => .vint (a + 1)
                | .pfloat f => .vfloat (f + 1)
              match envAssign st envId name newv false with
              | .ok st1 => some (st1, .ok cur)
              | .error e' => some (st, .exn e')
            else if op == "--" then
              let newv : Value := match q with
                | .pint a => .vint (a - 1)
                | .pfloat f => .vfloat (f - 1)
              match envAssign st envId name newv false with
              | .ok st1 => some (st1, .ok cur)
              | .error e' => some (st, .exn e')
            else some (st, .exn (plain_runtime_error ("Unknown postfix operator: " ++ op)))
      | _ => some (st, .exn (plain_runtime_error
          "Postfix operators can only be applied to variables"))
    | .templateLiteral parts _ =>
      match template_parts_eval fuel st envId parts "" with
      | none => none
      | some (st1, .ok s) => some (st1, .ok (.vstr s))
      | some (st1, .exn e') => some (st1, .exn e')
      | some (st1, .ret v) => some (st1, .ret v)
      | some (st1, .brk) => some (st1, .brk)
      | some (st1, .cont) => some (st1, .cont)

termination_by structural fuel

/-- Left-to-right evaluation of an expression list (call arguments, array
literals). -/
def evalExprList (fuel : Nat) (st : State) (envId : Nat) (es : List Expr) :
    Option (State × ERes (List Value)) :=
  match fuel with
  | 0 => none
  | fuel + 1 =>
    match es with
    | [] => some (st, .ok [])
    | e :: rest =>
      match evalExpr fuel st envId e with
      | none => none
      | some (st1, .ok v) =>
        match evalExprList fuel st1 envId rest with
        | none => none
        | some (st2, .ok vs) => some (st2, .ok (v :: vs))
        | some (st2, .exn e') => some (st2, .exn e')
        | some (st2, .ret v') => some (st2, .ret v')
        | some (st2, .brk) => some (st2, .brk)
        | some (st2, .cont) => some (st2, .cont)
      | some (st1, .exn e') => some (st1, .exn e')
      | some (st1, .ret v') => some (st1, .ret v')
      | some (st1, .brk) => some (st1, .brk)
      | some (st1, .cont) => some (st1, .cont)

termination_by structural fuel

/-- `Interpreter.evaluate_dictionary_expression`: evaluate each key and value
in order, inserting with `result[key] = value` (unhashable keys raise
`TypeError`). -/
def evalDictPairs (fuel : Nat) (st : State) (envId : Nat)
    (pairs : List (Expr × Expr)) (acc : List (Value × Value)) :
    Option (State × ERes Value) :=
  match fuel with
  | 0 => none
  | fuel + 1 =>
    match pairs with
    | [] => some (st, .ok (.vdict acc))
    | (ke, ve) :: rest =>
      match evalExpr fuel st envId ke with
      | none => none
      | some (st1, .ok k) =>
        match evalExpr fuel st1 envId ve with
        | none => none
        | some (st2, .ok v) =>
          if isUnhashable k then
            some (st2, .exn (.hostError "TypeError: unhashable type"))
          else evalDictPairs fuel st2 envId rest (pyDictInsert acc k v)
        | some (st2, o) => some (st2, o)
      | some (st1, o) => some (st1, o)

termination_by structural fuel

/-- `Interpreter.visit_statement`. -/
def execStmt (fuel : Nat) (st : State) (envId : Nat) (s : Stmt) :
    Option (State × ERes Unit) :=
  match fuel with
  | 0 => none
  | fuel + 1 =>
    match s with
    | .exprStmt e =>
      match evalExpr fuel st envId e with
      | none => none
      | some (st1, .ok _) => some (st1, .ok ())
      | some (st1, .exn e') => some (st1, .exn e')
      | some (st1, .ret v) => some (st1, .ret v)
      | some (st1, .brk) => some (st1, .brk)
      | some (st1, .cont) => some (st1, .cont)
    | .varStmt name init access =>
      match init with
      | none => some (envDefine st envId name .vnull access, .ok ())
      | some e =>
        match evalExpr fuel st envId e with
        | none => none
        | some (st1, .ok v) => some (envDefine st1 envId name v access, .ok ())
        | some (st1, .exn e') => some (st1, .exn e')
        | some (st1, .ret v) => some (st1, .ret v)
        | some (st1, .brk) => some (st1, .brk)
        | some (st1, .cont) => some (st1, .cont)
    | .block stmts =>
      -- `execute_block(stmt.statements, Environment(self.environment))`
      let (st1, newId) := newEnv st (some envId)
      execStmts fuel st1 newId stmts
    | .funcStmt name params body access variadic =>
      some (envDefine st envId name (.vfunc ⟨params, variadic, body, envId, false, access⟩) access,
        .ok ())
    | .classStmt name methods ctor access =>
      let methodsData := methods.map (fun m =>
        (m.1, FuncData.mk m.2.1 m.2.2.1 m.2.2.2 envId false .PUBLIC))
      let methodsData' := match ctor with
        | some c => methodsData ++ [("init", FuncData.mk c.1 c.2.1 c.2.2 envId true .PUBLIC)]
        | none => methodsData
      some (envDefine st envId name (.vclass ⟨name, methodsData', access⟩) access, .ok ())
    | .ifStmt cond thenB elifs elseB =>
      match evalExpr fuel st envId cond with
      | none => none
      | some (st1, .ok v) =>
        if is_truthy v then execStmt fuel st1 envId thenB
        else elif_loop fuel st1 envId elifs elseB
      | some (st1, .exn e') => some (st1, .exn e')
      | some (st1, .ret v) => some (st1, .ret v)
      | some (st1, .brk) => some (st1, .brk)
      | some (st1, .cont) => some (st1, .cont)
    | .whileStmt cond body => while_loop fuel st envId cond body
    | .forStmt vn iter body =>
      match evalExpr fuel st envId iter with
      | none => none
      | some (st1, .ok v) =>
        match v with
        | .varr items => for_loop fuel st1 envId vn items body
        | _ => some (st1, .exn (plain_runtime_error "Object is not iterable"))
      | some (st1, .exn e') => some (st1, .exn e')
      | some (st1, .ret v) => some (st1, .ret v)
      | some (st1, .brk) => some (st1, .brk)
      | some (st1, .cont) => some (st1, .cont)
    | .returnStmt val =>
      match val with
      | none => some (st, .ret .vnull)
      | some e =>
        -- (a non-ok outcome while evaluating the return value propagates)
        match evalExpr fuel st envId e with
        | none => none
        | some (st1, .ok v) => some (st1, .ret v)
        | some (st1, .exn e') => some (st1, .exn e')
        | some (st1, .ret v) => some (st1, .ret v)
        | some (st1, .brk) => some (st1, .brk)
        | some (st1, .cont) => some (st1, .cont)
    | .breakStmt => some (st, .brk)
    | .continueStmt => some (st, .cont)
    | .tryStmt tryB catches finB => execute_try fuel st envId tryB catches finB
    | .switchStmt e cases =>
      match evalExpr fuel st envId e with
      | none => none
      | some (st1, .ok sv) =>
        match switch_find fuel st1 envId cases sv none with
        | none => none
        | some (st2, .ok (matched, dflt)) =>
          match matched.orElse (fun _ => dflt) with
          | none => some (st2, .ok ())
          | some body =>
            match execStmts fuel st2 envId body with
            | none => none
            | some (st3, .brk) => some (st3, .ok ())
            | some (st3, o) => some (st3, o)
        | some (st2, .exn e') => some (st2, .exn e')
        | some (st2, .ret v) => some (st2, .ret v)
        | some (st2, .brk) => some (st2, .brk)
        | some (st2, .cont) => some (st2, .cont)
      | some (st1, .exn e') => some (st1, .exn e')
      | some (st1, .ret v) => some (st1, .ret v)
      | some (st1, .brk) => some (st1, .brk)
      | some (st1, .cont) => some (st1, .cont)
    | .packageStmt _ _ => some (st, .exn (.unmodelled "package import (file system; modelled separately as execute_package)"))

termination_by structural fuel

/-- Sequential statement execution in a given environment (`execute_block`'s
loop; the environment save/restore is the `envId` parameter). -/
def execStmts (fuel : Nat) (st : State) (envId : Nat) (stmts : List Stmt) :
    Option (State × ERes Unit) :=
  match fuel with
  | 0 => none
  | fuel + 1 =>
    match stmts with
    | [] => some (st, .ok ())
    | s :: rest =>
      match execStmt fuel st envId s with
      | none => none
      | some (st1, .ok _) => execStmts fuel st1 envId rest
      | some (st1, o) => some (st1, o)

termination_by structural fuel

/-- The `elif`/`else` cascade of `execute_if_statement`. -/
def elif_loop (fuel : Nat) (st : State) (envId : Nat)
    (elifs : List (Expr × Stmt)) (elseB : Option Stmt) :
    Option (State × ERes Unit) :=
  match fuel with
  | 0 => none
  | fuel + 1 =>
    match elifs with
    | [] =>
      match elseB with
      | some b => execStmt fuel st envId b
      | none => some (st, .ok ())
    | (c, b) :: rest =>
      match evalExpr fuel st envId c with
      | none => none
      | some (st1, .ok v) =>
        if is_truthy v then execStmt fuel st1 envId b
        else elif_loop fuel st1 envId rest elseB
      | some (st1, .exn e') => some (st1, .exn e')
      | some (st1, .ret v) => some (st1, .ret v)
      | some (st1, .brk) => some (st1, .brk)
      | some (st1, .cont) => some (st1, .cont)

termination_by structural fuel

/-- `execute_while_statement`: `BreakException` exits, `ContinueException`
proceeds; anything else propagates. -/
def while_loop (fuel : Nat) (st : State) (envId : Nat) (cond : Expr) (body : Stmt) :
    Option (State × ERes Unit) :=
  match fuel with
  | 0 => none
  | fuel + 1 =>
    match evalExpr fuel st envId cond with
    | none => none
    | some (st1, .ok v) =>
      if !is_truthy v then some (st1, .ok ())
      else
        match execStmt fuel st1 envId body with
        | none => none
        | some (st2, .ok _) => while_loop fuel st2 envId cond body
        | some (st2, .brk) => some (st2, .ok ())
        | some (st2, .cont) => while_loop fuel st2 envId cond body
        | some (st2, o) => some (st2, o)
    | some (st1, .exn e') => some (st1, .exn e')
    | some (st1, .ret v) => some (st1, .ret v)
    | some (st1, .brk) => some (st1, .brk)
    | some (st1, .cont) => some (st1, .cont)

termination_by structural fuel

/-- `execute_for_statement`'s iteration: a fresh child environment per
element, binding the loop variable. -/
def for_loop (fuel : Nat) (st : State) (envId : Nat) (vn : String)
    (items : List Value) (body : Stmt) : Option (State × ERes Unit) :=
  match fuel with
  | 0 => none
  | fuel + 1 =>
    match items with
    | [] => some (st, .ok ())
    | item :: rest =>
      let (st1, loopEnv) := newEnv st (some envId)
      let st2 := envDefine st1 loopEnv vn item .PRIVATE
      match execStmt fuel st2 loopEnv body with
      | none => none
      | some (st3, .ok _) => for_loop fuel st3 envId vn rest body
      | some (st3, .brk) => some (st3, .ok ())
      | some (st3, .cont) => for_loop fuel st3 envId vn rest body
      | some (st3, o) => some (st3, o)

termination_by structural fuel

/-- `callee.call(self, arguments)` dispatch. -/
def call_value (fuel : Nat) (st : State) (callee : Value) (args : List Value) :
    Option (State × ERes Value) :=
  match fuel with
  | 0 => none
  | fuel + 1 =>
    match callee with
    | .vfunc f => function_call fuel st f args
    | .vclass c => class_call fuel st c args
    | .vbound r m => bound_call fuel st r m args
    | _ => some (st, .exn (plain_runtime_error "Can only call functions and classes"))

termination_by structural fuel

/-- `LapisFunction.call`: fresh environment over the closure, fixed
parameters bound positionally (`None` when missing), the variadic parameter
bound to the remaining arguments; `ReturnException` is caught, initializers
return `this`. -/
def function_call (fuel : Nat) (st : State) (f : FuncData) (args : List Value) :
    Option (State × ERes Value) :=
  match fuel with
  | 0 => none
  | fuel + 1 =>
    let (st1, envId) := newEnv st (some f.closure)
    let st2 := bindParams st1 envId f.params args
    let st3 := match f.variadic_param with
      | some vn => envDefine st2 envId vn (.varr (args.drop f.params.length)) .PRIVATE
      | none => st2
    match execStmts fuel st3 envId f.body with
    | none => none
    | some (st4, .ret v) =>
      if f.is_initializer then some (st4, ofExcept (envGet st4 f.closure "this" false))
      else some (st4, .ok v)
    | some (st4, .ok _) =>
      if f.is_initializer then some (st4, ofExcept (envGet st4 f.closure "this" false))
      else some (st4, .ok .vnull)
    | some (st4, .exn e') => some (st4, .exn e')
    | some (st4, .brk) => some (st4, .brk)
    | some (st4, .cont) => some (st4, .cont)

termination_by structural fuel

/-- `LapisClass.call`: fresh instance; `init` (when declared) is bound and
called — through `BoundMethod.call` — and its result discarded; the instance
is returned. -/
def class_call (fuel : Nat) (st : State) (c : ClassData) (args : List Value) :
    Option (State × ERes Value) :=
  match fuel with
  | 0 => none
  | fuel + 1 =>
    let (st1, ref) := newInst st c
    match find_method c "init" with
    | none => some (st1, .ok (.vinst ref))
    | some init =>
      match bound_call fuel st1 ref init args with
      | none => none
      | some (st2, .ok _) => some (st2, .ok (.vinst ref))
      | some (st2, o) => some (st2, o)

termination_by structural fuel

/-- `BoundMethod.call`, exactly as written in `environment.py`: a fresh
environment over the method's closure with `this` bound to the instance and
the fixed parameters bound (no variadic support here); then the body is
executed **twice** — the first `try: … except: pass` swallows every outcome
(keeping its side effects), and the second run's outcome is inspected: an
exception with a `value` attribute (only `ReturnException`) produces the
return value (the instance for initializers), anything else re-raises. -/
def bound_call (fuel : Nat) (st : State) (ref : Nat) (m : FuncData) (args : List Value) :
    Option (State × ERes Value) :=
  match fuel with
  | 0 => none
  | fuel + 1 =>
    let (st1, envId) := newEnv st (some m.closure)
    let st2 := envDefine st1 envId "this" (.vinst ref) .PRIVATE
    let st3 := bindParams st2 envId m.params args
    match execStmts fuel st3 envId m.body with
    | none => none
    | some (st4, _) =>
      match execStmts fuel st4 envId m.body with
      | none => none
      | some (st5, .ret v) =>
        some (st5, .ok (if m.is_initializer then .vinst ref else v))
      | some (st5, .ok _) =>
        some (st5, .ok (if m.is_initializer then .vinst ref else .vnull))
      | some (st5, .exn e') => some (st5, .exn e')
      | some (st5, .brk) => some (st5, .brk)
      | some (st5, .cont) => some (st5, .cont)

termination_by structural fuel

/-- `Interpreter.execute_try_statement`.  Control-flow exceptions from the
`try` body are re-raised *before* the `finally` block (the source's first
`except` clause); error exceptions go to the first `catch` clause if any
(every clause matches), and the `finally` body then runs once, after which
an unhandled exception is re-raised.  An exception or transfer raised inside
a `catch` body propagates immediately, also skipping `finally`. -/
def execute_try (fuel : Nat) (st : State) (envId : Nat) (tryBody : List Stmt)
    (catches : List (Option String × List Stmt)) (finallyBody : Option (List Stmt)) :
    Option (State × ERes Unit) :=
  match fuel with
  | 0 => none
  | fuel + 1 =>
    match execStmts fuel st envId tryBody with
    | none => none
    | some (st1, .brk) => some (st1, .brk)
    | some (st1, .cont) => some (st1, .cont)
    | some (st1, .ret v) => some (st1, .ret v)
    | some (st1, .ok _) => try_finally fuel st1 envId finallyBody none
    | some (st1, .exn e') =>
      match catches with
      | [] => try_finally fuel st1 envId finallyBody (some e')
      | (var?, cbody) :: _ =>
        match var? with
        | some vname =>
          let (st2, catchEnv) := newEnv st1 (some envId)
          let st3 := envDefine st2 catchEnv vname (.vexc (exnToString e')) .PRIVATE
          match execStmts fuel st3 catchEnv cbody with
          | none => none
          | some (st4, .ok _) => try_finally fuel st4 envId finallyBody none
          | some (st4, o) => some (st4, o)
        | none =>
          match execStmts fuel st1 envId cbody with
          | none => none
          | some (st4, .ok _) => try_finally fuel st4 envId finallyBody none
          | some (st4, o) => some (st4, o)

termination_by structural fuel

/-- The tail of `execute_try_statement`: run the `finally` body (when there is
one), then re-raise a pending unhandled exception; a non-normal outcome of
the `finally` body itself wins. -/
def try_finally (fuel : Nat) (st : State) (envId : Nat)
    (finallyBody : Option (List Stmt)) (pending : Option Exn) :
    Option (State × ERes Unit) :=
  match fuel with
  | 0 => none
  | fuel + 1 =>
    match finallyBody with
    | none =>
      match pending with
      | none => some (st, .ok ())
      | some e' => some (st, .exn e')
    | some fb =>
      match execStmts fuel st envId fb with
      | none => none
      | some (st1, .ok _) =>
        match pending with
        | none => some (st1, .ok ())
        | some e' => some (st1, .exn e')
      | some (st1, o) => some (st1, o)

termination_by structural fuel

/-- The case-scanning loop of `execute_switch_statement`: remember the (last)
`default` clause, evaluate case values in order and compare each with
`_values_equal`, stopping at the first match. -/
def switch_find (fuel : Nat) (st : State) (envId : Nat)
    (cases : List (List Expr × List Stmt × Bool)) (sv : Value)
    (dflt : Option (List Stmt)) :
    Option (State × ERes (Option (List Stmt) × Option (List Stmt))) :=
  match fuel with
  | 0 => none
  | fuel + 1 =>
    match cases with
    | [] => some (st, .ok (none, dflt))
    | (values, body, is_default) :: rest =>
      if is_default then switch_find fuel st envId rest sv (some body)
      else
        match case_values_match fuel st envId values sv with
        | none => none
        | some (st1, .ok true) => some (st1, .ok (some body, dflt))
        | some (st1, .ok false) => switch_find fuel st1 envId rest sv dflt
        | some (st1, .exn e') => some (st1, .exn e')
        | some (st1, .ret v) => some (st1, .ret v)
        | some (st1, .brk) => some (st1, .brk)
        | some (st1, .cont) => some (st1, .cont)

termination_by structural fuel

/-- Left-to-right scan of one case's value list. -/
def case_values_match (fuel : Nat) (st : State) (envId : Nat)
    (values : List Expr) (sv : Value) : Option (State × ERes Bool) :=
  match fuel with
  | 0 => none
  | fuel + 1 =>
    match values with
    | [] => some (st, .ok false)
    | ve :: vrest =>
      match evalExpr fuel st envId ve with
      | none => none
      | some (st1, .ok cv) =>
        if values_equal sv cv then some (st1, .ok true)
        else case_values_match fuel st1 envId vrest sv
      | some (st1, .exn e') => some (st1, .exn e')
      | some (st1, .ret v) => some (st1, .ret v)
      | some (st1, .brk) => some (st1, .brk)
      | some (st1, .cont) => some (st1, .cont)

termination_by structural fuel

/-- `Interpreter.evaluate_template_literal_expression`: fold over the parts,
text passing through verbatim, each expression part evaluated by
`_evaluate_template_expression` and rendered with `_to_lapis_string`; any
failure (the `except Exception` also catches control-flow exceptions) is
re-raised as a `LAP4001` error tagged to the template literal. -/
def template_parts_eval (fuel : Nat) (st : State) (envId : Nat)
    (parts : List (Option String × Option String)) (result : String) :
    Option (State × ERes String) :=
  match fuel with
  | 0 => none
  | fuel + 1 =>
    match parts with
    | [] => some (st, .ok result)
    | (textPart, varPart) :: rest =>
      match textPart with
      | some t => template_parts_eval fuel st envId rest (result ++ t)
      | none =>
        match varPart with
        | some src =>
          match template_expr_eval fuel st envId src with
          | none => none
          | some (st1, .ok v) =>
            template_parts_eval fuel st1 envId rest (result ++ to_lapis_string v)
          | some (st1, _) =>
            some (st1, .exn (.lapisError "LAP4001"
              ("Error evaluating expression " ++ src ++ " in template literal")))
        | none => template_parts_eval fuel st envId rest result

termination_by structural fuel

/-- `Interpreter._evaluate_template_expression`: lex (`Lexer(text, "<template>")`)
and parse the captured text as a standalone expression, evaluate it in the
current environment; on any failure, fall back to a plain variable lookup of
the stripped text, re-raising the original failure when that also fails. -/
def template_expr_eval (fuel : Nat) (st : State) (envId : Nat) (text : String) :
    Option (State × ERes Value) :=
  match fuel with
  | 0 => none
  | fuel + 1 =>
    match Lexer.tokenize fuel text.toList 0 with
    | none => none
    | some (.error lf) =>
      match envGet st envId (py_strip text) false with
      | .ok w => some (st, .ok w)
      | .error _ => some (st, .exn (.lapisError lf.code lf.message))
    | some (.ok tokens) =>
      match Parser.expression fuel ⟨tokens, 0⟩ with
      | none => none
      | some (.error pf) =>
        match envGet st envId (py_strip text) false with
        | .ok w => some (st, .ok w)
        | .error _ => some (st, .exn (.lapisError pf.code pf.message))
      | some (.ok (expr, _)) =>
        match evalExpr fuel st envId expr with
        | none => none
        | some (st1, .ok v) => some (st1, .ok v)
        | some (st1, o) =>
          match envGet st1 envId (py_strip text) false with
          | .ok w => some (st1, .ok w)
          | .error _ => some (st1, o)

termination_by structural fuel

end

/-- The interpreter's starting state: one (global) environment.  The
built-in modules `Console`/`Math`/`File` installed by `define_built_ins` are
host objects outside this model; the globals start empty (no claim calls a
built-in). -/
def initState : State := ⟨[⟨none, []⟩], []⟩

/-- `Interpreter.interpret` over a program's statements in the global
environment (env 0).  Control-flow exceptions escaping to the top level
become `LAP9002`; `LapisError`s re-raise unchanged; any other Python
exception is wrapped as an internal `LAP9001` error. -/
def interpret (fuel : Nat) (st : State) (stmts : List Stmt) :
    Option (State × Except Exn Unit) :=
  match execStmts fuel st 0 stmts with
  | none => none
  | some (st1, .ok _) => some (st1, .ok ())
  | some (st1, .brk) =>
    some (st1, .error (.lapisError "LAP9002" "break or continue outside of loop"))
  | some (st1, .cont) =>
    some (st1, .error (.lapisError "LAP9002" "break or continue outside of loop"))
  | some (st1, .ret _) => some (st1, .error (.lapisError "LAP9001" "Runtime error"))
  | some (st1, .exn (.lapisError c m)) => some (st1, .error (.lapisError c m))
  | some (st1, .exn (.lapisRuntimeExc m)) =>
    some (st1, .error (.lapisError "LAP9001" ("Runtime error: " ++ m)))
  | some (st1, .exn (.hostError m)) =>
    some (st1, .error (.lapisError "LAP9001" ("Runtime error: " ++ m)))
  | some (st1, .exn (.unmodelled m)) => some (st1, .error (.unmodelled m))

/-! ## Package import (`Interpreter.execute_package_statement`)

The file system side of a `package` statement (resolving the path, reading
the file, lexing/parsing it, and evaluating it in a fresh `Interpreter()`)
cannot live inside a shallow embedding; it is abstracted into parameters:
`already_imported` is `file_path in self.imported_files`, and
`module_globals` stands for `imported_interpreter.globals.values` — the
global bindings (with their access modifiers) that evaluating the target
file's top level produces.  Everything after that point — which bindings the
importing environment receives — is modelled verbatim from the source. -/

/-- `Interpreter.get_imported_symbols`, verbatim: for an already-imported
file the source returns the empty mapping (its comment: "This would require
keeping track of imported environments ... For now, just return empty dict
(improvement needed)"). -/
def get_imported_symbols (_file_path : String) (_imports : Option (List String)) :
    List (String × Value) := []

/-- The `use a, b, …` branch: each named symbol must exist and be public
(looked up with `from_external_file=True`); failures become `LAP4003`. -/
def import_named (st : State) (envId : Nat)
    (module_globals : List (String × Value × AccessModifier)) (path : String) :
    List String → State × Except Exn Unit
  | [] => (st, .ok ())
  | n :: rest =>
    match lookupVar module_globals n with
    | some (v, a) =>
      if can_access a true then
        import_named (envDefine st envId n v .PRIVATE) envId module_globals path rest
      else
        (st, .error (.lapisError "LAP4003"
          ("Cannot import private symbol " ++ n ++ " from " ++ path)))
    | none =>
      (st, .error (.lapisError "LAP4003" ("Symbol " ++ n ++ " not found in " ++ path)))

/-- `Interpreter.execute_package_statement` (file system abstracted, see the
section comment).  For an already-imported path the source calls
`get_imported_symbols` and returns its (empty) mapping — defining nothing in
the importing environment.  Otherwise, without `use`, every public binding
of the module's globals is defined as a private binding; with `use`, the
named ones. -/
def execute_package (st : State) (envId : Nat) (already_imported : Bool)
    (module_globals : List (String × Value × AccessModifier))
    (path : String) (imports : Option (List String)) : State × Except Exn Unit :=
  if already_imported then
    let _ := get_imported_symbols path imports
    (st, .ok ())
  else
    match imports with
    | none =>
      let publics := get_all_public ⟨none, module_globals⟩
      (publics.foldl (fun s nv => envDefine s envId nv.1 nv.2 .PRIVATE) st, .ok ())
    | some names => import_named st envId module_globals path names

/-! ## Well-formed runtime values and canonical keys (for C9)

Dictionaries the interpreter can build have hashable keys (`isUnhashable`
raises `TypeError` at literal and index-set time) that are pairwise
non-equal (`pyDictInsert` replaces a `==`-equal key).  `wfValue` captures
that invariant; `keyCanon` maps hashable keys to a type with decidable
equality on which Python `==` is literal equality. -/

/-- Keys pairwise non-`==`. -/
def keysNodupB : List (Value × Value) → Bool
  | [] => true
  | (k, _) :: rest => !(rest.any (fun p => pyEq k p.1)) && keysNodupB rest

mutual

/-- Values the interpreter can build: every dictionary in them has hashable,
pairwise non-`==` keys. -/
def wfValue : Value → Bool
  | .varr xs => wfList xs
  | .vdict ps => wfPairs ps && keysNodupB ps
  | _ => true

def wfList : List Value → Bool
  | [] => true
  | x :: xs => wfValue x && wfList xs

def wfPairs : List (Value × Value) → Bool
  | [] => true
  | (k, v) :: rest => !(isUnhashable k) && wfValue v && wfPairs rest

end

/-- Canonical form of a (hashable) dictionary key: Python `==` on hashable
values is literal equality of this form (numbers and booleans collapse to
their rational value, as `1 == 1.0 == True` in Python). -/
inductive KeyC where
  | knull
  | knum (q : Rat)
  | kstr (s : String)
  | kinst (r : Nat)
  | kfunc (closure : Nat) (params : List String) (vp : Option String) (ii : Bool)
  | kclass (name : String)
  | kbound (r : Nat) (closure : Nat)
  | kexc (m : String)
deriving DecidableEq, Repr

/-- The canonicalization (arrays/dictionaries are unhashable and never
keys; their clause is dead). -/
def keyCanon : Value → KeyC
  | .vnull => .knull
  | .vbool b => .knum (if b then 1 else 0)
  | .vint n => .knum (n : Rat)
  | .vfloat q => .knum q
  | .vstr s => .kstr s
  | .vinst r => .kinst r
  | .vfunc f => .kfunc f.closure f.params f.variadic_param f.is_initializer
  | .vclass c => .kclass c.name
  | .vbound r m => .kbound r m.closure
  | .vexc m => .kexc m
  | .varr _ => .knull
  | .vdict _ => .knull

/-! # Claim theorems -/

/-! ## C4 — int/float preservation through arithmetic -/

/-- The `/`-instance of C4's "every arithmetic binary operation on two
integer operands yields an integer": division of two integers would have to
produce an integer value.  (A consequence of the claim as stated; refuting
it refutes the claim.) -/
def C4_claim_int_division : Prop :=
  ∀ (a b : Int) (sp : Option Span) (le re : Expr) (v : Value),
    binary_dispatch "/" (.vint a) (.vint b) sp le re = .ok v → ∃ n : Int, v = .vint n

/-- C4 counterexample: `4 / 2` evaluates to the *float* `2.0` (Python's `/`
is true division), so the claim's "on two integer operands the result is an
integer" fails for `/`. -/
theorem C4_division_counterexample : ¬ C4_claim_int_division := by
  intro h
  obtain ⟨n, hn⟩ := h 4 2 none (.literal (.intV 4) none) (.literal (.intV 2) none)
    (.vfloat ((4 : Rat) / 2)) (by rfl)
  exact Value.noConfusion hn

/-- The number-scanning result of `Lexer.number`: the state after the digit
loops, and the exact value of the scanned literal text. -/
def scanned_number_value (fuel : Nat) (st : LexState) : LexState × Rat :=
  let st1 := Lexer.digits_loop fuel st
  let st2 := if st1.peek = '.' && st1.peek_next.isDigit
             then Lexer.digits_loop fuel (st1.advance).2 else st1
  (st2, Lexer.parse_number_value ((st2.source.drop st2.start).take (st2.current - st2.start)))

/-- C4 (amended): `+`, `-`, `*` and `%` on two integers yield integers
(`%` by Python's floored `fmod`, failing on a zero divisor); `/` **always**
yields a float (true division), `LAP3008` on a zero divisor; `**` on two
integers yields an integer for a nonnegative exponent and a float for a
negative one (zero base excepted); mixing an integer and a float yields a
float for `+ - * /` (nonzero divisor) and `%` (nonzero divisor), and for
`**` with an integer exponent; and a whole-valued numeric literal is lexed
as an integer (`Lexer.number` stores `intL` exactly when the literal's value
is whole). -/
theorem C4_arithmetic_amended :
    (∀ (a b : Int) (sp : Option Span) (le re : Expr),
      binary_dispatch "+" (.vint a) (.vint b) sp le re = .ok (.vint (a + b)) ∧
      binary_dispatch "-" (.vint a) (.vint b) sp le re = .ok (.vint (a - b)) ∧
      binary_dispatch "*" (.vint a) (.vint b) sp le re = .ok (.vint (a * b)) ∧
      (b ≠ 0 → binary_dispatch "%" (.vint a) (.vint b) sp le re = .ok (.vint (Int.fmod a b))) ∧
      (b ≠ 0 → binary_dispatch "/" (.vint a) (.vint b) sp le re =
        .ok (.vfloat ((a : Rat) / (b : Rat)))) ∧
      (b = 0 → binary_dispatch "/" (.vint a) (.vint b) sp le re =
        .error (.lapisError "LAP3008" "division by zero")) ∧
      (0 ≤ b → binary_dispatch "**" (.vint a) (.vint b) sp le re = .ok (.vint (a ^ b.toNat))) ∧
      (b < 0 → a ≠ 0 → binary_dispatch "**" (.vint a) (.vint b) sp le re =
        .ok (.vfloat ((a : Rat) ^ b)))) ∧
    (∀ (a : Int) (q : Rat) (sp : Option Span) (le re : Expr),
      binary_dispatch "+" (.vint a) (.vfloat q) sp le re = .ok (.vfloat ((a : Rat) + q)) ∧
      binary_dispatch "+" (.vfloat q) (.vint a) sp le re = .ok (.vfloat (q + (a : Rat))) ∧
      binary_dispatch "-" (.vint a) (.vfloat q) sp le re = .ok (.vfloat ((a : Rat) - q)) ∧
      binary_dispatch "-" (.vfloat q) (.vint a) sp le re = .ok (.vfloat (q - (a : Rat))) ∧
      binary_dispatch "*" (.vint a) (.vfloat q) sp le re = .ok (.vfloat ((a : Rat) * q)) ∧
      binary_dispatch "*" (.vfloat q) (.vint a) sp le re = .ok (.vfloat (q * (a : Rat))) ∧
      (q.num ≠ 0 → binary_dispatch "/" (.vint a) (.vfloat q) sp le re =
        .ok (.vfloat ((a : Rat) / q))) ∧
      (a ≠ 0 → binary_dispatch "/" (.vfloat q) (.vint a) sp le re =
        .ok (.vfloat (q / (a : Rat)))) ∧
      (q.num ≠ 0 → ∃ f : Rat, binary_dispatch "%" (.vint a) (.vfloat q) sp le re =
        .ok (.vfloat f)) ∧
      (a ≠ 0 → ∃ f : Rat, binary_dispatch "%" (.vfloat q) (.vint a) sp le re =
        .ok (.vfloat f)) ∧
      (¬(q.num = 0 ∧ a < 0) → binary_dispatch "**" (.vfloat q) (.vint a) sp le re =
        .ok (.vfloat (q ^ a)))) ∧
    (∀ (fuel : Nat) (st : LexState),
      ((scanned_number_value fuel st).2.den = 1 →
        Lexer.number fuel st = (scanned_number_value fuel st).1.add_token .NUMBER
          (.intL (scanned_number_value fuel st).2.num)) ∧
      ((scanned_number_value fuel st).2.den ≠ 1 →
        Lexer.number fuel st = (scanned_number_value fuel st).1.add_token .NUMBER
          (.floatL (scanned_number_value fuel st).2))) := by
  refine ⟨?_, ?_, ?_⟩
  · intro a b sp le re
    refine ⟨rfl, rfl, rfl, ?_, ?_, ?_, ?_, ?_⟩
    · intro hb
      rw [show binary_dispatch "%" (.vint a) (.vint b) sp le re =
        numMod (.pint a) (.pint b) from rfl]
      simp [numMod, PyNum.isZero, hb]
    · intro hb
      rw [show binary_dispatch "/" (.vint a) (.vint b) sp le re =
        (if (PyNum.pint b).isZero then
          Except.error (Exn.lapisError "LAP3008" "division by zero")
        else .ok (.vfloat ((PyNum.pint a).toRat / (PyNum.pint b).toRat))) from rfl]
      simp [PyNum.isZero, PyNum.toRat, hb]
    · intro hb
      subst hb
      rfl
    · intro hb
      rw [show binary_dispatch "**" (.vint a) (.vint b) sp le re =
        numPow (.pint a) (.pint b) from rfl]
      simp [numPow, hb]
    · intro hb ha
      rw [show binary_dispatch "**" (.vint a) (.vint b) sp le re =
        numPow (.pint a) (.pint b) from rfl]
      simp [numPow, not_le.mpr hb, ha]
  · intro a q sp le re
    refine ⟨rfl, rfl, rfl, rfl, rfl, rfl, ?_, ?_, ?_, ?_, ?_⟩
    · intro hq
      rw [show binary_dispatch "/" (.vint a) (.vfloat q) sp le re =
        (if (PyNum.pfloat q).isZero then
          Except.error (Exn.lapisError "LAP3008" "division by zero")
        else .ok (.vfloat ((PyNum.pint a).toRat / (PyNum.pfloat q).toRat))) from rfl]
      simp [PyNum.isZero, PyNum.toRat, hq]
    · intro ha
      rw [show binary_dispatch "/" (.vfloat q) (.vint a) sp le re =
        (if (PyNum.pint a).isZero then
          Except.error (Exn.lapisError "LAP3008" "division by zero")
        else .ok (.vfloat ((PyNum.pfloat q).toRat / (PyNum.pint a).toRat))) from rfl]
      simp [PyNum.isZero, PyNum.toRat, ha]
    · intro hq
      rw [show binary_dispatch "%" (.vint a) (.vfloat q) sp le re =
        (if (PyNum.pfloat q).isZero then
          Except.error (.hostError "ZeroDivisionError: modulo by zero")
        else .ok (.vfloat ((PyNum.pint a).toRat - (PyNum.pfloat q).toRat *
          ((⌊(PyNum.pint a).toRat / (PyNum.pfloat q).toRat⌋ : Int) : Rat)))) from rfl]
      rw [if_neg (by simpa [PyNum.isZero] using hq)]
      exact ⟨_, rfl⟩
    · intro ha
      rw [show binary_dispatch "%" (.vfloat q) (.vint a) sp le re =
        (if (PyNum.pint a).isZero then
          Except.error (.hostError "ZeroDivisionError: modulo by zero")
        else .ok (.vfloat ((PyNum.pfloat q).toRat - (PyNum.pint a).toRat *
          ((⌊(PyNum.pfloat q).toRat / (PyNum.pint a).toRat⌋ : Int) : Rat)))) from rfl]
      rw [if_neg (by simpa [PyNum.isZero] using ha)]
      exact ⟨_, rfl⟩
    · intro h
      rw [show binary_dispatch "**" (.vfloat q) (.vint a) sp le re =
        numPow (.pfloat q) (.pint a) from rfl]
      simp only [numPow, PyNum.toRat, Rat.den_intCast, Rat.num_intCast, if_pos rfl]
      rw [if_neg h]
      simp
  · intro fuel st
    constructor
    · intro hq
      rw [show Lexer.number fuel st =
        (if (scanned_number_value fuel st).2.den = 1 then
          (scanned_number_value fuel st).1.add_token .NUMBER
            (.intL (scanned_number_value fuel st).2.num)
        else (scanned_number_value fuel st).1.add_token .NUMBER
            (.floatL (scanned_number_value fuel st).2)) from rfl]
      rw [if_pos hq]
    · intro hq
      rw [show Lexer.number fuel st =
        (if (scanned_number_value fuel st).2.den = 1 then
          (scanned_number_value fuel st).1.add_token .NUMBER
            (.intL (scanned_number_value fuel st).2.num)
        else (scanned_number_value fuel st).1.add_token .NUMBER
            (.floatL (scanned_number_value fuel st).2)) from rfl]
      rw [if_neg hq]

/-- Witness for C4 (amended) at concrete inputs: `7 % 2 = 1` (int),
`7 / 2` is a float, `2 ** (-1)` is a float, `3 + 2.0` is a float, and the
literal `10.` lexing conjunct at a concrete whole-valued literal text. -/
theorem C4_arithmetic_amended_witness :
    binary_dispatch "%" (.vint 7) (.vint 2) none .thisE .thisE = .ok (.vint 1) ∧
    binary_dispatch "/" (.vint 7) (.vint 2) none .thisE .thisE =
      .ok (.vfloat ((7 : Rat) / (2 : Rat))) ∧
    binary_dispatch "**" (.vint 2) (.vint (-1)) none .thisE .thisE =
      .ok (.vfloat ((2 : Rat) ^ (-1 : Int))) ∧
    binary_dispatch "+" (.vint 3) (.vfloat 2) none .thisE .thisE =
      .ok (.vfloat ((3 : Rat) + 2)) := by
  have h1 := (C4_arithmetic_amended.1 7 2 none .thisE .thisE).2.2.2.1 (by decide)
  have h2 := (C4_arithmetic_amended.1 7 2 none .thisE .thisE).2.2.2.2.1 (by decide)
  have h3 := (C4_arithmetic_amended.1 2 (-1) none .thisE .thisE).2.2.2.2.2.2.2 (by decide) (by decide)
  have h4 := (C4_arithmetic_amended.2.1 3 2 none .thisE .thisE).1
  exact ⟨by rw [h1]; rfl, h2, h3, h4⟩

/-! ## C5 — `+` on non-numeric, non-string operands -/

/-- "a number (integer or float)" in C5's sense — booleans excluded. -/
def isIntOrFloatV : Value → Bool
  | .vint _ => true
  | .vfloat _ => true
  | _ => false

/-- C5 as stated: `+` where neither operand is a number (integer or float)
and neither is a string raises `TYPE_MISMATCH_BINARY` (`LAP3001`) rather
than producing a value. -/
def C5_claim : Prop :=
  ∀ (l r : Value) (sp : Option Span) (le re : Expr),
    isIntOrFloatV l = false → isIntOrFloatV r = false →
    isStrV l = false → isStrV r = false →
    ∃ msg, binary_dispatch "+" l r sp le re = .error (.lapisError "LAP3001" msg)

/-- C5 counterexample: `true + true` evaluates to the integer `2` — Python
booleans satisfy `isinstance(x, (int, float))`, so two booleans take the
numeric-addition path instead of raising `TYPE_MISMATCH_BINARY`. -/
theorem C5_bool_addition_counterexample : ¬ C5_claim := by
  intro h
  obtain ⟨msg, hmsg⟩ := h (.vbool true) (.vbool true) none .thisE .thisE rfl rfl rfl rfl
  rw [show binary_dispatch "+" (.vbool true) (.vbool true) none .thisE .thisE =
    .ok (.vint 2) from rfl] at hmsg
  exact Except.noConfusion hmsg

/-- C5 (amended): `+` produces numeric addition whenever **both** operands
are numeric in Python's sense — booleans included, counting as 0/1 (so
`true + true` is the integer `2`); otherwise, when at least one operand is a
string, string concatenation of the canonical `to_string` renderings;
otherwise (e.g. two arrays) `TYPE_MISMATCH_BINARY` (`LAP3001`) with the
`cannot add {t1} and {t2}` message. -/
theorem C5_plus_dispatch_amended (l r : Value) (sp : Option Span) (le re : Expr) :
    (∀ x y, pyNum? l = some x → pyNum? r = some y →
      binary_dispatch "+" l r sp le re = .ok (numAdd x y)) ∧
    (pyNum? l = none ∨ pyNum? r = none → (isStrV l || isStrV r) = true →
      binary_dispatch "+" l r sp le re =
        .ok (.vstr (to_lapis_string l ++ to_lapis_string r))) ∧
    (pyNum? l = none ∨ pyNum? r = none → isStrV l = false → isStrV r = false →
      binary_dispatch "+" l r sp le re =
        .error (.lapisError "LAP3001"
          ("cannot add " ++ get_type_name l ++ " and " ++ get_type_name r))) := by
  refine ⟨?_, ?_, ?_⟩
  · intro x y hx hy
    rw [show binary_dispatch "+" l r sp le re =
      (match pyNum? l, pyNum? r with
       | some lq, some rq => .ok (numAdd lq rq)
       | _, _ =>
         if isStrV l || isStrV r then .ok (.vstr (to_lapis_string l ++ to_lapis_string r))
         else .error (.lapisError "LAP3001"
           ("cannot add " ++ get_type_name l ++ " and " ++ get_type_name r))) from rfl]
    rw [hx, hy]
  · intro hnum hstr
    rw [show binary_dispatch "+" l r sp le re =
      (match pyNum? l, pyNum? r with
       | some lq, some rq => .ok (numAdd lq rq)
       | _, _ =>
         if isStrV l || isStrV r then .ok (.vstr (to_lapis_string l ++ to_lapis_string r))
         else .error (.lapisError "LAP3001"
           ("cannot add " ++ get_type_name l ++ " and " ++ get_type_name r))) from rfl]
    rcases hnum with hl | hr
    · rw [hl]
      cases pyNum? r <;> simp [hstr]
    · rw [hr]
      cases pyNum? l <;> simp [hstr]
  · intro hnum hsl hsr
    rw [show binary_dispatch "+" l r sp le re =
      (match pyNum? l, pyNum? r with
       | some lq, some rq => .ok (numAdd lq rq)
       | _, _ =>
         if isStrV l || isStrV r then .ok (.vstr (to_lapis_string l ++ to_lapis_string r))
         else .error (.lapisError "LAP3001"
           ("cannot add " ++ get_type_name l ++ " and " ++ get_type_name r))) from rfl]
    rcases hnum with hl | hr
    · rw [hl]
      cases pyNum? r <;> simp [hsl, hsr]
    · rw [hr]
      cases pyNum? l <;> simp [hsl, hsr]

/-- Witness for C5 (amended): `true + true = 2`, `1 + "a" = "1a"`, and
`[] + []` raises `LAP3001` ("cannot add array and array"). -/
theorem C5_plus_dispatch_amended_witness :
    binary_dispatch "+" (.vbool true) (.vbool true) none .thisE .thisE = .ok (.vint 2) ∧
    binary_dispatch "+" (.vint 1) (.vstr "a") none .thisE .thisE = .ok (.vstr "1a") ∧
    binary_dispatch "+" (.varr []) (.varr []) none .thisE .thisE =
      .error (.lapisError "LAP3001" "cannot add array and array") := by
  refine ⟨?_, ?_, ?_⟩
  · have h := (C5_plus_dispatch_amended (.vbool true) (.vbool true) none .thisE .thisE).1
      (.pint 1) (.pint 1) (by rfl) (by rfl)
    rw [h]
    rfl
  · have h := (C5_plus_dispatch_amended (.vint 1) (.vstr "a") none .thisE .thisE).2.1
      (Or.inr rfl) (by rfl)
    rw [h]
    have hs : to_lapis_string (.vint 1) ++ to_lapis_string (.vstr "a") = "1a" := by rfl
    rw [hs]
  · have h := (C5_plus_dispatch_amended (.varr []) (.varr []) none .thisE .thisE).2.2
      (Or.inl rfl) rfl rfl
    rw [h]
    rfl

/-! ## C3 — arity checking and variadic binding

Association-list lemmas about `setVarAssoc`/`lookupVar` (`Environment.define`
followed by a lookup), then a characterization of the parameter-binding loop
of `LapisFunction.call`. -/

theorem lookupVar_replace_self (l : List (String × Value × AccessModifier))
    (name : String) (v : Value) (a : AccessModifier)
    (hany : l.any (fun e => e.1 == name) = true) :
    lookupVar (l.map (fun e => if e.1 == name then (name, v, a) else e)) name
      = some (v, a) := by
  induction l with
  | nil => simp at hany
  | cons e rest ih =>
    by_cases he : e.1 = name
    · simp only [List.map_cons, if_pos (show (e.1 == name) = true by simpa using he)]
      simp only [lookupVar]
      rw [List.find?_cons_of_pos (p := fun e : String × Value × AccessModifier => e.1 == name) _ (by simp)]
      rfl
    · have hr : rest.any (fun e => e.1 == name) = true := by
        simpa [List.any_cons, he] using hany
      simp only [List.map_cons, if_neg (show ¬ (e.1 == name) = true by simpa using he)]
      simp only [lookupVar] at ih ⊢
      rw [List.find?_cons_of_neg (p := fun e : String × Value × AccessModifier => e.1 == name) _ (by simpa using he)]
      exact ih hr

theorem lookupVar_replace_other (l : List (String × Value × AccessModifier))
    (name name' : String) (v : Value) (a : AccessModifier) (h : name' ≠ name) :
    lookupVar (l.map (fun e => if e.1 == name then (name, v, a) else e)) name'
      = lookupVar l name' := by
  induction l with
  | nil => rfl
  | cons e rest ih =>
    by_cases he : e.1 = name
    · simp only [List.map_cons, if_pos (show (e.1 == name) = true by simpa using he)]
      simp only [lookupVar] at ih ⊢
      rw [List.find?_cons_of_neg (p := fun e : String × Value × AccessModifier => e.1 == name') _
            (show ¬ ((name, v, a).1 == name') = true by
              simpa using fun hh => h hh.symm),
          List.find?_cons_of_neg (p := fun e : String × Value × AccessModifier => e.1 == name') _
            (show ¬ (e.1 == name') = true by
              rw [he]
              simpa using fun hh => h hh.symm)]
      exact ih
    · simp only [List.map_cons, if_neg (show ¬ (e.1 == name) = true by simpa using he)]
      by_cases hen : e.1 = name'
      · simp only [lookupVar]
        rw [List.find?_cons_of_pos (p := fun e : String × Value × AccessModifier => e.1 == name') _ (by simpa using hen),
            List.find?_cons_of_pos (p := fun e : String × Value × AccessModifier => e.1 == name') _ (by simpa using hen)]
      · simp only [lookupVar] at ih ⊢
        rw [List.find?_cons_of_neg (p := fun e : String × Value × AccessModifier => e.1 == name') _ (by simpa using hen),
            List.find?_cons_of_neg (p := fun e : String × Value × AccessModifier => e.1 == name') _ (by simpa using hen)]
        exact ih

theorem lookupVar_append_single_self (l : List (String × Value × AccessModifier))
    (name : String) (v : Value) (a : AccessModifier)
    (hany : l.any (fun e => e.1 == name) = false) :
    lookupVar (l ++ [(name, v, a)]) name = some (v, a) := by
  induction l with
  | nil =>
    simp only [List.nil_append, lookupVar]
    rw [List.find?_cons_of_pos (p := fun e : String × Value × AccessModifier => e.1 == name) _ (by simp)]
    rfl
  | cons e rest ih =>
    simp only [List.any_cons, Bool.or_eq_false_iff] at hany
    simp only [List.cons_append, lookupVar]
    rw [List.find?_cons_of_neg (p := fun e : String × Value × AccessModifier => e.1 == name) _ (by simp [hany.1])]
    exact ih hany.2

theorem lookupVar_append_single_other (l : List (String × Value × AccessModifier))
    (name name' : String) (v : Value) (a : AccessModifier) (h : name' ≠ name) :
    lookupVar (l ++ [(name, v, a)]) name' = lookupVar l name' := by
  induction l with
  | nil =>
    simp only [List.nil_append, lookupVar]
    rw [List.find?_cons_of_neg (p := fun e : String × Value × AccessModifier => e.1 == name') _
          (show ¬ ((name, v, a).1 == name') = true by
            simpa using fun hh => h hh.symm)]
  | cons e rest ih =>
    by_cases hen : e.1 = name'
    · simp only [List.cons_append, lookupVar]
      rw [List.find?_cons_of_pos (p := fun e : String × Value × AccessModifier => e.1 == name') _ (by simpa using hen),
          List.find?_cons_of_pos (p := fun e : String × Value × AccessModifier => e.1 == name') _ (by simpa using hen)]
    · simp only [List.cons_append, lookupVar] at ih ⊢
      rw [List.find?_cons_of_neg (p := fun e : String × Value × AccessModifier => e.1 == name') _ (by simpa using hen),
          List.find?_cons_of_neg (p := fun e : String × Value × AccessModifier => e.1 == name') _ (by simpa using hen)]
      exact ih

/-- After `Environment.define(name, v)` the defined name looks up to `v`. -/
theorem lookupVar_setVarAssoc_self (l : List (String × Value × AccessModifier))
    (name : String) (v : Value) (a : AccessModifier) :
    lookupVar (setVarAssoc l name v a) name = some (v, a) := by
  rw [setVarAssoc]
  by_cases hany : l.any (fun e => e.1 == name) = true
  · rw [if_pos hany]
    exact lookupVar_replace_self l name v a hany
  · rw [if_neg hany]
    exact lookupVar_append_single_self l name v a (Bool.not_eq_true _ ▸ hany)

/-- `Environment.define` does not disturb other names. -/
theorem lookupVar_setVarAssoc_other (l : List (String × Value × AccessModifier))
    (name name' : String) (v : Value) (a : AccessModifier) (h : name' ≠ name) :
    lookupVar (setVarAssoc l name v a) name' = lookupVar l name' := by
  rw [setVarAssoc]
  by_cases hany : l.any (fun e => e.1 == name) = true
  · rw [if_pos hany]
    exact lookupVar_replace_other l name name' v a h
  · rw [if_neg hany]
    exact lookupVar_append_single_other l name name' v a h

theorem list_getD_set_self {α : Type} (l : List α) (i : Nat) (e d : α)
    (h : i < l.length) : (l.set i e).getD i d = e := by
  induction l generalizing i with
  | nil => simp at h
  | cons x xs ih =>
    cases i with
    | zero => rfl
    | succ n =>
      show (xs.set n e).getD n d = e
      exact ih n (by simpa using h)

theorem list_getD_concat_self {α : Type} (l : List α) (e d : α) :
    (l ++ [e]).getD l.length d = e := by
  induction l with
  | nil => rfl
  | cons x xs ih => simpa using ih

theorem envDefine_envs_length (st : State) (envId : Nat) (name : String)
    (v : Value) (a : AccessModifier) :
    (envDefine st envId name v a).envs.length = st.envs.length := by
  simp [envDefine, setEnv]

/-- `Environment.define` acts on the designated environment's map (valid
index). -/
theorem getEnv_envDefine_self (st : State) (envId : Nat) (name : String)
    (v : Value) (a : AccessModifier) (h : envId < st.envs.length) :
    getEnv (envDefine st envId name v a) envId =
      { getEnv st envId with
        values := setVarAssoc (getEnv st envId).values name v a } := by
  simp only [envDefine, setEnv, getEnv]
  exact list_getD_set_self _ _ _ _ h

/-- The parameter-binding loop of `LapisFunction.call`, shifted: folding
`environment.define` over `params.enumFrom k`. -/
def bindFrom (st : State) (envId : Nat) (k : Nat) (params : List String)
    (args : List Value) : State :=
  (params.enumFrom k).foldl (fun s pi =>
    envDefine s envId pi.2 (args.getD pi.1 .vnull) .PRIVATE) st

theorem bindParams_eq_bindFrom (st : State) (envId : Nat) (params : List String)
    (args : List Value) :
    bindParams st envId params args = bindFrom st envId 0 params args := rfl

theorem bindFrom_cons (st : State) (envId : Nat) (k : Nat) (p : String)
    (ps : List String) (args : List Value) :
    bindFrom st envId k (p :: ps) args =
      bindFrom (envDefine st envId p (args.getD k .vnull) .PRIVATE)
        envId (k + 1) ps args := rfl

/-- What the binding loop leaves in the fresh environment: sizes and the
enclosing pointer are untouched, foreign names are untouched, and (for
distinct parameter names, as any parsed parameter list has) the `j`-th
parameter maps to `arguments[k+j] if k+j < len(arguments) else None`. -/
theorem bindFrom_spec (params : List String) :
    ∀ (k : Nat) (st : State) (envId : Nat) (args : List Value),
      envId < st.envs.length → params.Nodup →
      (bindFrom st envId k params args).envs.length = st.envs.length ∧
      (getEnv (bindFrom st envId k params args) envId).enclosing
        = (getEnv st envId).enclosing ∧
      (∀ name, name ∉ params →
        lookupVar (getEnv (bindFrom st envId k params args) envId).values name
          = lookupVar (getEnv st envId).values name) ∧
      (∀ j (hj : j < params.length),
        lookupVar (getEnv (bindFrom st envId k params args) envId).values
            (params.get ⟨j, hj⟩)
          = some (args.getD (k + j) .vnull, .PRIVATE)) := by
  induction params with
  | nil =>
    intro k st envId args _ _
    exact ⟨rfl, rfl, fun _ _ => rfl, fun j hj => absurd hj (by simp)⟩
  | cons p ps ih =>
    intro k st envId args hlt hnd
    rw [List.nodup_cons] at hnd
    have hlt1 : envId < (envDefine st envId p (args.getD k .vnull) .PRIVATE).envs.length := by
      rwa [envDefine_envs_length]
    obtain ⟨ihlen, ihenc, ihfresh, ihget⟩ :=
      ih (k + 1) (envDefine st envId p (args.getD k .vnull) .PRIVATE) envId args hlt1 hnd.2
    rw [bindFrom_cons]
    refine ⟨?_, ?_, ?_, ?_⟩
    · rw [ihlen, envDefine_envs_length]
    · rw [ihenc, getEnv_envDefine_self st envId _ _ _ hlt]
    · intro name hname
      rw [List.mem_cons, not_or] at hname
      rw [ihfresh name hname.2, getEnv_envDefine_self st envId _ _ _ hlt]
      exact lookupVar_setVarAssoc_other _ _ _ _ _ hname.1
    · intro j hj
      cases j with
      | zero =>
        show lookupVar _ p = _
        rw [ihfresh p hnd.1, getEnv_envDefine_self st envId _ _ _ hlt]
        show lookupVar (setVarAssoc _ p _ _) p = some (args.getD (k + 0) .vnull, _)
        rw [lookupVar_setVarAssoc_self]
        rfl
      | succ n =>
        have hn : n < ps.length := by simpa using hj
        have := ihget n hn
        show lookupVar _ (ps.get ⟨n, hn⟩) = _
        rw [this]
        have : k + 1 + n = k + (n + 1) := by omega
        rw [this]

/-- The literal consequence under test from C3's "a variadic callable accepts
only `n ≥ fixed_count` arguments (fewer is an arity failure)": a call
expression whose callee is variadic and whose argument list is shorter than
the fixed parameter list would produce an exception outcome. -/
def C3_claim : Prop :=
  ∀ (fuel : Nat) (st : State) (envId : Nat) (ce : Expr) (argEs : List Expr)
    (sp : Option Span) (f : FuncData) (st1 st2 : State) (vs : List Value)
    (stR : State) (r : ERes Value),
    evalExpr fuel st envId ce = some (st1, .ok (.vfunc f)) →
    evalExprList fuel st1 envId argEs = some (st2, .ok vs) →
    f.variadic_param.isSome = true →
    vs.length < f.params.length →
    evalExpr (fuel + 1) st envId (.call ce argEs sp) = some (stR, r) →
    ∃ e, r = .exn e

/-- `func f(a, ...rest) { return rest }` from the counterexample: one fixed
parameter and a variadic one. -/
def C3_restfn : FuncData :=
  ⟨["a"], some "rest", [.returnStmt (some (.identifier "rest" none))], 0,
    false, .PRIVATE⟩

/-- A global environment holding `f`. -/
def C3_state : State := envDefine initState 0 "f" (.vfunc C3_restfn) .PRIVATE

/-- **C3, counterexample.**  `evaluate_call_expression` skips the arity check
entirely for variadic callables (`callee.arity() != -1` fails), and
`LapisFunction.call` pads missing fixed parameters with `None`
(`arguments[i] if i < len(arguments) else None`): calling
`func f(a, ...rest)` with zero arguments succeeds — returning `rest = []` —
instead of raising an arity failure. -/
theorem C3_variadic_underflow_counterexample : ¬ C3_claim := by
  intro h
  obtain ⟨stF, hok⟩ :
      ∃ stF, evalExpr 9 C3_state 0 (.call (.identifier "f" none) [] none)
        = some (stF, .ok (.varr [])) := ⟨_, rfl⟩
  obtain ⟨e, he⟩ :=
    h 8 C3_state 0 (.identifier "f" none) [] none C3_restfn C3_state C3_state []
      stF (.ok (.varr [])) (by rfl) (by rfl) (by rfl) (by decide) hok
  exact ERes.noConfusion he

/-- **C3** (amended).  Call-site arity handling as `evaluate_call_expression`
and `LapisFunction.call` actually behave, given that the callee evaluates to a
user function and the arguments evaluate to a value list: (1) a fixed-arity
function called with exactly its declared parameter count proceeds to
`callee.call`; (2) with any other count the call raises — but through the
shadowed `RuntimeError` constructor, i.e. a host-level error, not a
`LAP3004`/WRONG_ARITY diagnostic; (3) a **variadic** function skips the arity
check entirely (`callee.arity() != -1` fails), so *any* argument count —
including fewer than the fixed parameters — proceeds to `callee.call`; and
(4) `LapisFunction.call` executes the body in a fresh environment over the
closure in which (for distinct parameter names) the `j`-th fixed parameter is
bound to `arguments[j] if j < len(arguments) else None` and the variadic name
to the array of arguments beyond the fixed ones (empty when none). -/
theorem C3_arity_amended (fuel : Nat) (st : State) (envId : Nat) (ce : Expr)
    (argEs : List Expr) (sp : Option Span) (f : FuncData) (st1 st2 : State)
    (vs : List Value)
    (hc : evalExpr fuel st envId ce = some (st1, .ok (.vfunc f)))
    (ha : evalExprList fuel st1 envId argEs = some (st2, .ok vs)) :
    (f.variadic_param = none → vs.length = f.params.length →
      evalExpr (fuel + 1) st envId (.call ce argEs sp)
        = call_value fuel st2 (.vfunc f) vs) ∧
    (f.variadic_param = none → vs.length ≠ f.params.length →
      evalExpr (fuel + 1) st envId (.call ce argEs sp)
        = some (st2, .exn (.hostError ("Expected " ++ toString ((f.params.length : Int))
            ++ " arguments but got " ++ toString vs.length))) ∧
      ∀ c m, Exn.hostError ("Expected " ++ toString ((f.params.length : Int))
            ++ " arguments but got " ++ toString vs.length) ≠ .lapisError c m) ∧
    (f.variadic_param.isSome = true →
      evalExpr (fuel + 1) st envId (.call ce argEs sp)
        = call_value fuel st2 (.vfunc f) vs) ∧
    (∀ vn, f.variadic_param = some vn → f.params.Nodup → vn ∉ f.params →
      ∀ g : Nat, ∃ stB : State,
        (function_call (g + 1) st2 f vs =
          match execStmts g stB st2.envs.length f.body with
          | none => none
          | some (st4, .ret v) =>
            if f.is_initializer then some (st4, ofExcept (envGet st4 f.closure "this" false))
            else some (st4, .ok v)
          | some (st4, .ok _) =>
            if f.is_initializer then some (st4, ofExcept (envGet st4 f.closure "this" false))
            else some (st4, .ok .vnull)
          | some (st4, .exn e') => some (st4, .exn e')
          | some (st4, .brk) => some (st4, .brk)
          | some (st4, .cont) => some (st4, .cont)) ∧
        (getEnv stB st2.envs.length).enclosing = some f.closure ∧
        (∀ j (hj : j < f.params.length),
          lookupVar (getEnv stB st2.envs.length).values (f.params.get ⟨j, hj⟩)
            = some (vs.getD j .vnull, .PRIVATE)) ∧
        lookupVar (getEnv stB st2.envs.length).values vn
          = some (.varr (vs.drop f.params.length), .PRIVATE)) := by
  refine ⟨?_, ?_, ?_, ?_⟩
  · intro hv hlen
    have harr : arityOf (.vfunc f) = (f.params.length : Int) := by
      simp [arityOf, funcArity, hv]
    simp [evalExpr, hc, ha, isCallable, harr, hlen]
  · intro hv hlen
    have harr : arityOf (.vfunc f) = (f.params.length : Int) := by
      simp [arityOf, funcArity, hv]
    have hne1 : ((f.params.length : Int) != -1) = true := by
      simp only [bne_iff_ne]
      omega
    have hne : ((vs.length : Int) != (f.params.length : Int)) = true := by
      simp only [bne_iff_ne]
      exact fun hcast => hlen (by exact_mod_cast hcast)
    refine ⟨?_, fun c m hcontra => Exn.noConfusion hcontra⟩
    simp [evalExpr, hc, ha, isCallable, harr, hne1, hne, plain_runtime_error]
  · intro hv
    have harr : arityOf (.vfunc f) = -1 := by
      simp [arityOf, funcArity, hv]
    simp [evalExpr, hc, ha, isCallable, harr]
  · intro vn hv hnd hfresh g
    obtain ⟨params, vp, body, clos, isinit, acc⟩ := f
    simp only at hv hnd hfresh ⊢
    subst hv
    refine ⟨envDefine (bindParams { st2 with envs := st2.envs ++ [⟨some clos, []⟩] }
        st2.envs.length params vs) st2.envs.length vn
        (.varr (vs.drop params.length)) .PRIVATE, ?_, ?_, ?_, ?_⟩
    · rfl
    · obtain ⟨hlenA, hencA, _, _⟩ := bindFrom_spec params 0
        { st2 with envs := st2.envs ++ [⟨some clos, []⟩] } st2.envs.length vs
        (by simp) hnd
      rw [getEnv_envDefine_self _ _ _ _ _ (by rw [bindParams_eq_bindFrom, hlenA]; simp)]
      show (getEnv (bindParams _ _ _ _) _).enclosing = some clos
      rw [bindParams_eq_bindFrom, hencA]
      show (EnvData.enclosing ((st2.envs ++ [(⟨some clos, []⟩ : EnvData)]).getD
        st2.envs.length (⟨none, []⟩ : EnvData))) = some clos
      rw [list_getD_concat_self]
    · intro j hj
      obtain ⟨hlenA, _, _, hgetA⟩ := bindFrom_spec params 0
        { st2 with envs := st2.envs ++ [⟨some clos, []⟩] } st2.envs.length vs
        (by simp) hnd
      rw [getEnv_envDefine_self _ _ _ _ _ (by rw [bindParams_eq_bindFrom, hlenA]; simp)]
      show lookupVar (setVarAssoc _ vn _ _) _ = _
      rw [lookupVar_setVarAssoc_other _ _ _ _ _
            (fun he : params.get ⟨j, hj⟩ = vn =>
              hfresh (he ▸ List.get_mem params j hj)),
          bindParams_eq_bindFrom]
      simpa using hgetA j hj
    · obtain ⟨hlenA, _, _, _⟩ := bindFrom_spec params 0
        { st2 with envs := st2.envs ++ [⟨some clos, []⟩] } st2.envs.length vs
        (by simp) hnd
      rw [getEnv_envDefine_self _ _ _ _ _ (by rw [bindParams_eq_bindFrom, hlenA]; simp)]
      show lookupVar (setVarAssoc _ vn _ _) vn = _
      rw [lookupVar_setVarAssoc_self]

/-- Witness for C3 at `func f(a, ...rest) { return rest }` called with zero
arguments: the variadic call proceeds to `callee.call` (no arity check). -/
theorem C3_arity_amended_witness :
    evalExpr 8 C3_state 0 (.identifier "f" none) = some (C3_state, .ok (.vfunc C3_restfn)) ∧
    evalExprList 8 C3_state 0 [] = some (C3_state, .ok []) ∧
    evalExpr 9 C3_state 0 (.call (.identifier "f" none) [] none)
      = call_value 8 C3_state (.vfunc C3_restfn) [] :=
  ⟨by rfl, by rfl,
    (C3_arity_amended 8 C3_state 0 (.identifier "f" none) [] none C3_restfn
      C3_state C3_state [] (by rfl) (by rfl)).2.2.1 (by rfl)⟩

/-! ## C2 — bound methods execute their body twice -/

/-- `var n = 5; class C { func inc() { n = n + 1 } } var p = C(); p.inc()`. -/
def C2_prog : List Stmt := [
  .varStmt "n" (some (.literal (.intV 5) none)) .PRIVATE,
  .classStmt "C" [("inc", [], none,
    [.exprStmt (.assignment "n"
      (.binary (.identifier "n" none) "+" (.literal (.intV 1) none) none))])] none .PRIVATE,
  .varStmt "p" (some (.call (.identifier "C" none) [] none)) .PRIVATE,
  .exprStmt (.call (.get (.identifier "p" none) "inc") [] none)]

/-- The same increment body as `C2_prog`, but as a plain function:
`var n = 5; func inc() { n = n + 1 } inc()`. -/
def C2_prog_fn : List Stmt := [
  .varStmt "n" (some (.literal (.intV 5) none)) .PRIVATE,
  .funcStmt "inc" []
    [.exprStmt (.assignment "n"
      (.binary (.identifier "n" none) "+" (.literal (.intV 1) none) none))] .PRIVATE none,
  .exprStmt (.call (.identifier "inc" none) [] none)]

set_option maxHeartbeats 8000000 in
/-- **C2.**  `BoundMethod.call` (environment.py) runs the method body **twice**
— once under `try: … except: pass` and once for real — so one call of
`p.inc()` increments `n` twice: the program finishes with `n = 7`, while the
same body called once as a plain function (`LapisFunction.call`) leaves
`n = 6`.  The spec's intended reading (a single invocation per call) does not
hold of the code: a code bug, witnessed by this concrete divergence. -/
theorem C2_bound_method_double_execution :
    ∃ stF stG : State,
      interpret 32 initState C2_prog = some (stF, .ok ()) ∧
      envGet stF 0 "n" false = .ok (.vint 7) ∧
      interpret 32 initState C2_prog_fn = some (stG, .ok ()) ∧
      envGet stG 0 "n" false = .ok (.vint 6) :=
  ⟨_, _, rfl, rfl, rfl, rfl⟩

/-! ## C6 — template-literal interpolation regions -/

/-- **Spec-side** region scan, following C6's words only (not the code): the
`\x7b … \x7d` region extends to the *matching* close brace — nesting honored
— and its interior bytes are captured *verbatim*.  Returns the interior and
the rest of the input after the close brace. -/
def spec_template_region (fuel : Nat) (cs : List Char) (depth : Nat) (acc : List Char) :
    Option (List Char × List Char) :=
  match fuel with
  | 0 => none
  | fuel + 1 =>
    match cs with
    | [] => none
    | c :: rest =>
      if c = '}' then
        if depth = 0 then some (acc, rest)
        else spec_template_region fuel rest (depth - 1) (acc ++ [c])
      else if c = '{' then spec_template_region fuel rest (depth + 1) (acc ++ [c])
      else spec_template_region fuel rest depth (acc ++ [c])

/-- **Spec-side** template decomposition, following C6's words only: the
input (the characters after the opening backtick) splits into verbatim text
parts and expression parts whose interiors come from `spec_template_region`.
(Escape sequences are not in dispute and are left out; the comparison below
uses an escape-free template.) -/
def spec_template_decompose (fuel : Nat) (cs : List Char)
    (parts : List (Option String × Option String)) (text : List Char) :
    Option (List (Option String × Option String)) :=
  match fuel with
  | 0 => none
  | fuel + 1 =>
    match cs with
    | [] => none
    | c :: rest =>
      if c = '`' then
        some (if text ≠ [] then parts ++ [(some (String.mk text), none)] else parts)
      else if c = '{' then
        match spec_template_region fuel rest 0 [] with
        | none => none
        | some (interior, rest') =>
          spec_template_decompose fuel rest'
            ((if text ≠ [] then parts ++ [(some (String.mk text), none)] else parts)
              ++ [(none, some (String.mk interior))]) []
      else spec_template_decompose fuel rest parts (text ++ [c])

/-- C6's decomposition sentence, as a refinement statement: whenever the
lexer's template scan and the spec-side (matching-brace, verbatim-capture)
decomposition both succeed on the same post-backtick input, they would agree
on the resulting part list (the lexer's trailing text part appended, as
`Lexer.template_literal` does). -/
def C6_claim : Prop :=
  ∀ (fuel : Nat) (src : List Char) (st1 : LexState)
    (parts : List (Option String × Option String)) (text : String)
    (sparts : List (Option String × Option String)),
    Lexer.template_loop fuel (LexState.init src 0) [] "" = some (.ok (st1, parts, text)) →
    spec_template_decompose fuel src [] [] = some sparts →
    (if text ≠ "" then parts ++ [(some text, none)] else parts) = sparts

set_option maxHeartbeats 8000000 in
/-- **C6, counterexample.**  On `` `a\x7b \x7bx: 1\x7d.x \x7db` `` the code
captures the region to the **first** close brace and then `.strip()`s it:
the lexer yields `TEXT "a", EXPR "\x7bx: 1", TEXT ".x \x7db"`, while the
claim's matching-brace verbatim capture yields
`TEXT "a", EXPR " \x7bx: 1\x7d.x ", TEXT "b"`. -/
theorem C6_first_brace_counterexample : ¬ C6_claim := by
  intro h
  have hlex :
      Lexer.template_loop 64 (LexState.init ("a\x7b \x7bx: 1\x7d.x \x7db`".toList) 0) [] ""
        = some (.ok (⟨"a\x7b \x7bx: 1\x7d.x \x7db`".toList, 0, [], 14, 1, 15, 0⟩,
            [(some "a", none), (none, some "\x7bx: 1")], ".x \x7db")) := by
    rfl
  have hspec :
      spec_template_decompose 64 ("a\x7b \x7bx: 1\x7d.x \x7db`".toList) [] []
        = some [(some "a", none), (none, some " \x7bx: 1\x7d.x "), (some "b", none)] := by
    rfl
  have hx := h 64 _ _ _ _ _ hlex hspec
  exact absurd hx (by decide)

/-- `Lexer.advance` off the end of input. -/
theorem advance_not_end (st : LexState) (h : st.is_at_end = false) :
    st.advance = (LexState.charAt st.source st.current,
      { st with current := st.current + 1, column := st.column + 1 }) := by
  rw [LexState.advance, if_neg (by simp [h])]

/-- `Lexer.template_literal`'s region loop captures exactly the bytes up to
the **first** close brace (or the end of input), verbatim, and stops there. -/
theorem template_region_first_close (fuel : Nat) :
    ∀ (st : LexState) (var : String),
      ((st.source.drop st.current).takeWhile (fun c => c ≠ '}')).length < fuel →
      ∃ st2, Lexer.template_region_loop fuel st var
          = some (st2, String.mk (var.data
              ++ (st.source.drop st.current).takeWhile (fun c => c ≠ '}'))) ∧
        st2.source = st.source ∧
        st2.current = st.current
          + ((st.source.drop st.current).takeWhile (fun c => c ≠ '}')).length ∧
        st2.file_id = st.file_id ∧ st2.tokens = st.tokens ∧ st2.start = st.start := by
  induction fuel with
  | zero =>
    intro st var h
    exact absurd h (by omega)
  | succ fuel ih =>
    intro st var h
    obtain ⟨vd⟩ := var
    by_cases hend : st.is_at_end = true
    · have hge : st.source.length ≤ st.current := by
        simpa [LexState.is_at_end] using hend
      have hnil : st.source.drop st.current = [] := List.drop_eq_nil_of_le hge
      refine ⟨st, ?_, rfl, by rw [hnil]; simp, rfl, rfl, rfl⟩
      simp only [Lexer.template_region_loop]
      rw [hend, hnil]
      simp
    · have hend' : st.is_at_end = false := by simpa using hend
      have hlt : st.current < st.source.length := by
        simp [LexState.is_at_end] at hend
        omega
      have hpeekeq : st.peek = LexState.charAt st.source st.current := by
        simp [LexState.peek, hend']
      have hdrop : st.source.drop st.current
          = LexState.charAt st.source st.current :: st.source.drop (st.current + 1) := by
        rw [LexState.charAt, List.getD_eq_getElem st.source _ hlt]
        exact List.drop_eq_getElem_cons hlt
      by_cases hpk : st.peek = '}'
      · have htw : (st.source.drop st.current).takeWhile (fun c => c ≠ '}') = [] := by
          rw [hdrop, List.takeWhile_cons, ← hpeekeq, hpk]
          simp
        refine ⟨st, ?_, rfl, by rw [htw]; simp, rfl, rfl, rfl⟩
        simp only [Lexer.template_region_loop]
        rw [hpk, htw]
        simp
      · have hc : (st.peek != '}') = true := by simp [hpk]
        have htw : (st.source.drop st.current).takeWhile (fun c => c ≠ '}')
            = st.peek :: (st.source.drop (st.current + 1)).takeWhile (fun c => c ≠ '}') := by
          rw [hdrop, List.takeWhile_cons, ← hpeekeq]
          simp [hpk]
        have hlen' :
            ((st.source.drop (st.current + 1)).takeWhile (fun c => c ≠ '}')).length < fuel := by
          rw [htw] at h
          simpa using Nat.lt_of_succ_lt_succ (by simpa using h)
        have hstr : String.mk ((vd ++ [LexState.charAt st.source st.current])
              ++ (st.source.drop (st.current + 1)).takeWhile (fun c => c ≠ '}'))
            = String.mk (vd ++ (st.source.drop st.current).takeWhile (fun c => c ≠ '}')) := by
          rw [htw, hpeekeq]
          simp
        by_cases hnl : st.peek = '\n'
        · obtain ⟨st2, heq, hsrc, hcur, hfid, htok, hstart⟩ :=
            ih ({ st with
                line := st.line + 1, column := 1 + 1, current := st.current + 1 } : LexState)
              (String.mk (vd ++ [LexState.charAt st.source st.current])) hlen'
          have hsrc' : st2.source = st.source := hsrc
          have hcur' : st2.current = st.current + 1
              + ((st.source.drop (st.current + 1)).takeWhile (fun c => c ≠ '}')).length := hcur
          have hfid' : st2.file_id = st.file_id := hfid
          have htok' : st2.tokens = st.tokens := htok
          have hstart' : st2.start = st.start := hstart
          refine ⟨st2, ?_, hsrc', by rw [htw]; simp only [List.length_cons]; omega, hfid', htok', hstart'⟩
          simp only [Lexer.template_region_loop]
          rw [hc, hend']
          simp only [Bool.not_false, Bool.and_self, if_true, if_pos hnl]
          rw [advance_not_end _ (show ({ st with line := st.line + 1, column := 1 } : LexState).is_at_end = false from hend')]
          simp only []
          rw [← hstr]
          exact heq
        · obtain ⟨st2, heq, hsrc, hcur, hfid, htok, hstart⟩ :=
            ih ({ st with current := st.current + 1, column := st.column + 1 } : LexState)
              (String.mk (vd ++ [LexState.charAt st.source st.current])) hlen'
          have hsrc' : st2.source = st.source := hsrc
          have hcur' : st2.current = st.current + 1
              + ((st.source.drop (st.current + 1)).takeWhile (fun c => c ≠ '}')).length := hcur
          have hfid' : st2.file_id = st.file_id := hfid
          have htok' : st2.tokens = st.tokens := htok
          have hstart' : st2.start = st.start := hstart
          refine ⟨st2, ?_, hsrc', by rw [htw]; simp only [List.length_cons]; omega, hfid', htok', hstart'⟩
          simp only [Lexer.template_region_loop]
          rw [hc, hend']
          simp only [Bool.not_false, Bool.and_self, if_true, if_neg hnl]
          rw [advance_not_end _ hend']
          simp only []
          rw [← hstr]
          exact heq

/-- The `\x7b` step of `Lexer.template_literal`'s scan, isolated. -/
theorem template_loop_open_brace (fuel : Nat) (st : LexState)
    (parts : List (Option String × Option String)) (text : String)
    (hpk : st.peek = '{') (hend' : st.is_at_end = false) :
    Lexer.template_loop (fuel + 1) st parts text =
      (match Lexer.template_region_loop fuel ((st.advance).2) "" with
       | none => none
       | some (st2, var_name) =>
         if st2.is_at_end then
           some (.error ⟨"LAP2006", "Unterminated template literal variable",
             ⟨st2.file_id, st2.start, st2.current⟩⟩)
         else
           Lexer.template_loop fuel ((st2.advance).2)
             ((if text ≠ "" then parts ++ [(some text, none)] else parts)
               ++ [(none, some (py_strip var_name))]) "") := by
  simp only [Lexer.template_loop]
  rw [hpk, hend']
  simp

/-- **C6** (amended).  Template literals as the code has them:
(1) when the scan reaches `\x7b`, the region extends to the **first** close
brace — nested braces are *not* honored — and its bytes are `.strip()`ped —
*not* captured verbatim — before becoming the single expression part, with
scanning resuming right after that close brace; (2) at evaluation time a
captured expression text is tokenized and parsed as a standalone expression
and evaluated in the current environment, the variable-lookup fallback left
unused when that pipeline succeeds; (3) an expression part renders with the
canonical `to_lapis_string` and a text part passes through verbatim, parts
concatenating in order; (4) a template-literal expression evaluates to the
rendered string. -/
theorem C6_template_amended :
    (∀ (fuel : Nat) (st : LexState) (parts : List (Option String × Option String))
       (text : String),
      st.peek = '{' →
      ((st.source.drop (st.current + 1)).takeWhile (fun c => c ≠ '}')).length + 1 < fuel →
      st.current + 1 + ((st.source.drop (st.current + 1)).takeWhile (fun c => c ≠ '}')).length
        < st.source.length →
      ∃ st3, Lexer.template_loop (fuel + 1) st parts text
          = Lexer.template_loop fuel st3
              ((if text ≠ "" then parts ++ [(some text, none)] else parts)
                ++ [(none, some (py_strip (String.mk ((st.source.drop
                      (st.current + 1)).takeWhile (fun c => c ≠ '}')))))]) "" ∧
        st3.source = st.source ∧
        st3.current = st.current
          + ((st.source.drop (st.current + 1)).takeWhile (fun c => c ≠ '}')).length + 2) ∧
    (∀ (fuel : Nat) (st : State) (envId : Nat) (src : String) (toks : List Token)
       (e : Expr) (p : PState) (st1 : State) (v : Value),
      Lexer.tokenize fuel src.toList 0 = some (.ok toks) →
      Parser.expression fuel ⟨toks, 0⟩ = some (.ok (e, p)) →
      evalExpr fuel st envId e = some (st1, .ok v) →
      template_expr_eval (fuel + 1) st envId src = some (st1, .ok v)) ∧
    (∀ (fuel : Nat) (st : State) (envId : Nat) (src : String)
       (rest : List (Option String × Option String)) (acc out : String)
       (st1 st2 : State) (v : Value),
      template_expr_eval fuel st envId src = some (st1, .ok v) →
      template_parts_eval fuel st1 envId rest (acc ++ to_lapis_string v) = some (st2, .ok out) →
      template_parts_eval (fuel + 1) st envId ((none, some src) :: rest) acc
        = some (st2, .ok out)) ∧
    (∀ (fuel : Nat) (st : State) (envId : Nat) (t : String)
       (rest : List (Option String × Option String)) (acc out : String) (st2 : State),
      template_parts_eval fuel st envId rest (acc ++ t) = some (st2, .ok out) →
      template_parts_eval (fuel + 1) st envId ((some t, none) :: rest) acc
        = some (st2, .ok out)) ∧
    (∀ (fuel : Nat) (st : State) (envId : Nat)
       (parts : List (Option String × Option String)) (sp : Option Span)
       (st1 : State) (s : String),
      template_parts_eval fuel st envId parts "" = some (st1, .ok s) →
      evalExpr (fuel + 1) st envId (.templateLiteral parts sp) = some (st1, .ok (.vstr s))) := by
  refine ⟨?_, ?_, ?_, ?_, ?_⟩
  · intro fuel st parts text hpk hfuel hclose
    have hend' : st.is_at_end = false := by
      cases h : st.is_at_end
      · rfl
      · rw [LexState.peek, if_pos h] at hpk
        exact absurd hpk (by decide)
    obtain ⟨st2, hreg, hsrc2, hcur2, hfid2, htok2, hstart2⟩ :=
      template_region_first_close fuel
        ({ st with current := st.current + 1, column := st.column + 1 } : LexState) ""
        (by
          show ((st.source.drop (st.current + 1)).takeWhile (fun c => c ≠ '}')).length < fuel
          omega)
    have hreg' : Lexer.template_region_loop fuel
        ({ st with current := st.current + 1, column := st.column + 1 } : LexState) ""
        = some (st2, String.mk ((st.source.drop (st.current + 1)).takeWhile
            (fun c => c ≠ '}'))) := hreg
    have hsrc2' : st2.source = st.source := hsrc2
    have hcur2' : st2.current = st.current + 1
        + ((st.source.drop (st.current + 1)).takeWhile (fun c => c ≠ '}')).length := hcur2
    have hend2 : st2.is_at_end = false := by
      simp only [LexState.is_at_end, ge_iff_le, decide_eq_false_iff_not, Nat.not_le]
      rw [hsrc2', hcur2']
      omega
    refine ⟨{ st2 with current := st2.current + 1, column := st2.column + 1 }, ?_, by
        show st2.source = st.source
        exact hsrc2', by
        show st2.current + 1 = _
        omega⟩
    rw [template_loop_open_brace fuel st parts text hpk hend',
        advance_not_end _ hend']
    simp only []
    rw [hreg']
    simp only []
    rw [hend2]
    simp only [Bool.false_eq_true, if_false]
    rw [advance_not_end _ hend2]
  · intro fuel st envId src toks e p st1 v htok hparse heval
    simp only [template_expr_eval]
    rw [htok]
    simp only []
    rw [hparse]
    simp only []
    rw [heval]
  · intro fuel st envId src rest acc out st1 st2 v hexpr hrest
    simp only [template_parts_eval]
    rw [hexpr]
    simp only []
    rw [hrest]
  · intro fuel st envId t rest acc out st2 hrest
    simp only [template_parts_eval]
    rw [hrest]
  · intro fuel st envId parts sp st1 s hparts
    simp only [evalExpr]
    rw [hparts]

set_option maxHeartbeats 8000000 in
/-- Witness for C6 at the template `` `\x7bn\x7d` `` (source after the
backtick: `\x7bn\x7d` + backtick) and at rendering `n` bound to `6`: the
interpolation region is the single character `n`, captured to the first
close brace and stripped. -/
theorem C6_template_amended_witness :
    (∃ st3, Lexer.template_loop 9 (LexState.init ("\x7bn\x7d`".toList) 0) [] ""
        = Lexer.template_loop 8 st3 [(none, some "n")] "" ∧
      st3.source = "\x7bn\x7d`".toList ∧ st3.current = 3) ∧
    evalExpr 33 (envDefine initState 0 "n" (.vint 6) .PRIVATE) 0
        (.templateLiteral [(some "n is ", none), (none, some "n")] none)
      = some (envDefine initState 0 "n" (.vint 6) .PRIVATE, .ok (.vstr "n is 6")) := by
  constructor
  · exact C6_template_amended.1 8 (LexState.init ("\x7bn\x7d`".toList) 0) [] ""
      (by rfl) (by decide) (by decide)
  · exact C6_template_amended.2.2.2.2 32 (envDefine initState 0 "n" (.vint 6) .PRIVATE) 0
      [(some "n is ", none), (none, some "n")] none _ "n is 6" (by rfl)

/-! ## C1 — when `finally` runs -/

/-- The return-instance of C1's "the finally body runs … before any pending
return, break, or continue raised inside the try … completes its non-local
transfer": when the try body ends in a pending `return` and the finally body
(run from there) completes normally, the try statement's outcome would be the
pending return *from the state the finally body produced*.  (A consequence of
the claim as stated; refuting it refutes the claim.) -/
def C1_claim : Prop :=
  ∀ (fuel : Nat) (st : State) (envId : Nat) (tryBody : List Stmt)
    (catches : List (Option String × List Stmt)) (fin : List Stmt)
    (st1 : State) (v : Value) (st2 : State) (u : Unit),
    execStmts (fuel + 1) st envId tryBody = some (st1, .ret v) →
    execStmts fuel st1 envId fin = some (st2, .ok u) →
    execute_try (fuel + 2) st envId tryBody catches (some fin) = some (st2, .ret v)

/-- **C1, counterexample.**  `execute_try_statement` re-raises
`ReturnException` (and break/continue) in its *first* `except` clause, before
the `finally` handling is ever reached: in
`try { return 0 } finally { var g = 1 }` the finally body never runs — the
outcome keeps the pre-finally state, in which `g` is not defined. -/
theorem C1_finally_skip_counterexample : ¬ C1_claim := by
  intro h
  have hclaim := h 4 initState 0 [.returnStmt (some (.literal (.intV 0) none))] []
    [.varStmt "g" (some (.literal (.intV 1) none)) .PRIVATE] initState (.vint 0)
    (envDefine initState 0 "g" (.vint 1) .PRIVATE) () (by rfl) (by rfl)
  have hcode : execute_try 6 initState 0 [.returnStmt (some (.literal (.intV 0) none))] []
      (some [.varStmt "g" (some (.literal (.intV 1) none)) .PRIVATE])
      = some (initState, .ret (.vint 0)) := by rfl
  have hpair := Option.some.inj (hclaim.symm.trans hcode)
  have hst : envDefine initState 0 "g" (.vint 1) .PRIVATE = initState :=
    congrArg Prod.fst hpair
  have hlen := congrArg (fun s => (getEnv s 0).values.length) hst
  exact Nat.one_ne_zero hlen

/-- **C1** (amended).  When `finally` actually runs in
`execute_try_statement`: a pending `return`/`break`/`continue` from the try
body propagates **immediately, skipping the finally body entirely** (the
source re-raises control-flow exceptions in its first `except` clause); after
normal completion of the try body the finally body runs once and the
statement completes normally; after an uncaught error the finally body runs
once and the error is then re-raised; after a handled catch (bare `catch`)
whose body completes normally the finally body runs once; but a non-normal
outcome of the catch body itself (error or transfer) also propagates
immediately, again skipping the finally body. -/
theorem C1_finally_amended (fuel : Nat) (st : State) (envId : Nat)
    (tryBody : List Stmt) (catches : List (Option String × List Stmt))
    (fin : List Stmt) (st1 : State) :
    (∀ v, execStmts (fuel + 1) st envId tryBody = some (st1, .ret v) →
      execute_try (fuel + 2) st envId tryBody catches (some fin) = some (st1, .ret v)) ∧
    (execStmts (fuel + 1) st envId tryBody = some (st1, .brk) →
      execute_try (fuel + 2) st envId tryBody catches (some fin) = some (st1, .brk)) ∧
    (execStmts (fuel + 1) st envId tryBody = some (st1, .cont) →
      execute_try (fuel + 2) st envId tryBody catches (some fin) = some (st1, .cont)) ∧
    (∀ u st2 u2, execStmts (fuel + 1) st envId tryBody = some (st1, .ok u) →
      execStmts fuel st1 envId fin = some (st2, .ok u2) →
      execute_try (fuel + 2) st envId tryBody catches (some fin) = some (st2, .ok ())) ∧
    (∀ e st2 u2, execStmts (fuel + 1) st envId tryBody = some (st1, .exn e) →
      catches = [] →
      execStmts fuel st1 envId fin = some (st2, .ok u2) →
      execute_try (fuel + 2) st envId tryBody catches (some fin) = some (st2, .exn e)) ∧
    (∀ e cbody rest st4 u3 st2 u2,
      execStmts (fuel + 1) st envId tryBody = some (st1, .exn e) →
      catches = (none, cbody) :: rest →
      execStmts (fuel + 1) st1 envId cbody = some (st4, .ok u3) →
      execStmts fuel st4 envId fin = some (st2, .ok u2) →
      execute_try (fuel + 2) st envId tryBody catches (some fin) = some (st2, .ok ())) ∧
    (∀ e cbody rest st4 (o : ERes Unit),
      execStmts (fuel + 1) st envId tryBody = some (st1, .exn e) →
      catches = (none, cbody) :: rest →
      execStmts (fuel + 1) st1 envId cbody = some (st4, o) →
      (∀ u, o ≠ .ok u) →
      execute_try (fuel + 2) st envId tryBody catches (some fin) = some (st4, o)) := by
  refine ⟨?_, ?_, ?_, ?_, ?_, ?_, ?_⟩
  · intro v htry
    simp [execute_try, htry]
  · intro htry
    simp [execute_try, htry]
  · intro htry
    simp [execute_try, htry]
  · intro u st2 u2 htry hfin
    simp [execute_try, htry, try_finally, hfin]
  · intro e st2 u2 htry hcat hfin
    subst hcat
    simp [execute_try, htry, try_finally, hfin]
  · intro e cbody rest st4 u3 st2 u2 htry hcat hcb hfin
    subst hcat
    simp [execute_try, htry, hcb, try_finally, hfin]
  · intro e cbody rest st4 o htry hcat hcb hno
    subst hcat
    match o with
    | .ok u => exact absurd rfl (hno u)
    | .ret v => simp [execute_try, htry, hcb]
    | .brk => simp [execute_try, htry, hcb]
    | .cont => simp [execute_try, htry, hcb]
    | .exn e2 => simp [execute_try, htry, hcb]

/-- Witness for C1 at `try { 0 } finally { var g = 1 }` (normal completion:
the finally body runs and defines `g`) and `try { return 0 } finally
{ var g = 1 }` (pending return: the finally body is skipped, `g` stays
undefined). -/
theorem C1_finally_amended_witness :
    execStmts 5 initState 0 [.exprStmt (.literal (.intV 0) none)]
      = some (initState, .ok ()) ∧
    execStmts 4 initState 0 [.varStmt "g" (some (.literal (.intV 1) none)) .PRIVATE]
      = some (envDefine initState 0 "g" (.vint 1) .PRIVATE, .ok ()) ∧
    execute_try 6 initState 0 [.exprStmt (.literal (.intV 0) none)] []
      (some [.varStmt "g" (some (.literal (.intV 1) none)) .PRIVATE])
      = some (envDefine initState 0 "g" (.vint 1) .PRIVATE, .ok ()) ∧
    execStmts 5 initState 0 [.returnStmt (some (.literal (.intV 0) none))]
      = some (initState, .ret (.vint 0)) ∧
    execute_try 6 initState 0 [.returnStmt (some (.literal (.intV 0) none))] []
      (some [.varStmt "g" (some (.literal (.intV 1) none)) .PRIVATE])
      = some (initState, .ret (.vint 0)) :=
  ⟨by rfl, by rfl,
    (C1_finally_amended 4 initState 0 [.exprStmt (.literal (.intV 0) none)] []
      [.varStmt "g" (some (.literal (.intV 1) none)) .PRIVATE] initState).2.2.2.1
      () _ () (by rfl) (by rfl),
    by rfl,
    (C1_finally_amended 4 initState 0 [.returnStmt (some (.literal (.intV 0) none))] []
      [.varStmt "g" (some (.literal (.intV 1) none)) .PRIVATE] initState).1
      (.vint 0) (by rfl)⟩

/-! ## C8 — repeated imports define nothing -/

/-- **C8.**  `execute_package_statement` short-circuits on an
already-imported path into `get_imported_symbols`, which returns the empty
mapping verbatim (source comment: "For now, just return empty dict
(improvement needed)"), so a repeated `package` statement defines **no**
bindings in the importing environment — for *every* state, environment and
module —, while the first import of a module with a public `x` does define
it.  The claim's "the second import must yield the same bindings as the
first" fails in the code: a code bug, not a spec error. -/
theorem C8_repeated_import_defines_nothing :
    (∀ (st : State) (envId : Nat)
       (mg : List (String × Value × AccessModifier)) (path : String)
       (imports : Option (List String)),
       execute_package st envId true mg path imports = (st, Except.ok ())) ∧
    (∃ st1 : State,
       execute_package initState 0 false [("x", .vint 1, .PUBLIC)] "m" none
         = (st1, .ok ()) ∧
       envGet st1 0 "x" false = .ok (.vint 1) ∧
       execute_package st1 0 true [("x", .vint 1, .PUBLIC)] "m" none = (st1, .ok ())) :=
  ⟨fun _ _ _ _ _ => rfl, _, rfl, rfl, rfl⟩

/-! ## C9 — switch equality (`_values_equal`) vs `==` (`is_equal`) -/

theorem pyEq_eq_canon (a b : Value) (ha : isUnhashable a = false)
    (hb : isUnhashable b = false) :
    pyEq a b = (keyCanon a == keyCanon b) := by
  cases a <;> cases b <;>
    simp_all [pyEq, keyCanon, isUnhashable, beq_iff_eq]
  case vbool.vbool b1 b2 => cases b1 <;> cases b2 <;> norm_num
  case vbool.vint b n =>
    cases b <;> norm_num <;>
      exact ⟨fun h => by exact_mod_cast h, fun h => by exact_mod_cast h⟩
  case vint.vbool n b =>
    cases b <;> norm_num <;>
      exact ⟨fun h => by exact_mod_cast h, fun h => by exact_mod_cast h⟩
  case vfunc.vfunc f g =>
    rw [Bool.eq_iff_iff]
    simp [Bool.and_eq_true, beq_iff_eq, KeyC.kfunc.injEq, and_assoc]
  case vbound.vbound r m r2 m2 =>
    rw [Bool.eq_iff_iff]
    simp [Bool.and_eq_true, beq_iff_eq, KeyC.kbound.injEq]

def canonKeys (xs : List (Value × Value)) : List KeyC :=
  xs.map (fun p => keyCanon p.1)

theorem wfList_mem {xs : List Value} (h : wfList xs = true) :
    ∀ x ∈ xs, wfValue x = true := by
  induction xs with
  | nil => simp
  | cons hd tl ih =>
    rw [wfList, Bool.and_eq_true] at h
    intro x hx
    rcases List.mem_cons.mp hx with hx | hx
    · exact hx ▸ h.1
    · exact ih h.2 x hx

theorem wfPairs_mem {xs : List (Value × Value)} (h : wfPairs xs = true) :
    ∀ p ∈ xs, isUnhashable p.1 = false ∧ wfValue p.2 = true := by
  induction xs with
  | nil => simp
  | cons hd tl ih =>
    obtain ⟨k, v⟩ := hd
    rw [wfPairs, Bool.and_eq_true, Bool.and_eq_true] at h
    intro p hp
    rcases List.mem_cons.mp hp with hp | hp
    · subst hp
      exact ⟨by simpa using h.1.1, h.1.2⟩
    · exact ih h.2 p hp

theorem keysSubset_iff_canon {xs ys : List (Value × Value)}
    (hx : ∀ p ∈ xs, isUnhashable p.1 = false)
    (hy : ∀ p ∈ ys, isUnhashable p.1 = false) :
    keysSubset xs ys = true ↔ ∀ k ∈ canonKeys xs, k ∈ canonKeys ys := by
  simp only [keysSubset, canonKeys, List.all_eq_true, List.any_eq_true, List.mem_map]
  constructor
  · rintro h k ⟨p, hp, rfl⟩
    obtain ⟨y, hyy, hpy⟩ := h p hp
    rw [pyEq_eq_canon _ _ (hx p hp) (hy y hyy), beq_iff_eq] at hpy
    exact ⟨y, hyy, hpy.symm⟩
  · intro h p hp
    obtain ⟨y, hyy, hpy⟩ := h (keyCanon p.1) ⟨p, hp, rfl⟩
    refine ⟨y, hyy, ?_⟩
    rw [pyEq_eq_canon _ _ (hx p hp) (hy y hyy), beq_iff_eq]
    exact hpy.symm

theorem keysNodupB_canon {xs : List (Value × Value)}
    (hx : ∀ p ∈ xs, isUnhashable p.1 = false) (h : keysNodupB xs = true) :
    (canonKeys xs).Nodup := by
  induction xs with
  | nil => simp [canonKeys]
  | cons hd tl ih =>
    obtain ⟨k, v⟩ := hd
    rw [keysNodupB, Bool.and_eq_true] at h
    have hk : isUnhashable k = false := hx (k, v) (List.mem_cons_self _ _)
    have htl : ∀ p ∈ tl, isUnhashable p.1 = false :=
      fun p hp => hx p (List.mem_cons_of_mem _ hp)
    rw [canonKeys, List.map_cons, List.nodup_cons]
    refine ⟨?_, ih htl h.2⟩
    intro hmem
    obtain ⟨p, hp, hpc⟩ := List.mem_map.mp hmem
    have hpk : pyEq k p.1 = true := by
      rw [pyEq_eq_canon _ _ hk (htl p hp), beq_iff_eq]
      exact hpc.symm
    have hany : tl.any (fun p => pyEq k p.1) = true :=
      List.any_eq_true.mpr ⟨p, hp, hpk⟩
    rw [hany] at h
    exact absurd h.1 (by decide)

theorem pyEqList_ragged : ∀ {xs ys : List Value},
    xs.length ≠ ys.length → pyEqList xs ys = false := by
  intro xs
  induction xs with
  | nil =>
    intro ys h
    cases ys with
    | nil => exact absurd rfl h
    | cons y ys => simp [pyEqList]
  | cons x xs ih =>
    intro ys h
    cases ys with
    | nil => simp [pyEqList]
    | cons y ys =>
      rw [pyEqList, ih (by simpa using h), Bool.and_false]

theorem values_equal_zip_eq : ∀ {xs ys : List Value},
    xs.length = ys.length →
    (∀ x ∈ xs, ∀ y ∈ ys, values_equal x y = pyEq x y) →
    values_equal_zip xs ys = pyEqList xs ys := by
  intro xs
  induction xs with
  | nil =>
    intro ys h _
    cases ys with
    | nil => simp [values_equal_zip, pyEqList]
    | cons y ys => simp at h
  | cons x xs ih =>
    intro ys h hpt
    cases ys with
    | nil => simp at h
    | cons y ys =>
      rw [values_equal_zip, pyEqList,
          hpt x (List.mem_cons_self _ _) y (List.mem_cons_self _ _),
          ih (by simpa using h)
            (fun x hx y hy => hpt x (List.mem_cons_of_mem _ hx) y (List.mem_cons_of_mem _ hy))]

theorem values_equal_find_eq : ∀ {ys : List (Value × Value)} {k v : Value},
    (∀ p ∈ ys, values_equal v p.2 = pyEq v p.2) →
    values_equal_find ys k v = pyEqFind ys k v := by
  intro ys
  induction ys with
  | nil => intro k v _; simp [values_equal_find, pyEqFind]
  | cons hd tl ih =>
    obtain ⟨k2, v2⟩ := hd
    intro k v hpt
    rw [values_equal_find, pyEqFind]
    by_cases hk : pyEq k k2 = true
    · rw [if_pos hk, if_pos hk]
      exact hpt (k2, v2) (List.mem_cons_self _ _)
    · rw [if_neg hk, if_neg hk]
      exact ih (fun p hp => hpt p (List.mem_cons_of_mem _ hp))

theorem values_equal_dict_eq : ∀ {xs ys : List (Value × Value)},
    (∀ p ∈ xs, ∀ q ∈ ys, values_equal p.2 q.2 = pyEq p.2 q.2) →
    values_equal_dict xs ys = pyEqPairs xs ys := by
  intro xs
  induction xs with
  | nil => intro ys _; simp [values_equal_dict, pyEqPairs]
  | cons hd tl ih =>
    obtain ⟨k, v⟩ := hd
    intro ys hpt
    rw [values_equal_dict, pyEqPairs,
        values_equal_find_eq (fun q hq => hpt (k, v) (List.mem_cons_self _ _) q hq),
        ih (fun p hp q hq => hpt p (List.mem_cons_of_mem _ hp) q hq)]

theorem pyEqPairs_keysSubset : ∀ {xs ys : List (Value × Value)},
    pyEqPairs xs ys = true → keysSubset xs ys = true := by
  intro xs
  induction xs with
  | nil => intro ys _; rfl
  | cons hd tl ih =>
    obtain ⟨k, v⟩ := hd
    intro ys h
    rw [pyEqPairs, Bool.and_eq_true] at h
    have hfind : ∃ q ∈ ys, pyEq k q.1 = true := by
      clear ih
      have h1 := h.1
      clear h
      induction ys with
      | nil => exact absurd h1 (by simp [pyEqFind])
      | cons hd2 tl2 ih2 =>
        obtain ⟨k2, v2⟩ := hd2
        rw [pyEqFind] at h1
        by_cases hk : pyEq k k2 = true
        · exact ⟨(k2, v2), List.mem_cons_self _ _, hk⟩
        · rw [if_neg hk] at h1
          obtain ⟨q, hq, hqq⟩ := ih2 h1
          exact ⟨q, List.mem_cons_of_mem _ hq, hqq⟩
    rw [keysSubset, List.all_cons, Bool.and_eq_true]
    refine ⟨?_, ih h.2⟩
    obtain ⟨q, hq, hqq⟩ := hfind
    exact List.any_eq_true.mpr ⟨q, hq, hqq⟩

theorem canon_lengths_eq {xs ys : List (Value × Value)}
    (hnx : (canonKeys xs).Nodup) (hny : (canonKeys ys).Nodup)
    (h1 : ∀ k ∈ canonKeys xs, k ∈ canonKeys ys)
    (h2 : ∀ k ∈ canonKeys ys, k ∈ canonKeys xs) :
    xs.length = ys.length := by
  have l1 : (canonKeys xs).length ≤ (canonKeys ys).length := (hnx.subperm h1).length_le
  have l2 : (canonKeys ys).length ≤ (canonKeys xs).length := (hny.subperm h2).length_le
  have h3 : (canonKeys xs).length = (canonKeys ys).length := le_antisymm l1 l2
  simpa [canonKeys] using h3

theorem canon_subset_rev {xs ys : List (Value × Value)}
    (hnx : (canonKeys xs).Nodup)
    (h1 : ∀ k ∈ canonKeys xs, k ∈ canonKeys ys)
    (hlen : xs.length = ys.length) :
    ∀ k ∈ canonKeys ys, k ∈ canonKeys xs := by
  have hperm : List.Perm (canonKeys xs) (canonKeys ys) :=
    (hnx.subperm h1).perm_of_length_le (by simpa [canonKeys] using hlen.ge)
  intro k hk
  exact hperm.mem_iff.mpr hk

theorem C9_main_aux : ∀ (n : Nat) (a b : Value), sizeOf a + sizeOf b ≤ n →
    wfValue a = true → wfValue b = true → values_equal a b = pyEq a b := by
  intro n
  induction n using Nat.strong_induction_on with
  | _ n IH =>
    intro a b hn ha hb
    cases a <;> cases b <;>
      simp [values_equal, isNullV, isBoolV, isNumV, isStrV, pyEq]
    case varr.varr xs ys =>
      have ha' : wfList xs = true := by rw [wfValue] at ha; exact ha
      have hb' : wfList ys = true := by rw [wfValue] at hb; exact hb
      by_cases hlen : xs.length = ys.length
      · have hd : decide (xs.length = ys.length) = true := by simp [hlen]
        rw [hd, Bool.true_and, values_equal_zip_eq hlen]
        intro x hx y hy
        have h1 : sizeOf x < sizeOf xs := List.sizeOf_lt_of_mem hx
        have h2 : sizeOf y < sizeOf ys := List.sizeOf_lt_of_mem hy
        exact IH (sizeOf x + sizeOf y) (by simp at hn; omega) x y le_rfl
          (wfList_mem ha' x hx) (wfList_mem hb' y hy)
      · have hd : decide (xs.length = ys.length) = false := by simp [hlen]
        rw [hd, Bool.false_and]
        exact (pyEqList_ragged hlen).symm
    case vdict.vdict xs ys =>
      have ha' : wfPairs xs = true ∧ keysNodupB xs = true := by
        rw [wfValue, Bool.and_eq_true] at ha; exact ha
      have hb' : wfPairs ys = true ∧ keysNodupB ys = true := by
        rw [wfValue, Bool.and_eq_true] at hb; exact hb
      obtain ⟨hxp, hxn⟩ := ha'
      obtain ⟨hyp, hyn⟩ := hb' 
      have hxh : ∀ p ∈ xs, isUnhashable p.1 = false := fun p hp => (wfPairs_mem hxp p hp).1
      have hyh : ∀ p ∈ ys, isUnhashable p.1 = false := fun p hp => (wfPairs_mem hyp p hp).1
      have hnx := keysNodupB_canon hxh hxn
      have hny := keysNodupB_canon hyh hyn
      by_cases hsub : (keysSubset xs ys && keysSubset ys xs) = true
      · have hsub2 := hsub
        rw [Bool.and_eq_true] at hsub2
        obtain ⟨hs1, hs2⟩ := hsub2
        have hlen : xs.length = ys.length :=
          canon_lengths_eq hnx hny ((keysSubset_iff_canon hxh hyh).mp hs1)
            ((keysSubset_iff_canon hyh hxh).mp hs2)
        have hpt : ∀ p ∈ xs, ∀ q ∈ ys, values_equal p.2 q.2 = pyEq p.2 q.2 := by
          intro p hp q hq
          have h1 : sizeOf p.2 < sizeOf xs := by
            have hq1 := List.sizeOf_lt_of_mem hp
            obtain ⟨k, v⟩ := p
            simp at hq1 ⊢
            omega
          have h2 : sizeOf q.2 < sizeOf ys := by
            have hq2 := List.sizeOf_lt_of_mem hq
            obtain ⟨k, v⟩ := q
            simp at hq2 ⊢
            omega
          exact IH (sizeOf p.2 + sizeOf q.2) (by simp at hn; omega) p.2 q.2 le_rfl
            (wfPairs_mem hxp p hp).2 (wfPairs_mem hyp q hq).2
        rw [hsub, Bool.true_and, values_equal_dict_eq hpt, hlen, beq_self_eq_true,
            Bool.true_and]
      · have hsub' : (keysSubset xs ys && keysSubset ys xs) = false :=
          Bool.not_eq_true _ ▸ hsub
        rw [hsub', Bool.false_and]
        by_cases hR : ((xs.length == ys.length) && pyEqPairs xs ys) = true
        · exfalso
          rw [Bool.and_eq_true] at hR
          obtain ⟨hlenb, hpairs⟩ := hR
          have hlen : xs.length = ys.length := by simpa using hlenb
          have hs1 : keysSubset xs ys = true := pyEqPairs_keysSubset hpairs
          have hs2 : keysSubset ys xs = true := by
            rw [keysSubset_iff_canon hyh hxh]
            exact canon_subset_rev hnx ((keysSubset_iff_canon hxh hyh).mp hs1) hlen
          rw [hs1, hs2] at hsub
          exact hsub rfl
        · have hR' := Bool.not_eq_true _ ▸ hR
          rw [hR']

/-- **C9.**  On runtime values — values the interpreter can build, i.e. with
hashable, pairwise non-`==` dictionary keys everywhere (`wfValue`) — the
switch-matching equality `_values_equal` agrees with the `==` operator's
`is_equal` on every pair: the two embedded equality functions are
extensionally equal on the reachable value domain.  (On arbitrary model
values they differ only at dictionaries with duplicate `==`-equal keys,
which `pyDictInsert`'s replace-on-equal-key semantics can never create.) -/
theorem C9_values_equal_eq_is_equal (a b : Value)
    (ha : wfValue a = true) (hb : wfValue b = true) :
    values_equal a b = is_equal a b :=
  C9_main_aux (sizeOf a + sizeOf b) a b le_rfl ha hb

/-- Witness for C9 at the dictionaries `\x7b"k": 1\x7d` and
`\x7b"k": true\x7d` (equal under both predicates, since `1 == true`). -/
theorem C9_values_equal_eq_is_equal_witness :
    wfValue (.vdict [(.vstr "k", .vint 1)]) = true ∧
    wfValue (.vdict [(.vstr "k", .vbool true)]) = true ∧
    values_equal (.vdict [(.vstr "k", .vint 1)]) (.vdict [(.vstr "k", .vbool true)])
      = is_equal (.vdict [(.vstr "k", .vint 1)]) (.vdict [(.vstr "k", .vbool true)]) := by
  refine ⟨?_, ?_, ?_⟩
  · simp [wfValue, wfPairs, keysNodupB, isUnhashable]
  · simp [wfValue, wfPairs, keysNodupB, isUnhashable]
  · exact C9_values_equal_eq_is_equal _ _
      (by simp [wfValue, wfPairs, keysNodupB, isUnhashable])
      (by simp [wfValue, wfPairs, keysNodupB, isUnhashable])

/-! ## C10 — short-circuit logical operators -/

/-- C10: for `a || b`, a truthy `a` is returned as-is (for **every** `b`,
i.e. `b` is not evaluated) and a falsy `a` makes the whole expression
evaluate exactly as `b`; dually for `a && b`; the result is always the
operand value itself, never a coerced boolean. -/
theorem C10_logical_short_circuit (fuel : Nat) (st : State) (envId : Nat)
    (a b : Expr) (st1 : State) (va : Value)
    (ha : evalExpr fuel st envId a = some (st1, .ok va)) :
    (is_truthy va = true →
      evalExpr (fuel + 1) st envId (.logical a "||" b) = some (st1, .ok va) ∧
      evalExpr (fuel + 1) st envId (.logical a "&&" b) = evalExpr fuel st1 envId b) ∧
    (is_truthy va = false →
      evalExpr (fuel + 1) st envId (.logical a "||" b) = evalExpr fuel st1 envId b ∧
      evalExpr (fuel + 1) st envId (.logical a "&&" b) = some (st1, .ok va)) := by
  constructor
  · intro ht
    constructor <;> simp [evalExpr, ha, ht]
  · intro hf
    constructor <;> simp [evalExpr, ha, hf]

/-- Witness for C10 at `0 || "s"` and `0 && "s"`: the falsy left operand `0`
is itself returned by `&&`, and `||` evaluates the right operand. -/
theorem C10_logical_short_circuit_witness :
    evalExpr 1 initState 0 (.literal (.intV 0) none) = some (initState, .ok (.vint 0)) ∧
    is_truthy (.vint 0) = false ∧
    evalExpr 2 initState 0 (.logical (.literal (.intV 0) none) "||" (.literal (.strV "s") none)) =
      evalExpr 1 initState 0 (.literal (.strV "s") none) ∧
    evalExpr 2 initState 0 (.logical (.literal (.intV 0) none) "&&" (.literal (.strV "s") none)) =
      some (initState, .ok (.vint 0)) := by
  refine ⟨by rfl, by rfl, ?_, ?_⟩
  · exact ((C10_logical_short_circuit 1 initState 0 (.literal (.intV 0) none)
      (.literal (.strV "s") none) initState (.vint 0) (by rfl)).2 (by rfl)).1
  · exact ((C10_logical_short_circuit 1 initState 0 (.literal (.intV 0) none)
      (.literal (.strV "s") none) initState (.vint 0) (by rfl)).2 (by rfl)).2

end Lapis
